import Mathlib

/-!
# LightUps: NHS serial driver, lifecycle manager and report transport

A shallow embedding of the telemetry pipeline of the LightUps repository:

* `src/common/plugins/nhs_driver/nhs_driver.{h,cpp}`: ring buffer, frame
  decoder, handshake / watchdog state machine (`Nhs_driver`);
* `src/common/lightups_api/lightups_api.cpp`: driver lifecycle manager
  (`Ups_api_library`);
* `src/common/include/ipc_constants.h`, `src/service/ups_ipc_server.cpp`,
  `src/gui/systemtrayapp.cpp`: report serialisation and framing.

Conventions.  Member functions become functions from the object state to the
new state together with the list of things the call emitted (Qt signals,
debug lines, serial writes), in program order.  C++ `int` cursors that are
kept inside `0..127` by masking are natural numbers; a byte is a natural
number reduced modulo 256 where the C++ type is `uint8_t` / `quint8`.
`QDateTime::currentDateTime()` is the explicit argument `now`.
-/

namespace LightUps

/-! ## Qt value types -/

/-- A `QString`: either the null string (`QString()`) or a sequence of UTF-16
code units. -/
inductive QString where
  | null : QString
  | str (units : List Nat) : QString
deriving DecidableEq, Repr

namespace QString

/-- The UTF-16 code units of the string (none for the null string). -/
def units : QString → List Nat
  | null => []
  | str u => u

/-- A string literal in the source (ASCII text). -/
def lit (s : String) : QString := str (s.toList.map Char.toNat)

/-- The method `QString::isEmpty()`. -/
def isEmpty (q : QString) : Bool := q.units.isEmpty

/-- Qt string comparison `operator==`: a null string equals an empty one. -/
def equals (a b : QString) : Bool := decide (a.units = b.units)

end QString

/-- A `QDateTime` as the wall-clock fields `QDataStream` transports: the Julian
day of the date, the milliseconds since midnight of the time and the
`Qt::TimeSpec` (0 = LocalTime, 1 = UTC, 2 = OffsetFromUTC with its offset in
seconds).  The default-constructed value is the null date-time.  Time-zone
resolution of the wall-clock fields is outside the model. -/
structure QDateTime where
  jd : Int
  mds : Int
  timeSpec : Nat
  offset : Int
deriving DecidableEq, Repr

/-- The value `QDateTime()`: null date (`jd` is the minimum 64-bit integer), null
time (`mds = -1`), local time. -/
def QDateTime.null : QDateTime := ⟨-(2 ^ 63), -1, 0, 0⟩

/-- A C++ `float`, by its IEEE-754 binary32 bit pattern. -/
structure CFloat where
  bits : Nat
deriving DecidableEq, Repr

/-- A C++ `double`, by its IEEE-754 binary64 bit pattern. -/
structure CDouble where
  bits : Nat
deriving DecidableEq, Repr

/-- The value `0.0`. -/
def CDouble.zero : CDouble := ⟨0⟩

/-- Floor of the binary logarithm, by repeated halving (`fuel` bounds the
number of halvings). -/
def log2Fuel : Nat → Nat → Nat
  | 0, _ => 0
  | fuel + 1, n => if n < 2 then 0 else log2Fuel fuel (n / 2) + 1

/-- Conversion of a non-negative integer below `2 ^ 53` to `double` (exact). -/
def CDouble.ofNat (n : Nat) : CDouble :=
  if n = 0 then ⟨0⟩
  else
    let e := log2Fuel 64 n
    ⟨(e + 1023) * 2 ^ 52 + (n * 2 ^ (52 - e) - 2 ^ 52)⟩

/-- The binary32 division `(float)n / 10.0f` for `0 ≤ n < 2 ^ 24`, rounded to
nearest, ties to even.  The quotient is `m * 2 ^ (e - 23 - 4)` with the 24-bit
significand `m`, where `e - 4` is the exponent (`n / 10 ≥ 1 / 16`). -/
def CFloat.divTen (n : Nat) : CFloat :=
  if n = 0 then ⟨0⟩
  else
    -- 16 * n / 10 lies in [2 ^ e, 2 ^ (e + 1))
    let e := log2Fuel 64 (16 * n / 10)
    -- n / 10 * 2 ^ (23 - (e - 4)) = num / den
    let num := 16 * n * 2 ^ (23 - e)
    let den := 10 * 2 ^ (e - 23)
    let q := num / den
    let r := num % den
    let m := if 2 * r > den ∨ (2 * r = den ∧ q % 2 = 1) then q + 1 else q
    let e1 := if m = 2 ^ 24 then e + 1 else e
    let m1 := if m = 2 ^ 24 then 2 ^ 23 else m
    ⟨(e1 + 127 - 4) * 2 ^ 23 + (m1 - 2 ^ 23)⟩

/-- Widening of a finite, normal, non-negative `float` to `double` (exact). -/
def CDouble.ofFloat (f : CFloat) : CDouble :=
  if f.bits = 0 then ⟨0⟩
  else ⟨(f.bits / 2 ^ 23 + 1023 - 127) * 2 ^ 52 + (f.bits % 2 ^ 23) * 2 ^ 29⟩

/-! ## `ups_report.h` -/

/-- The enumeration `UpsMonitor::UpsState`, by its underlying `int` value (a
scoped enumeration can hold every value of its underlying type, which is what
the cast in `operator>>` produces). -/
structure UpsState where
  val : Int
deriving DecidableEq, Repr

namespace UpsState
def Unknown : UpsState := ⟨0⟩
def OnlineFull : UpsState := ⟨1⟩
def OnlineCharging : UpsState := ⟨2⟩
def OnlineFault : UpsState := ⟨3⟩
def OnBattery : UpsState := ⟨4⟩
def BatteryCritical : UpsState := ⟨5⟩
end UpsState

/-- The record `struct UpsData`. -/
structure UpsData where
  timestamp : QDateTime
  state : UpsState
  inputVoltage : CDouble
  outputVoltage : CDouble
  batteryVoltage : CDouble
  batteryLevel : CDouble
  temperatureC : CDouble
  loadPercentage : Int
  BatteryFault : Bool
  statusMessage : QString
deriving DecidableEq, Repr

/-- The default member initialisers of `UpsData`, i.e. the value `UpsData()`. -/
def UpsData.default : UpsData :=
  { timestamp := QDateTime.null
    state := UpsState.Unknown
    inputVoltage := CDouble.zero
    outputVoltage := CDouble.zero
    batteryVoltage := CDouble.zero
    batteryLevel := CDouble.zero
    temperatureC := CDouble.zero
    loadPercentage := 0
    BatteryFault := false
    statusMessage := QString.lit "Initialiseren..." }

/-- The record `struct UpsServiceStatus`. -/
structure UpsServiceStatus where
  timestamp : QDateTime
  driverLoaded : Bool
  driverInitialized : Bool
  dataCommunicationActive : Bool
  activeDriverName : QString
  activeComPort : QString
  lastErrorMessage : QString
deriving DecidableEq, Repr

/-- The default member initialisers of `UpsServiceStatus`. -/
def UpsServiceStatus.default : UpsServiceStatus :=
  { timestamp := QDateTime.null
    driverLoaded := false
    driverInitialized := false
    dataCommunicationActive := false
    activeDriverName := QString.null
    activeComPort := QString.null
    lastErrorMessage := QString.null }

/-- The record `struct UpsReport`. -/
structure UpsReport where
  data : UpsData
  serviceStatus : UpsServiceStatus
deriving DecidableEq, Repr

/-! ## `nhs_driver.h`: protocol records and driver state -/

namespace NhsStatusBits
def FREQUENCY_ASYNC : Nat := 0x01
def BATTERY_LOW_CRITICAL : Nat := 0x02
def INVERTER_ACTIVE : Nat := 0x08
def BATTERY_CHARGING : Nat := 0x10
def BATTERY_FLOW_ACTIVE : Nat := 0x80
end NhsStatusBits

/-- The packed record `nhs_data_payload_t`: the 16 payload bytes of a type D
frame, in wire order. -/
structure nhs_data_payload_t where
  vacinrms_low : Nat
  vacinrms_high : Nat
  vdcmed_low : Nat
  vdcmed_high : Nat
  potrms : Nat
  vacinrmsmin_low : Nat
  vacinrmsmin_high : Nat
  vacinrmsmax_low : Nat
  vacinrmsmax_high : Nat
  vacoutrms_low : Nat
  vacoutrms_high : Nat
  tempmed_low : Nat
  tempmed_high : Nat
  icarregrms : Nat
  statusval : Nat
  unknown_status : Nat
deriving DecidableEq, Repr

/-- The packed record `nhs_hardware_payload_t`: the 13 payload bytes of a type S
frame, in wire order. -/
structure nhs_hardware_payload_t where
  unknown_id_byte_1 : Nat
  unknown_id_byte_2 : Nat
  unknown_id_byte_3 : Nat
  unknown_id_byte_4 : Nat
  unknown_id_byte_5 : Nat
  undervoltage_127V_byte : Nat
  overvoltage_127V_byte : Nat
  undervoltage_220V_byte : Nat
  overvoltage_220V_byte : Nat
  output_voltage_byte : Nat
  input_voltage_byte : Nat
  unknown_byte_6 : Nat
  unknown_byte_7 : Nat
deriving DecidableEq, Repr

/-- The record `pkt_data_t`: raw payloads and the values parsed from them. -/
structure pkt_data_t where
  payload : nhs_data_payload_t
  hardware_payload : nhs_hardware_payload_t
  input_voltage_v : Nat
  battery_voltage_v : CFloat
  output_voltage_v : Nat
  temperature_c : Nat
  power_rms_percent : Nat
  input_voltage_min_v : Nat
  input_voltage_max_v : Nat
  s_battery_mode : Bool
  s_battery_low : Bool
  s_network_failure : Bool
  s_fast_network_failure : Bool
  s_220_in : Bool
  s_220_out : Bool
  s_bypass_on : Bool
  s_charger_on : Bool
  uv_220v : Nat
  ov_220v : Nat
deriving DecidableEq, Repr

/-- A `QTimer`: whether it is running and its interval in milliseconds. -/
structure QTimer where
  active : Bool
  interval : Nat
deriving DecidableEq, Repr

/-- The part of a `QSerialPort` the driver looks at. -/
structure QSerialPort where
  isOpen : Bool
  portName : QString
  readBufferSize : Nat
deriving DecidableEq, Repr

/-- The values of `QSerialPort::SerialPortError` the driver distinguishes. -/
inductive SerialPortError where
  | NoError
  | DeviceNotFoundError
  | ResourceError
  | TimeoutError
  | OtherError
deriving DecidableEq, Repr

/-- The debug lines of the driver (their fixed text, without the values
streamed after it). -/
inductive DriverLog where
  | typeDParsed
  | typeSParsed
  | firstValidData
  | handshakeComplete
  | checksumMismatch
  | portNotAvailable
  | noDataTimeout
  | handshakeFailed
  | sendingSCommand
  | stopSignal
  | timerStopped
  | portClosed
  | serialError
  | usbLost
  | portOpened
deriving DecidableEq, Repr

/-- What a driver slot emits: the three signals of `IUpsDriver`, bytes written
to the serial port, a `QTimer::singleShot` request for `sendInitiatorCommand`,
and debug lines. -/
inductive DriverOut where
  | initializationSuccess
  | initializationFailure (error : QString)
  | dataReceived (data : UpsData)
  | serialWrite (bytes : List Nat)
  | singleShotInitiator (ms : Nat)
  | qDebug (line : DriverLog)
deriving DecidableEq, Repr

def PACKET_LEN_D : Nat := 21
def PACKET_LEN_S : Nat := 18
def MAX_RETRIES : Nat := 5
def HANDSHAKE_TIMEOUT : Nat := 1500
def MONITOR_TIMEOUT : Nat := 3000
def BUFFER_SIZE : Nat := 128
def BUFFER_MASK : Nat := BUFFER_SIZE - 1

/-- The command `getCommandS()`: `FF 09 53 03 00 00 00 5F FE`. -/
def getCommandS : List Nat := [0xFF, 0x09, 0x53, 0x03, 0x00, 0x00, 0x00, 0x5F, 0xFE]

/-- The data members of `class Nhs_driver`.  `m_ringBuffer` maps an index to the
cell content; a cell is a `uint8_t`, so a cell is read modulo 256. -/
structure Nhs_driver where
  m_portName : QString
  m_serialPort : Option QSerialPort
  m_monitorTimer : Option QTimer
  m_latestRawData : pkt_data_t
  m_latestUpsData : UpsData
  m_initialSDataReceived : Bool
  m_retryCount : Nat
  m_handshakeComplete : Bool
  m_ringBuffer : Nat → Nat
  m_head : Nat
  m_tail : Nat

/-- The expression `i & BUFFER_MASK` on a C++ `int`: for a two's-complement
integer the low seven bits are the remainder modulo 128, also when `i` is
negative (as `m_head - m_tail` can be). -/
def maskIndex (i : Int) : Nat := (i % 128).toNat

/-- The cell `m_ringBuffer[i & BUFFER_MASK]`. -/
def ringAt (s : Nhs_driver) (i : Int) : Nat := s.m_ringBuffer (maskIndex i) % 256

/-- The loop condition operand `(m_head - m_tail) & BUFFER_MASK`: the unread
byte count. -/
def unread (s : Nhs_driver) : Nat := maskIndex ((s.m_head : Int) - (s.m_tail : Int))

/-- The call `m_monitorTimer->start(ms)`. -/
def timerStart (t : Option QTimer) (ms : Nat) : Option QTimer :=
  t.map (fun _ => { active := true, interval := ms })

/-- The call `m_monitorTimer->stop()`. -/
def timerStop (t : Option QTimer) : Option QTimer :=
  t.map (fun q => { q with active := false })

/-- Whether the serial port object exists and is open. -/
def portIsOpen (s : Nhs_driver) : Bool :=
  match s.m_serialPort with
  | some p => p.isOpen
  | none => false

/-! ## `nhs_driver.cpp` -/

/-- The accumulator `sum` of `calculate_checksum_ring` after the iterations
`i = 1 .. n` (a `quint16`, so every addition wraps modulo 65536). -/
def checksumSum (s : Nhs_driver) (tail_index : Int) : Nat → Nat
  | 0 => 0
  | n + 1 => (checksumSum s tail_index n + ringAt s (tail_index + ((n + 1 : Nat) : Int))) % 65536

/-- The function `Nhs_driver::calculate_checksum_ring`. -/
def calculate_checksum_ring (s : Nhs_driver) (tail_index : Int) (length : Nat) : Nat :=
  (checksumSum s tail_index length &&& 0xFF) % 256

/-- The function `Nhs_driver::convertRawToUpsData`. -/
def convertRawToUpsData (now : QDateTime) (s : Nhs_driver) : UpsData :=
  let raw := s.m_latestRawData
  let statusVal := raw.payload.statusval
  let base : UpsData :=
    { timestamp := now
      state := UpsState.Unknown
      inputVoltage := CDouble.ofNat raw.input_voltage_v
      outputVoltage := CDouble.ofNat raw.output_voltage_v
      batteryVoltage := CDouble.ofFloat raw.battery_voltage_v
      batteryLevel := CDouble.ofNat 0
      temperatureC := CDouble.ofNat raw.temperature_c
      loadPercentage := max 0 (min 100 (raw.power_rms_percent : Int))
      BatteryFault := raw.s_battery_low
      statusMessage := QString.lit "Initialiseren..." }
  if statusVal &&& NhsStatusBits.BATTERY_LOW_CRITICAL ≠ 0 then
    { base with state := UpsState.BatteryCritical
                statusMessage := QString.lit "CRITICAL: Battery Low. Shutdown required." }
  else if statusVal &&& NhsStatusBits.BATTERY_CHARGING = 0 then
    { base with state := UpsState.OnBattery
                statusMessage := QString.lit "On Battery (Power Outage)." }
  else if statusVal &&& NhsStatusBits.FREQUENCY_ASYNC ≠ 0 then
    { base with state := UpsState.OnlineFault
                statusMessage := QString.lit "Warning: Input Problem/Network Error." }
  else if statusVal &&& NhsStatusBits.BATTERY_FLOW_ACTIVE ≠ 0 then
    { base with state := UpsState.OnlineCharging
                statusMessage := QString.lit "Battery is Actively Charging." }
  else
    { base with state := UpsState.OnlineFull
                statusMessage := QString.lit "Online (AC OK, Battery Full/Trickle Charging)." }

/-- The stack array `linearPacket` of `parse_packet_ring` after the copy loop:
cells below `packetLen` hold the frame bytes; the cells above are not written
(read as 0 here; the function reads none of them when `packetLen` is 18 or
21). -/
def linearPacket (s : Nhs_driver) (tail_index : Int) (packetLen : Nat) (i : Nat) : Nat :=
  if i < packetLen then ringAt s (tail_index + (i : Int)) else 0

/-- The `memcpy` of 16 bytes from `payload_ptr` into `m_latestRawData.payload`. -/
def copyDataPayload (p : Nat → Nat) : nhs_data_payload_t :=
  { vacinrms_low := p 0, vacinrms_high := p 1, vdcmed_low := p 2, vdcmed_high := p 3
    potrms := p 4, vacinrmsmin_low := p 5, vacinrmsmin_high := p 6
    vacinrmsmax_low := p 7, vacinrmsmax_high := p 8, vacoutrms_low := p 9
    vacoutrms_high := p 10, tempmed_low := p 11, tempmed_high := p 12
    icarregrms := p 13, statusval := p 14, unknown_status := p 15 }

/-- The `memcpy` of 13 bytes from `payload_ptr` into
`m_latestRawData.hardware_payload`. -/
def copyHardwarePayload (p : Nat → Nat) : nhs_hardware_payload_t :=
  { unknown_id_byte_1 := p 0, unknown_id_byte_2 := p 1, unknown_id_byte_3 := p 2
    unknown_id_byte_4 := p 3, unknown_id_byte_5 := p 4, undervoltage_127V_byte := p 5
    overvoltage_127V_byte := p 6, undervoltage_220V_byte := p 7
    overvoltage_220V_byte := p 8, output_voltage_byte := p 9, input_voltage_byte := p 10
    unknown_byte_6 := p 11, unknown_byte_7 := p 12 }

/-- The expression `(quint16)low | ((quint16)high << 8)` stored in a `quint16`. -/
def word16 (low high : Nat) : Nat := (low ||| (high <<< 8)) % 65536

/-- The type D branch of `parse_packet_ring` up to `success = true`: the raw
record after the copy and the conversions. -/
def parseDRaw (raw : pkt_data_t) (p : Nat → Nat) : pkt_data_t :=
  let pl := copyDataPayload p
  let status_byte := pl.statusval
  { raw with
    payload := pl
    input_voltage_v := word16 pl.vacinrms_low pl.vacinrms_high
    output_voltage_v := word16 pl.vacoutrms_low pl.vacoutrms_high
    battery_voltage_v := CFloat.divTen (word16 pl.vdcmed_low pl.vdcmed_high)
    temperature_c := word16 pl.tempmed_low pl.tempmed_high
    power_rms_percent := pl.potrms
    s_battery_mode := decide (status_byte &&& (1 <<< 0) ≠ 0)
    s_battery_low := decide (status_byte &&& (1 <<< 1) ≠ 0)
    s_network_failure := decide (status_byte &&& (1 <<< 2) ≠ 0)
    s_fast_network_failure := decide (status_byte &&& (1 <<< 3) ≠ 0)
    s_220_in := decide (status_byte &&& (1 <<< 4) ≠ 0)
    s_220_out := decide (status_byte &&& (1 <<< 5) ≠ 0)
    s_bypass_on := decide (status_byte &&& (1 <<< 6) ≠ 0)
    s_charger_on := decide (status_byte &&& (1 <<< 7) ≠ 0) }

/-- The type S branch of `parse_packet_ring` up to `success = true`. -/
def parseSRaw (raw : pkt_data_t) (p : Nat → Nat) : pkt_data_t :=
  let hp := copyHardwarePayload p
  { raw with
    hardware_payload := hp
    uv_220v := hp.undervoltage_220V_byte
    ov_220v := hp.overvoltage_220V_byte }

/-- The value `silentData` emitted when the handshake completes. -/
def silentData : UpsData :=
  { UpsData.default with
    state := UpsState.Unknown
    statusMessage := QString.lit "Connected, waiting for data..." }

/-- The function `Nhs_driver::parse_packet_ring`: the return value, the new
state and what was emitted. -/
def parse_packet_ring (now : QDateTime) (s : Nhs_driver) (tail_index : Int) (packetLen : Nat) :
    Bool × Nhs_driver × List DriverOut :=
  let lp := linearPacket s tail_index packetLen
  let packet_type := lp 2
  let payload_ptr : Nat → Nat := fun k => lp (3 + k)
  if packet_type = 0x44 ∧ packetLen = PACKET_LEN_D then
    -- Realtime Status (Type 'D')
    let s1 := { s with m_latestRawData := parseDRaw s.m_latestRawData payload_ptr }
    let s2 :=
      if s1.m_handshakeComplete then
        { s1 with m_monitorTimer := timerStart s1.m_monitorTimer MONITOR_TIMEOUT
                  m_initialSDataReceived := true }
      else s1
    let out1 :=
      [DriverOut.qDebug .typeDParsed] ++
        (if s1.m_handshakeComplete ∧ ¬ s1.m_initialSDataReceived
          then [DriverOut.qDebug .firstValidData] else [])
    let s3 := { s2 with m_latestUpsData := convertRawToUpsData now s2 }
    let out2 := if s3.m_initialSDataReceived then [DriverOut.dataReceived s3.m_latestUpsData] else []
    (true, s3, out1 ++ out2)
  else if packet_type = 0x53 ∧ packetLen = PACKET_LEN_S then
    -- Hardware Info (Type 'S')
    let s1 := { s with m_latestRawData := parseSRaw s.m_latestRawData payload_ptr }
    let s2 :=
      if ¬ s1.m_handshakeComplete then
        { s1 with m_handshakeComplete := true
                  m_retryCount := 0
                  m_monitorTimer := timerStart s1.m_monitorTimer MONITOR_TIMEOUT }
      else s1
    let out1 :=
      [DriverOut.qDebug .typeSParsed] ++
        (if ¬ s1.m_handshakeComplete
          then [DriverOut.qDebug .handshakeComplete, DriverOut.initializationSuccess,
                DriverOut.dataReceived silentData]
          else [])
    let s3 := { s2 with m_latestUpsData := convertRawToUpsData now s2 }
    (true, s3, out1)
  else
    (false, s, [])

/-- The ingest loop of `readData`: every byte of `newData` is stored at
`m_head` (cast to `uint8_t`) and `m_head` advances modulo the buffer size. -/
def ingest (s : Nhs_driver) : List Nat → Nhs_driver
  | [] => s
  | c :: rest =>
    ingest
      { s with
        m_ringBuffer := fun j => if j = s.m_head then c % 256 else s.m_ringBuffer j
        m_head := maskIndex ((s.m_head : Int) + 1) }
      rest

/-- One pass through the body of the `while` loop of `readData` that ends in an
assignment to `m_tail`: the number of bytes `m_tail` advances by, the state
after the pass and what was emitted. -/
structure DrainIter where
  advance : Nat
  drv : Nhs_driver
  out : List DriverOut

/-- One evaluation of the `while` condition of `readData` followed by the loop
body: `none` when the loop ends (condition false, or `break`). -/
def drainStep (now : QDateTime) (s : Nhs_driver) : Option DrainIter :=
  if unread s ≥ 9 then
    if ringAt s s.m_tail ≠ 0xFF then
      some ⟨1, { s with m_tail := maskIndex ((s.m_tail : Int) + 1) }, []⟩
    else
      let packetLen := ringAt s ((s.m_tail : Int) + 1)
      if packetLen ≠ PACKET_LEN_D ∧ packetLen ≠ PACKET_LEN_S then
        some ⟨1, { s with m_tail := maskIndex ((s.m_tail : Int) + 1) }, []⟩
      else if unread s < packetLen then none
      else
        let packet_type := ringAt s ((s.m_tail : Int) + 2)
        let data_len := if packet_type = 0x44 then 18 else 15
        let expected_cs := ringAt s ((s.m_tail : Int) + packetLen - 2)
        let last_byte := ringAt s ((s.m_tail : Int) + packetLen - 1)
        let r : Nhs_driver × List DriverOut :=
          if last_byte = 0xFE ∧ calculate_checksum_ring s s.m_tail data_len = expected_cs then
            (parse_packet_ring now s s.m_tail packetLen).2
          else
            (s, [DriverOut.qDebug .checksumMismatch])
        some ⟨packetLen,
          { r.1 with m_tail := maskIndex ((r.1.m_tail : Int) + packetLen) }, r.2⟩
  else none

/-- The result of a `readData` call: the new state, what was emitted, and the
number of bytes by which the call advanced `m_tail` (the sum of the advances of
its loop passes). -/
structure ReadResult where
  drv : Nhs_driver
  out : List DriverOut
  consumed : Nat

/-- The `while` loop of `readData`, run for at most `fuel` passes. -/
def drainLoop (now : QDateTime) : Nat → Nhs_driver → ReadResult
  | 0, s => ⟨s, [], 0⟩
  | fuel + 1, s =>
    match drainStep now s with
    | none => ⟨s, [], 0⟩
    | some it =>
      let r := drainLoop now fuel it.drv
      ⟨r.drv, it.out ++ r.out, it.advance + r.consumed⟩

/-- The slot `Nhs_driver::readData`, with `newData` the bytes returned by
`readAll()`.  The unread count is below `BUFFER_SIZE` and every pass lowers
it, so `BUFFER_SIZE` passes are enough for the loop to end (see
`drainLoop_exits`). -/
def readData (now : QDateTime) (s : Nhs_driver) (newData : List Nat) : ReadResult :=
  drainLoop now BUFFER_SIZE (ingest s newData)

/-- The outcome of `QSerialPort::open`: success, or failure with the error the
port reports through its `errorOccurred` signal. -/
inductive OpenResult where
  | opened
  | failed (error : SerialPortError)
deriving DecidableEq, Repr

/-- The value `errorData` emitted by `handleSerialError`. -/
def errorData : UpsData :=
  { UpsData.default with
    state := UpsState.Unknown
    statusMessage := QString.lit "USB Connection lost (Recovering...)" }

/-- The slot `Nhs_driver::handleSerialError`. -/
def handleSerialError (s : Nhs_driver) (error : SerialPortError) : Nhs_driver × List DriverOut :=
  if error = .NoError ∨ error = .TimeoutError then (s, [])
  else if error = .ResourceError ∨ error = .DeviceNotFoundError then
    ({ s with
       m_serialPort := s.m_serialPort.map (fun p => { p with isOpen := false })
       m_handshakeComplete := false
       m_initialSDataReceived := false },
     [DriverOut.qDebug .serialError, DriverOut.qDebug .usbLost,
      DriverOut.dataReceived errorData])
  else (s, [DriverOut.qDebug .serialError])

/-- The function `Nhs_driver::tryOpenPort`, with `res` the outcome of
`m_serialPort->open(QIODevice::ReadWrite)`.  A failed `open` reports its error
through `errorOccurred`, which `initialize` connected directly to
`handleSerialError`, so that slot runs inside the failed call. -/
def tryOpenPort (s : Nhs_driver) (res : OpenResult) : Bool × Nhs_driver × List DriverOut :=
  match s.m_serialPort with
  | none => (false, s, [])
  | some p =>
    if p.isOpen then (true, s, [])
    else
      let p1 : QSerialPort := { p with portName := s.m_portName }
      match res with
      | .opened =>
        (true, { s with m_serialPort := some { p1 with isOpen := true } },
          [DriverOut.qDebug .portOpened, DriverOut.singleShotInitiator 500])
      | .failed error =>
        let r := handleSerialError { s with m_serialPort := some p1 } error
        (false, r.1, r.2)

/-- The function `Nhs_driver::initialize` (the name is a reserved word
here).  Always returns `true`. -/
def initializeDriver (s : Nhs_driver) (connectionInfo : QString) (res : OpenResult) :
    Nhs_driver × List DriverOut :=
  let s1 : Nhs_driver :=
    { s with
      m_portName := connectionInfo
      m_serialPort :=
        match s.m_serialPort with
        | none => some { isOpen := false, portName := QString.null, readBufferSize := 128 }
        | some p => some p
      m_monitorTimer :=
        match s.m_monitorTimer with
        | none => some { active := false, interval := 0 }
        | some t => some t
      m_handshakeComplete := false
      m_retryCount := 0 }
  let r := tryOpenPort s1 res
  let out := r.2.2 ++ (if r.1 then [] else [DriverOut.qDebug .portNotAvailable])
  ({ r.2.1 with m_monitorTimer := timerStart r.2.1.m_monitorTimer 3000 }, out)

/-- The text `tr("Handshake failed: No S-record received after %1
attempts.").arg(m_retryCount)`. -/
def handshakeFailedText (retryCount : Nat) : QString :=
  QString.lit ("Handshake failed: No S-record received after " ++ Nat.repr retryCount ++ " attempts.")

/-- The function `Nhs_driver::sendInitiatorCommand`. -/
def sendInitiatorCommand (s : Nhs_driver) : Nhs_driver × List DriverOut :=
  if s.m_handshakeComplete then (s, [])
  else if s.m_retryCount ≥ MAX_RETRIES then
    ({ s with m_monitorTimer := timerStop s.m_monitorTimer },
     [DriverOut.qDebug .handshakeFailed,
      DriverOut.initializationFailure (handshakeFailedText s.m_retryCount)])
  else
    ({ s with
       m_retryCount := s.m_retryCount + 1
       m_monitorTimer := timerStart s.m_monitorTimer HANDSHAKE_TIMEOUT },
     [DriverOut.qDebug .sendingSCommand, DriverOut.serialWrite getCommandS])

/-- The slot `Nhs_driver::onMonitorTimeout`, with `res` the outcome of the
`open` attempted when the port is closed. -/
def onMonitorTimeout (s : Nhs_driver) (res : OpenResult) : Nhs_driver × List DriverOut :=
  if ¬ portIsOpen s then
    let r := tryOpenPort s res
    (r.2.1, r.2.2)
  else if ¬ s.m_handshakeComplete then
    sendInitiatorCommand s
  else
    let r := sendInitiatorCommand { s with m_handshakeComplete := false }
    (r.1, [DriverOut.qDebug .noDataTimeout] ++ r.2)

/-- The slot `Nhs_driver::stopDriver`. -/
def stopDriver (s : Nhs_driver) : Nhs_driver × List DriverOut :=
  let open1 := portIsOpen s
  ({ s with
     m_monitorTimer := timerStop s.m_monitorTimer
     m_serialPort := s.m_serialPort.map (fun p => { p with isOpen := false }) },
   [DriverOut.qDebug .stopSignal] ++
     (if s.m_monitorTimer.isSome then [DriverOut.qDebug .timerStopped] else []) ++
     (if open1 then [DriverOut.qDebug .portClosed] else []))

/-- What the event loop of the worker thread delivers to the driver: serial
data, an expiry of the monitor timer, the firing of the single-shot request for
`sendInitiatorCommand`, a serial error, and the stop request. -/
inductive DriverEvent where
  | readyRead (now : QDateTime) (newData : List Nat)
  | monitorTimeout (res : OpenResult)
  | initiatorShot
  | serialError (error : SerialPortError)
  | stop
deriving DecidableEq, Repr

/-- The slot the event runs. -/
def driverStep (s : Nhs_driver) : DriverEvent → Nhs_driver × List DriverOut
  | .readyRead now newData => let r := readData now s newData; (r.drv, r.out)
  | .monitorTimeout res => onMonitorTimeout s res
  | .initiatorShot => sendInitiatorCommand s
  | .serialError error => handleSerialError s error
  | .stop => stopDriver s

/-- A sequence of events, with everything emitted in order. -/
def driverRun (s : Nhs_driver) : List DriverEvent → Nhs_driver × List DriverOut
  | [] => (s, [])
  | e :: rest =>
    let r := driverStep s e
    let r2 := driverRun r.1 rest
    (r2.1, r.2 ++ r2.2)

/-! ## `lightups_api.cpp`: the driver lifecycle manager -/

/-- A value held by the configuration store (`QVariant`). -/
inductive QVariant where
  | string (q : QString)
  | int (n : Int)
  | bool (b : Bool)
deriving DecidableEq, Repr

/-- The conversion `QVariant::toString()`. -/
def QVariant.toQString : QVariant → QString
  | .string q => q
  | .int n => QString.lit (if n < 0 then "-" ++ Nat.repr n.natAbs else Nat.repr n.natAbs)
  | .bool b => QString.lit (if b then "true" else "false")

/-- The configuration store (`QSettings`): the value stored under a key (given
by its code units), if any. -/
abbrev Settings := List Nat → Option QVariant

/-- The expression `settings.value(key).toString()`: an absent key gives the
invalid variant, whose string is the null string. -/
def Settings.valueString (st : Settings) (key : QString) : QString :=
  match st key.units with
  | some v => v.toQString
  | none => QString.null

namespace AppConstants
def REG_KEY_SELECTED_COM_PORT : QString := QString.lit "SelectedComPort"
def REG_KEY_SELECTED_DRIVER_FILE : QString := QString.lit "SelectedDriver"
def REG_KEY_SHUTDOWN_DELAY : QString := QString.lit "ShutdownDelay"
def REG_KEY_POWER_SAFE_ENABLED : QString := QString.lit "PowerSafeEnabled"
end AppConstants

/-- What `QPluginLoader::instance()` followed by
`qobject_cast<IUpsDriver*>` gives for a driver file name: no plugin object
(with the loader's error string), an object without the driver interface, or a
driver. -/
inductive PluginInstance where
  | loadFailed (errorString : QString)
  | notADriver
  | driver
deriving DecidableEq, Repr

/-- What the manager reads from its surroundings during one slot: the clock,
the configuration store and the plugin loader. -/
structure ApiEnv where
  now : QDateTime
  settings : Settings
  pluginInstance : QString → PluginInstance

/-- A `QThread` object: whether it is running. -/
structure QThread where
  isRunning : Bool
deriving DecidableEq, Repr

/-- The debug lines of the manager. -/
inductive ApiLog where
  | startingSafeCleanup
  | startingRecoveryTimer
  | hardwareSettingsChanged
  | onlyLogicalSettingsChanged
deriving DecidableEq, Repr

/-- What a manager slot emits or requests: the signal `upsReportAvailable`, the
blocking `stopDriver` invocation on the worker thread, the end of the worker
thread, the deletion of the driver object, the unloading of the plugin, the
start of a worker thread (whose `started` handler calls `initialize(comPort)`
on the driver), and debug lines. -/
inductive ApiOut where
  | upsReportAvailable (report : UpsReport)
  | invokeStopDriver
  | workerThreadEnded
  | driverDeleted
  | pluginUnloaded
  | workerThreadStarted (comPort : QString)
  | qDebug (line : ApiLog)
deriving DecidableEq, Repr

/-- The single-shot `QTimer` of the manager: whether it is pending, its interval
and, while it is pending, the milliseconds left until it fires. -/
structure QSingleShotTimer where
  active : Bool
  interval : Nat
  remaining : Nat
deriving DecidableEq, Repr

/-- The call `start()` on the single-shot timer: it fires one interval from
now. -/
def QSingleShotTimer.start (t : QSingleShotTimer) : QSingleShotTimer :=
  { t with active := true, remaining := t.interval }

/-- The call `stop()` on the single-shot timer. -/
def QSingleShotTimer.stop (t : QSingleShotTimer) : QSingleShotTimer :=
  { t with active := false }

/-- The data members of `class Ups_api_library` (an object pointer is `true`
when it is not null; the worker thread is `none` when null). -/
structure Ups_api_library where
  m_driver : Bool
  m_pluginLoader : Bool
  m_workerThread : Option QThread
  m_recoveryTimer : QSingleShotTimer
  m_currentStatus : UpsServiceStatus
deriving DecidableEq, Repr

/-- The state the constructor `Ups_api_library::Ups_api_library` leaves: a
single-shot recovery timer with interval 5000, not running. -/
def Ups_api_library.new : Ups_api_library :=
  { m_driver := false
    m_pluginLoader := false
    m_workerThread := none
    m_recoveryTimer := { active := false, interval := 5000, remaining := 0 }
    m_currentStatus := UpsServiceStatus.default }

/-- The function `Ups_api_library::emitUpsReport`. -/
def emitUpsReport (now : QDateTime) (m : Ups_api_library) (data : UpsData) :
    Ups_api_library × List ApiOut :=
  let m1 := { m with m_currentStatus := { m.m_currentStatus with timestamp := now } }
  let report : UpsReport := { serviceStatus := m1.m_currentStatus, data := data }
  let report1 : UpsReport :=
    if ¬ m1.m_currentStatus.dataCommunicationActive then
      { report with
        data :=
          { report.data with
            statusMessage := QString.lit "No active connection"
            batteryLevel := CDouble.ofNat 0
            state := UpsState.Unknown
            inputVoltage := CDouble.ofNat 0
            outputVoltage := CDouble.ofNat 0
            batteryVoltage := CDouble.ofNat 0
            temperatureC := CDouble.ofNat 0
            loadPercentage := 0
            timestamp := now
            BatteryFault := false } }
    else report
  (m1, [ApiOut.upsReportAvailable report1])

/-- The slot `Ups_api_library::onDriverInitFailure`.  The recovery timer is
started with the interval set in the constructor. -/
def onDriverInitFailure (now : QDateTime) (m : Ups_api_library) (error : QString) :
    Ups_api_library × List ApiOut :=
  let m1 :=
    { m with
      m_currentStatus :=
        { m.m_currentStatus with driverInitialized := false, lastErrorMessage := error } }
  let r := emitUpsReport now m1 UpsData.default
  if ¬ r.1.m_recoveryTimer.active then
    ({ r.1 with m_recoveryTimer := r.1.m_recoveryTimer.start },
      r.2 ++ [ApiOut.qDebug .startingRecoveryTimer])
  else r

/-- The slot `Ups_api_library::onDriverInitSuccess`. -/
def onDriverInitSuccess (now : QDateTime) (m : Ups_api_library) :
    Ups_api_library × List ApiOut :=
  let m1 :=
    { m with
      m_currentStatus :=
        { m.m_currentStatus with driverInitialized := true, lastErrorMessage := QString.null }
      m_recoveryTimer := m.m_recoveryTimer.stop }
  let m2 :=
    { m1 with m_currentStatus := { m1.m_currentStatus with dataCommunicationActive := false } }
  emitUpsReport now m2 UpsData.default

/-- The slot `Ups_api_library::handleDriverData`. -/
def handleDriverData (now : QDateTime) (m : Ups_api_library) (data : UpsData) :
    Ups_api_library × List ApiOut :=
  emitUpsReport now
    { m with m_currentStatus := { m.m_currentStatus with dataCommunicationActive := true } }
    data

/-- The function `Ups_api_library::cleanupDriver`. -/
def cleanupDriver (now : QDateTime) (m : Ups_api_library) : Ups_api_library × List ApiOut :=
  let m1 :=
    { m with
      m_recoveryTimer := m.m_recoveryTimer.stop
      m_currentStatus :=
        { m.m_currentStatus with
          driverLoaded := false
          driverInitialized := false
          dataCommunicationActive := false } }
  let r := emitUpsReport now m1 UpsData.default
  let running : Bool :=
    match r.1.m_workerThread with
    | some t => t.isRunning
    | none => false
  let outStop := if r.1.m_driver && running then [ApiOut.invokeStopDriver] else []
  let outThread := if r.1.m_workerThread.isSome then [ApiOut.workerThreadEnded] else []
  let outDriver := if r.1.m_driver then [ApiOut.driverDeleted] else []
  let outPlugin := if r.1.m_pluginLoader then [ApiOut.pluginUnloaded] else []
  ({ r.1 with m_workerThread := none, m_driver := false, m_pluginLoader := false },
    [ApiOut.qDebug .startingSafeCleanup] ++ r.2 ++ outStop ++ outThread ++ outDriver ++ outPlugin)

/-- Concatenation of two strings (`+`, and `arg` at the end of a text). -/
def QString.append (a b : QString) : QString := QString.str (a.units ++ b.units)

/-- The slot `Ups_api_library::loadAndStartDriver`: the return value, the new
state and what was emitted. -/
def loadAndStartDriver (env : ApiEnv) (m : Ups_api_library) :
    Bool × Ups_api_library × List ApiOut :=
  let c := cleanupDriver env.now m
  let driverFileName := env.settings.valueString AppConstants.REG_KEY_SELECTED_DRIVER_FILE
  let comPort := env.settings.valueString AppConstants.REG_KEY_SELECTED_COM_PORT
  if driverFileName.isEmpty ∨ comPort.isEmpty then
    let f := onDriverInitFailure env.now c.1 (QString.lit "Missing configuration (Driver/Port)")
    (false, f.1, c.2 ++ f.2)
  else
    let m1 :=
      { c.1 with
        m_currentStatus :=
          { c.1.m_currentStatus with activeDriverName := driverFileName, activeComPort := comPort }
        m_pluginLoader := true }
    match env.pluginInstance driverFileName with
    | .loadFailed errorString =>
      let f := onDriverInitFailure env.now m1
        (QString.append (QString.lit "Plugin load failed: ") errorString)
      (false, f.1, c.2 ++ f.2)
    | .notADriver =>
      let f := onDriverInitFailure env.now m1 (QString.lit "Invalid Interface")
      (false, f.1, c.2 ++ f.2)
    | .driver =>
      (true,
        { m1 with
          m_driver := true
          m_currentStatus := { m1.m_currentStatus with driverLoaded := true }
          m_workerThread := some { isRunning := true } },
        c.2 ++ [ApiOut.workerThreadStarted comPort])

/-- The slot `Ups_api_library::onRegistryChanged`. -/
def onRegistryChanged (env : ApiEnv) (m : Ups_api_library) : Ups_api_library × List ApiOut :=
  let newDriver := env.settings.valueString AppConstants.REG_KEY_SELECTED_DRIVER_FILE
  let newPort := env.settings.valueString AppConstants.REG_KEY_SELECTED_COM_PORT
  if ¬ newDriver.equals m.m_currentStatus.activeDriverName ∨
      ¬ newPort.equals m.m_currentStatus.activeComPort then
    let r := loadAndStartDriver env m
    (r.2.1, [ApiOut.qDebug .hardwareSettingsChanged] ++ r.2.2)
  else
    (m, [ApiOut.qDebug .onlyLogicalSettingsChanged])

/-- The slot the manager runs for something the driver emitted, by the
connections made in `loadAndStartDriver` and in the constructor:
`dataReceived` to `handleDriverData`, `initializationFailure` (through
`driverInitFailure`) to `onDriverInitFailure`, `initializationSuccess` (through
`driverInitSuccess`) to `onDriverInitSuccess`.  Nothing else reaches the
manager. -/
def deliver (now : QDateTime) (m : Ups_api_library) : DriverOut → Ups_api_library × List ApiOut
  | .dataReceived data => handleDriverData now m data
  | .initializationFailure error => onDriverInitFailure now m error
  | .initializationSuccess => onDriverInitSuccess now m
  | _ => (m, [])

/-- The manager processing, in order, everything a driver slot emitted (the
connections are queued, so the order of emission is the order of delivery). -/
def deliverAll (now : QDateTime) (m : Ups_api_library) : List DriverOut → Ups_api_library × List ApiOut
  | [] => (m, [])
  | e :: rest =>
    let r := deliver now m e
    let r2 := deliverAll now r.1 rest
    (r2.1, r.2 ++ r2.2)

/-! ## `QDataStream` (version `Qt_6_0`, big-endian) -/

/-- The `k` big-endian bytes of `v` (reduced modulo `256 ^ k`). -/
def beBytes : Nat → Nat → List Nat
  | 0, _ => []
  | k + 1, v => (v / 256 ^ k) % 256 :: beBytes k v

/-- The number a big-endian byte sequence stands for. -/
def beValue (bs : List Nat) : Nat := bs.foldl (fun acc b => acc * 256 + b) 0

/-- The two's-complement bit pattern of a signed integer in `w` bits. -/
def toUnsigned (w : Nat) (i : Int) : Nat := (i % 2 ^ w).toNat

/-- The signed integer a `w`-bit pattern stands for. -/
def toSigned (w : Nat) (n : Nat) : Int := if n < 2 ^ (w - 1) then (n : Int) else (n : Int) - 2 ^ w

def putUInt32 (n : Nat) : List Nat := beBytes 4 n
def putInt32 (i : Int) : List Nat := beBytes 4 (toUnsigned 32 i)
def putInt64 (i : Int) : List Nat := beBytes 8 (toUnsigned 64 i)
def putInt8 (i : Int) : List Nat := beBytes 1 (toUnsigned 8 i)
def putBool (b : Bool) : List Nat := putInt8 (if b then 1 else 0)
def putDouble (d : CDouble) : List Nat := beBytes 8 d.bits

/-- The bytes of a sequence of UTF-16 code units, high byte first. -/
def unitsToBytes : List Nat → List Nat
  | [] => []
  | u :: rest => (u / 256) % 256 :: u % 256 :: unitsToBytes rest

/-- The code units of a byte sequence of even length. -/
def bytesToUnits : List Nat → List Nat
  | hi :: lo :: rest => (hi * 256 + lo) :: bytesToUnits rest
  | _ => []

/-- Writing a `QString`: the marker `0xFFFFFFFF` for the null string, else the
byte length as `quint32` followed by the code units. -/
def putQString : QString → List Nat
  | .null => putUInt32 0xFFFFFFFF
  | .str u => putUInt32 (2 * u.length) ++ unitsToBytes u

/-- Writing a `QDateTime`: date (Julian day, `qint64`), time (`quint32`
milliseconds), time spec (`qint8`), and the offset (`qint32`) for
`Qt::OffsetFromUTC`. -/
def putQDateTime (t : QDateTime) : List Nat :=
  putInt64 t.jd ++ putUInt32 (toUnsigned 32 t.mds) ++ putInt8 (t.timeSpec : Int) ++
    (if t.timeSpec = 2 then putInt32 t.offset else [])

/-- The values of `QDataStream::Status` a reader can set. -/
inductive StreamStatus where
  | Ok
  | ReadPastEnd
  | ReadCorruptData
deriving DecidableEq, Repr

/-- A reading `QDataStream`: the bytes its device still holds and its status. -/
structure QDataStream where
  device : List Nat
  status : StreamStatus
deriving DecidableEq, Repr

/-- The method `QDataStream::setStatus`: only the first error is kept. -/
def QDataStream.setStatus (st : QDataStream) (status : StreamStatus) : QDataStream :=
  if st.status = .Ok then { st with status := status } else st

/-- Reading `n` raw bytes: all of them, or (when the device holds fewer) what is
left is consumed and the status becomes `ReadPastEnd`. -/
def readBlock (n : Nat) (st : QDataStream) : Option (List Nat) × QDataStream :=
  if n ≤ st.device.length then
    (some (st.device.take n), { st with device := st.device.drop n })
  else
    (none, QDataStream.setStatus { st with device := [] } .ReadPastEnd)

/-- Reading an unsigned integer of `k` bytes; 0 after a short read. -/
def readUnsigned (k : Nat) (st : QDataStream) : Nat × QDataStream :=
  match readBlock k st with
  | (some bs, st1) => (beValue bs, st1)
  | (none, st1) => (0, st1)

def readUInt32 (st : QDataStream) : Nat × QDataStream := readUnsigned 4 st

def readInt32 (st : QDataStream) : Int × QDataStream :=
  let r := readUnsigned 4 st
  (toSigned 32 r.1, r.2)

def readInt64 (st : QDataStream) : Int × QDataStream :=
  let r := readUnsigned 8 st
  (toSigned 64 r.1, r.2)

def readInt8 (st : QDataStream) : Int × QDataStream :=
  let r := readUnsigned 1 st
  (toSigned 8 r.1, r.2)

def readBool (st : QDataStream) : Bool × QDataStream :=
  let r := readInt8 st
  (decide (r.1 ≠ 0), r.2)

def readDouble (st : QDataStream) : CDouble × QDataStream :=
  let r := readUnsigned 8 st
  (⟨r.1⟩, r.2)

/-- Reading a `QString`. -/
def readQString (st : QDataStream) : QString × QDataStream :=
  let r := readUInt32 st
  let bytes := r.1
  if bytes = 0xFFFFFFFF then (.null, r.2)
  else if bytes > 0 then
    if bytes % 2 = 1 then (.null, r.2.setStatus .ReadCorruptData)
    else
      match readBlock bytes r.2 with
      | (some bs, st1) => (.str (bytesToUnits bs), st1)
      | (none, st1) => (.null, st1)
  else (.str [], r.2)

/-- Reading a `QDateTime`.  A time spec of `Qt::TimeZone` (3) carries a zone
description, which is outside the model (no timestamp of this program has
one); it is treated as corrupt data.  Any other unknown spec leaves the
default local time. -/
def readQDateTime (st : QDataStream) : QDateTime × QDataStream :=
  let d := readInt64 st
  let t := readUInt32 d.2
  let ts := readInt8 t.2
  let mds := toSigned 32 t.1
  if ts.1 = 1 then (⟨d.1, mds, 1, 0⟩, ts.2)
  else if ts.1 = 2 then
    let o := readInt32 ts.2
    (⟨d.1, mds, 2, o.1⟩, o.2)
  else if ts.1 = 3 then (⟨d.1, mds, 0, 0⟩, ts.2.setStatus .ReadCorruptData)
  else (⟨d.1, mds, 0, 0⟩, ts.2)

/-! ## `ipc_constants.h`: report serialisation -/

/-- The bytes `operator<<(QDataStream&, const UpsReport&)` writes. -/
def operatorOut (report : UpsReport) : List Nat :=
  putQDateTime report.data.timestamp ++
  putInt32 report.data.state.val ++
  putDouble report.data.inputVoltage ++
  putDouble report.data.outputVoltage ++
  putDouble report.data.batteryVoltage ++
  putDouble report.data.batteryLevel ++
  putDouble report.data.temperatureC ++
  putInt32 report.data.loadPercentage ++
  putBool report.data.BatteryFault ++
  putQString report.data.statusMessage ++
  putQDateTime report.serviceStatus.timestamp ++
  putBool report.serviceStatus.driverLoaded ++
  putBool report.serviceStatus.driverInitialized ++
  putBool report.serviceStatus.dataCommunicationActive ++
  putQString report.serviceStatus.activeDriverName ++
  putQString report.serviceStatus.activeComPort ++
  putQString report.serviceStatus.lastErrorMessage

/-- The function `operator>>(QDataStream&, UpsReport&)`: the report read and
the stream afterwards. -/
def operatorIn (st : QDataStream) : UpsReport × QDataStream :=
  let timestamp := readQDateTime st
  let stateInt := readInt32 timestamp.2
  let inputVoltage := readDouble stateInt.2
  let outputVoltage := readDouble inputVoltage.2
  let batteryVoltage := readDouble outputVoltage.2
  let batteryLevel := readDouble batteryVoltage.2
  let temperatureC := readDouble batteryLevel.2
  let loadPercentage := readInt32 temperatureC.2
  let BatteryFault := readBool loadPercentage.2
  let statusMessage := readQString BatteryFault.2
  let timestamp2 := readQDateTime statusMessage.2
  let driverLoaded := readBool timestamp2.2
  let driverInitialized := readBool driverLoaded.2
  let dataCommunicationActive := readBool driverInitialized.2
  let activeDriverName := readQString dataCommunicationActive.2
  let activeComPort := readQString activeDriverName.2
  let lastErrorMessage := readQString activeComPort.2
  ({ data :=
      { timestamp := timestamp.1
        state := ⟨stateInt.1⟩
        inputVoltage := inputVoltage.1
        outputVoltage := outputVoltage.1
        batteryVoltage := batteryVoltage.1
        batteryLevel := batteryLevel.1
        temperatureC := temperatureC.1
        loadPercentage := loadPercentage.1
        BatteryFault := BatteryFault.1
        statusMessage := statusMessage.1 }
     serviceStatus :=
      { timestamp := timestamp2.1
        driverLoaded := driverLoaded.1
        driverInitialized := driverInitialized.1
        dataCommunicationActive := dataCommunicationActive.1
        activeDriverName := activeDriverName.1
        activeComPort := activeComPort.1
        lastErrorMessage := lastErrorMessage.1 } },
   lastErrorMessage.2)

/-! ## `ups_ipc_server.cpp` and `systemtrayapp.cpp`: framing -/

/-- A subscriber socket as the server sees it: whether it is in
`ConnectedState`, and the bytes written to it so far. -/
structure QLocalSocket where
  connected : Bool
  written : List Nat
deriving DecidableEq, Repr

/-- The byte array `packet` of `sendReportToClients` when it is sent: a zero
placeholder and the report are written, then the first four bytes are
overwritten with `(quint32)(packet.size() - sizeof(quint32))`. -/
def reportPacket (report : UpsReport) : List Nat :=
  let packet := putUInt32 0 ++ operatorOut report
  putUInt32 (packet.length - 4) ++ packet.drop 4

/-- The slot `UpsIpcServer::sendReportToClients` on the list `m_clients`. -/
def sendReportToClients (m_clients : List QLocalSocket) (report : UpsReport) :
    List QLocalSocket :=
  if m_clients.isEmpty then m_clients
  else
    m_clients.map (fun socket =>
      if socket.connected then { socket with written := socket.written ++ reportPacket report }
      else socket)

/-- The members of `SystemTrayApp` the read path uses: the partial-frame cursor
and the bytes available on `m_localSocket`. -/
structure SystemTrayApp where
  m_nextBlockSize : Nat
  socket : List Nat
deriving DecidableEq, Repr

/-- What `socketReadyRead` does with a frame. -/
inductive TrayOut where
  | handleUpsReport (report : UpsReport)
  | streamError
deriving DecidableEq, Repr

/-- The `for (;;)` loop of `SystemTrayApp::socketReadyRead`, for at most `fuel`
passes; `status` is the status of the stream `in`, which lives for the whole
call. -/
def socketReadLoop : Nat → SystemTrayApp → StreamStatus → SystemTrayApp × List TrayOut
  | 0, app, _ => (app, [])
  | fuel + 1, app, status =>
    let hdr : Option (Nat × QDataStream) :=
      if app.m_nextBlockSize = 0 then
        if app.socket.length < 4 then none
        else
          let r := readUInt32 ⟨app.socket, status⟩
          some (r.1 % 4294967296, r.2)
      else some (app.m_nextBlockSize, ⟨app.socket, status⟩)
    match hdr with
    | none => (app, [])
    | some (blockSize, st) =>
      if st.device.length < blockSize then
        ({ m_nextBlockSize := blockSize, socket := st.device }, [])
      else
        let r := operatorIn st
        if r.2.status = .Ok then
          let rest := socketReadLoop fuel { m_nextBlockSize := 0, socket := r.2.device } r.2.status
          (rest.1, TrayOut.handleUpsReport r.1 :: rest.2)
        else
          ({ m_nextBlockSize := 0, socket := r.2.device }, [TrayOut.streamError])

/-- The slot `SystemTrayApp::socketReadyRead`.  Every pass that does not leave
the loop consumes at least one byte, so one pass more than the bytes available
is enough. -/
def socketReadyRead (app : SystemTrayApp) : SystemTrayApp × List TrayOut :=
  socketReadLoop (app.socket.length + 1) app .Ok

/-! ## `ups_ipc_server.cpp`: inbound commands -/

/-- A `QMap<QString, QString>`: its pairs in iteration order (ascending keys,
every key once). -/
abbrev QMap := List (QString × QString)

/-- String order `operator<`: lexicographic on the code units. -/
def unitsLt : List Nat → List Nat → Bool
  | [], [] => false
  | [], _ :: _ => true
  | _ :: _, [] => false
  | a :: as, b :: bs => if a < b then true else if b < a then false else unitsLt as bs

/-- The method `QMap::insert`: the value of an existing key is replaced, a new
key is placed in key order. -/
def QMap.insert (k v : QString) : QMap → QMap
  | [] => [(k, v)]
  | (k1, v1) :: rest =>
    if unitsLt k.units k1.units then (k, v) :: (k1, v1) :: rest
    else if unitsLt k1.units k.units then (k1, v1) :: QMap.insert k v rest
    else (k1, v) :: rest

/-- The method `QMap::value(key)`: the value stored under the key, or the
default-constructed (null) string. -/
def QMap.value (m : QMap) (key : QString) : QString :=
  match m.find? (fun p => decide (p.1.units = key.units)) with
  | some p => p.2
  | none => QString.null

/-- Writing a `QMap<QString, QString>`: the number of pairs as `quint32`, then
key and value of every pair in iteration order. -/
def putQMapPairs : QMap → List Nat
  | [] => []
  | (k, v) :: rest => putQString k ++ putQString v ++ putQMapPairs rest

def putQMap (m : QMap) : List Nat := putUInt32 m.length ++ putQMapPairs m

/-- The loop of `readAssociativeContainer` with `n` pairs still to read: a pair
that leaves the stream status not Ok clears the container and ends the loop. -/
def readQMapLoop : Nat → QDataStream → QMap → QMap × QDataStream
  | 0, st, acc => (acc, st)
  | n + 1, st, acc =>
    let k := readQString st
    let t := readQString k.2
    if t.2.status ≠ StreamStatus.Ok then ([], t.2)
    else readQMapLoop n t.2 (QMap.insert k.1 t.1 acc)

/-- Reading a `QMap<QString, QString>` (`readAssociativeContainer`).  The status
is reset at the start and a previous error status is put back at the end. -/
def readQMap (st : QDataStream) : QMap × QDataStream :=
  let st0 : QDataStream := { st with status := StreamStatus.Ok }
  let n := readUInt32 st0
  let r := readQMapLoop n.1 n.2 []
  (r.1, if st.status ≠ StreamStatus.Ok then { r.2 with status := st.status } else r.2)

/-- The debug lines of the server. -/
inductive ServerLog where
  | configUpdateReceived
  | registryChanged
  | registryModified
  | signalEmitted
deriving DecidableEq, Repr

/-- What `processCommand` does to its surroundings: a `setValue` on the
configuration store, the `sync`, the signal `settingsChanged`, debug lines. -/
inductive ServerOut where
  | setValue (key : QString) (value : QString)
  | sync
  | settingsChanged
  | qDebug (line : ServerLog)
deriving DecidableEq, Repr

/-- The call `settings.setValue(key, value)`. -/
def Settings.setValue (st : Settings) (key : QString) (value : QVariant) : Settings :=
  fun k => if k = key.units then some value else st k

/-- The `for` loop of `processCommand` over the pairs of the map. -/
def writePairs (st : Settings) : QMap → Settings × List ServerOut
  | [] => (st, [])
  | (k, v) :: rest =>
    if k.equals (QString.lit "COMMAND") then writePairs st rest
    else
      let r := writePairs (st.setValue k (QVariant.string v)) rest
      (r.1,
        [ServerOut.setValue k v, ServerOut.qDebug .registryChanged,
          ServerOut.qDebug .registryModified] ++ r.2)

/-- The function `UpsIpcServer::processCommand` on the configuration store. -/
def processCommand (st : Settings) (data : QMap) : Settings × List ServerOut :=
  let command := QMap.value data (QString.lit "COMMAND")
  if command.equals (QString.lit "CONFIG_UPDATE") then
    let r := writePairs st data
    (r.1,
      [ServerOut.qDebug .configUpdateReceived] ++ r.2 ++
        [ServerOut.sync, ServerOut.settingsChanged, ServerOut.qDebug .signalEmitted])
  else (st, [])

/-- The state the read path of `UpsIpcServer` works on: the function-static
variable `blockSize` of `readyRead`, the bytes available on the socket of every
subscriber (by its position in `m_clients`), and the configuration store. -/
structure UpsIpcServer where
  blockSize : Nat
  available : Nat → List Nat
  settings : Settings

/-- The result of a `readyRead` call: the state afterwards, the map handed to
`processCommand` (if the call was made), and what `processCommand` did. -/
structure ReadyReadResult where
  srv : UpsIpcServer
  command : Option QMap
  out : List ServerOut

/-- The bytes available on one socket replaced. -/
def setAvailable (available : Nat → List Nat) (sender : Nat) (bytes : List Nat) :
    Nat → List Nat :=
  fun i => if i = sender then bytes else available i

/-- The slot `UpsIpcServer::readyRead`, with `sender` the subscriber whose socket
signalled. -/
def readyRead (srv : UpsIpcServer) (sender : Nat) : ReadyReadResult :=
  let socket := srv.available sender
  let hdr : Option (Nat × List Nat) :=
    if srv.blockSize = 0 then
      if socket.length < 4 then none
      else
        let r := readUInt32 ⟨socket, StreamStatus.Ok⟩
        some (r.1 % 4294967296, r.2.device)
    else some (srv.blockSize, socket)
  match hdr with
  | none => ⟨srv, none, []⟩
  | some (blockSize, device) =>
    if device.length < blockSize then
      ⟨{ srv with blockSize := blockSize, available := setAvailable srv.available sender device },
        none, []⟩
    else
      let r := readQMap ⟨device, StreamStatus.Ok⟩
      let srv1 : UpsIpcServer :=
        { srv with blockSize := 0, available := setAvailable srv.available sender r.2.device }
      if r.2.status = StreamStatus.Ok then
        let p := processCommand srv1.settings r.1
        ⟨{ srv1 with settings := p.1 }, some r.1, p.2⟩
      else ⟨srv1, none, []⟩

/-- Bytes arrive on the socket of a subscriber and its `readyRead` signal runs
the slot. -/
def serverReceive (srv : UpsIpcServer) (sender : Nat) (bytes : List Nat) : ReadyReadResult :=
  readyRead
    { srv with available := setAvailable srv.available sender (srv.available sender ++ bytes) }
    sender

/-- A sequence of arrivals (subscriber and bytes): the state at the end and the
maps handed to `processCommand`, each with the subscriber it was parsed from. -/
def serverRun (srv : UpsIpcServer) : List (Nat × List Nat) → UpsIpcServer × List (Nat × QMap)
  | [] => (srv, [])
  | arrival :: rest =>
    let r := serverReceive srv arrival.1 arrival.2
    let r2 := serverRun r.srv rest
    (r2.1,
      (match r.command with
        | some data => [(arrival.1, data)]
        | none => []) ++ r2.2)

/-- The packet `finalBlock` that `SystemTrayApp::notifyService(key, value)`
writes to the server: the payload size as `quint32`, then the map with the
pairs `COMMAND = CONFIG_UPDATE` and `key = value`. -/
def notifyServicePacket (key value : QString) : List Nat :=
  let command :=
    QMap.insert key value
      (QMap.insert (QString.lit "COMMAND") (QString.lit "CONFIG_UPDATE") [])
  putUInt32 (putQMap command).length ++ putQMap command

/-! ## The event loop of the manager -/

/-- What the event loop delivers to the manager: something the driver emitted,
the expiry of the recovery timer (connected to `loadAndStartDriver`), a
configuration-change notification, and the call `startService`. -/
inductive ApiEvent where
  | driverSignal (now : QDateTime) (signal : DriverOut)
  | recoveryTimeout (env : ApiEnv)
  | registryChanged (env : ApiEnv)
  | startService (env : ApiEnv)

/-- The slot the event runs.  A single-shot timer that fires is no longer
active when its slot runs. -/
def apiStep (m : Ups_api_library) : ApiEvent → Ups_api_library × List ApiOut
  | .driverSignal now signal => deliver now m signal
  | .recoveryTimeout env =>
    let r := loadAndStartDriver env { m with m_recoveryTimer := m.m_recoveryTimer.stop }
    (r.2.1, r.2.2)
  | .registryChanged env => onRegistryChanged env m
  | .startService env =>
    let r := loadAndStartDriver env m
    (r.2.1, r.2.2)

/-- A sequence of events, with everything emitted in order. -/
def apiRun (m : Ups_api_library) : List ApiEvent → Ups_api_library × List ApiOut
  | [] => (m, [])
  | e :: rest =>
    let r := apiStep m e
    let r2 := apiRun r.1 rest
    (r2.1, r.2 ++ r2.2)

/-- A burst of failure events handled one after the other. -/
def failureBurst (now : QDateTime) (m : Ups_api_library) :
    List QString → Ups_api_library × List ApiOut
  | [] => (m, [])
  | error :: rest =>
    let r := onDriverInitFailure now m error
    let r2 := failureBurst now r.1 rest
    (r2.1, r.2 ++ r2.2)

/-! ## `ups_monitor_service.cpp`: the policy engine `UpsMonitorCore`

The program is built for Windows (`constants.h` includes `windows.h`), so the
`Q_OS_WIN` branches are the ones modelled. -/

/-- The two's-complement value of an integer stored in a C++ `int`. -/
def wrapInt32 (i : Int) : Int := toSigned 32 (toUnsigned 32 i)

/-- Whether a code unit is white space for `QString::toInt` (space, tab, line
feed, vertical tab, form feed, carriage return). -/
def isSpaceUnit (u : Nat) : Bool := u = 32 || (9 ≤ u && u ≤ 13)

/-- The number a sequence of decimal digits stands for, `none` when a unit is
no digit. -/
def digitsValue : List Nat → Nat → Option Nat
  | [], acc => some acc
  | u :: rest, acc => if 48 ≤ u ∧ u ≤ 57 then digitsValue rest (acc * 10 + (u - 48)) else none

/-- The conversion `QString::toInt()` (base 10): white space around the number
is skipped, a sign may precede the digits; anything else, and a number outside
the range of `int`, gives 0. -/
def QString.toInt (q : QString) : Int :=
  let trimmed := ((q.units.dropWhile isSpaceUnit).reverse.dropWhile isSpaceUnit).reverse
  let signed : Bool × List Nat :=
    match trimmed with
    | 45 :: rest => (true, rest)
    | 43 :: rest => (false, rest)
    | other => (false, other)
  if signed.2.isEmpty then 0
  else
    match digitsValue signed.2 0 with
    | none => 0
    | some n =>
      let v : Int := if signed.1 then -(n : Int) else (n : Int)
      if -(2 : Int) ^ 31 ≤ v ∧ v < (2 : Int) ^ 31 then v else 0

/-- The lower-case form of a code unit in `A` .. `Z`. -/
def lowerUnit (u : Nat) : Nat := if 65 ≤ u ∧ u ≤ 90 then u + 32 else u

/-- The conversion `QVariant::toInt()`. -/
def QVariant.toInt : QVariant → Int
  | .string q => q.toInt
  | .int n => wrapInt32 n
  | .bool b => if b then 1 else 0

/-- The conversion `QVariant::toBool()`: a string is false when it is empty,
`0` or `false` (in any case). -/
def QVariant.toBool : QVariant → Bool
  | .string q =>
    let lower := q.units.map lowerUnit
    ! (decide (lower = []) || decide (lower = (QString.lit "0").units)
        || decide (lower = (QString.lit "false").units))
  | .int n => decide (n ≠ 0)
  | .bool b => b

/-- The call `settings.contains(key)`. -/
def Settings.contains (st : Settings) (key : QString) : Bool := (st key.units).isSome

/-- The expression `settings.value(key, defaultValue).toInt()`. -/
def Settings.valueInt (st : Settings) (key : QString) (defaultValue : Int) : Int :=
  match st key.units with
  | some v => v.toInt
  | none => wrapInt32 defaultValue

/-- The expression `settings.value(key, defaultValue).toBool()`. -/
def Settings.valueBool (st : Settings) (key : QString) (defaultValue : Bool) : Bool :=
  match st key.units with
  | some v => v.toBool
  | none => defaultValue

/-- A `QTimer` of the policy engine: whether it is running, and its interval as
the `int` last passed to `setInterval`. -/
structure QIntervalTimer where
  active : Bool
  interval : Int
deriving DecidableEq, Repr

/-- The call `start()`: the timer runs for its interval. -/
def QIntervalTimer.start (t : QIntervalTimer) : QIntervalTimer := { t with active := true }

/-- The call `stop()`. -/
def QIntervalTimer.stop (t : QIntervalTimer) : QIntervalTimer := { t with active := false }

/-- The call `setInterval(msec)`. -/
def QIntervalTimer.setInterval (t : QIntervalTimer) (msec : Int) : QIntervalTimer :=
  { t with interval := msec }

/-- The debug lines of the policy engine. -/
inductive MonitorLog where
  | powerSaverDetected
  | powerProfileCorrect
  | communicationLost
  | shutdownTimerStarted (seconds : Int)
  | shutdownDisabled
  | powerSchemeChanged (batteryMode : Bool)
  | shutdownInitiated
  | shutdownCancelledOnTheFly
  | timerRestarted (seconds : Int)
  | powerSafeDisabledOnTheFly
  | powerSafeEnabledOnTheFly
  | configurationLoaded (delay : Int) (powerSafe : Bool)
  | creatingDefaults
  | defaultsWritten
  | existingSettingsFound
deriving DecidableEq, Repr

/-- What the policy engine does to its surroundings: the detached `powercfg
/setactive` with the power-saver scheme (`true`) or the balanced scheme
(`false`), the detached `shutdown /s /f /t 0`, an entry for
`WindowsService::logEvent` (type and identifier when the call passes them), a
`setValue` on the configuration store, its `sync`, debug lines. -/
inductive MonitorOut where
  | powercfgSetActive (batteryMode : Bool)
  | shutdownCommand
  | logEvent (message : QString) (logType : Option Nat) (eventId : Option Nat)
  | setValue (key : QString) (value : QVariant)
  | sync
  | qDebug (line : MonitorLog)
deriving DecidableEq, Repr

def EVENTLOG_ERROR_TYPE : Nat := 1
def EVENTLOG_WARNING_TYPE : Nat := 2
def EVENTLOG_INFORMATION_TYPE : Nat := 4

namespace UpsEvents
def ID_SERVICE_INFO : Nat := 100
def ID_POWER_RESTORED : Nat := 200
def ID_ON_BATTERY : Nat := 300
def ID_BATT_CRITICAL : Nat := 400
def ID_SERVICE_ERROR : Nat := 900
end UpsEvents

/-- The data members of `class UpsMonitorCore`. -/
structure UpsMonitorCore where
  m_shutdownTimer : QIntervalTimer
  m_cpuRecoveryTimer : QIntervalTimer
  m_isTimerRunning : Bool
  m_lastState : UpsState
  m_currentPowerModeIsBattery : Bool
  m_shutdownDelay : Int
  m_powerSafeEnabled : Bool
deriving DecidableEq, Repr

/-- The function `UpsMonitorCore::setPowerMode`. -/
def setPowerMode (c : UpsMonitorCore) (batteryMode : Bool) : UpsMonitorCore × List MonitorOut :=
  if c.m_lastState ≠ UpsState.Unknown ∧ c.m_currentPowerModeIsBattery = batteryMode then (c, [])
  else
    ({ c with m_currentPowerModeIsBattery := batteryMode },
      [MonitorOut.powercfgSetActive batteryMode,
        MonitorOut.qDebug (.powerSchemeChanged batteryMode)])

/-- The function `UpsMonitorCore::checkAndFixPowerProfile`, with
`powerSaverActive` telling whether the output of `powercfg /getactivescheme`
contains the power-saver GUID. -/
def checkAndFixPowerProfile (c : UpsMonitorCore) (powerSaverActive : Bool) :
    UpsMonitorCore × List MonitorOut :=
  if powerSaverActive then
    let r := setPowerMode c false
    (r.1, [MonitorOut.qDebug .powerSaverDetected] ++ r.2)
  else
    ({ c with m_currentPowerModeIsBattery := false }, [MonitorOut.qDebug .powerProfileCorrect])

/-- The event-log entry `handleUpsReport` writes for a new state (the `switch`
on `currentState`). -/
def statusLogEvent (currentState : UpsState) : MonitorOut :=
  let logMsg := QString.lit "UPS Status changed to: "
  if currentState = UpsState.OnBattery then
    MonitorOut.logEvent (logMsg.append (QString.lit "On Battery (Power failure!)"))
      (some EVENTLOG_WARNING_TYPE) (some UpsEvents.ID_ON_BATTERY)
  else if currentState = UpsState.BatteryCritical then
    MonitorOut.logEvent (logMsg.append (QString.lit "Battery Critical (System shutdown imminent!)"))
      (some EVENTLOG_ERROR_TYPE) (some UpsEvents.ID_BATT_CRITICAL)
  else if currentState = UpsState.OnlineFull then
    MonitorOut.logEvent (logMsg.append (QString.lit "Online (Battery fully charged)"))
      (some EVENTLOG_INFORMATION_TYPE) (some UpsEvents.ID_POWER_RESTORED)
  else if currentState = UpsState.OnlineCharging then
    MonitorOut.logEvent (logMsg.append (QString.lit "Online (Battery charging)"))
      (some EVENTLOG_INFORMATION_TYPE) (some UpsEvents.ID_POWER_RESTORED)
  else if currentState = UpsState.OnlineFault then
    MonitorOut.logEvent (logMsg.append (QString.lit "Online with fault (Check hardware)"))
      (some EVENTLOG_WARNING_TYPE) (some UpsEvents.ID_SERVICE_ERROR)
  else
    MonitorOut.logEvent
      (logMsg.append (QString.lit "Unknown status detected. Check UPS connection."))
      (some EVENTLOG_INFORMATION_TYPE) (some UpsEvents.ID_SERVICE_ERROR)

/-- The slot `UpsMonitorCore::handleUpsReport`. -/
def handleUpsReport (c : UpsMonitorCore) (report : UpsReport) :
    UpsMonitorCore × List MonitorOut :=
  if ¬ report.serviceStatus.dataCommunicationActive then
    let r : UpsMonitorCore × List MonitorOut :=
      if c.m_isTimerRunning then
        ({ c with m_shutdownTimer := c.m_shutdownTimer.stop, m_isTimerRunning := false },
          [MonitorOut.qDebug .communicationLost])
      else (c, [])
    ({ r.1 with m_lastState := UpsState.Unknown }, r.2)
  else
    let currentState := report.data.state
    if currentState = UpsState.Unknown then (c, [])
    else if currentState = c.m_lastState then (c, [])
    else
      let c1 := { c with m_lastState := currentState }
      let log := statusLogEvent currentState
      if currentState = UpsState.OnBattery ∨ currentState = UpsState.BatteryCritical ∨
          currentState = UpsState.OnlineFault then
        let c2 :=
          if c1.m_cpuRecoveryTimer.active then
            { c1 with m_cpuRecoveryTimer := c1.m_cpuRecoveryTimer.stop }
          else c1
        let p := setPowerMode c2 true
        if ¬ p.1.m_isTimerRunning then
          if p.1.m_shutdownDelay > 0 then
            ({ p.1 with m_shutdownTimer := p.1.m_shutdownTimer.start, m_isTimerRunning := true },
              [log] ++ p.2 ++ [MonitorOut.qDebug (.shutdownTimerStarted p.1.m_shutdownDelay)])
          else (p.1, [log] ++ p.2 ++ [MonitorOut.qDebug .shutdownDisabled])
        else (p.1, [log] ++ p.2)
      else if currentState = UpsState.OnlineFull ∨ currentState = UpsState.OnlineCharging then
        let r : UpsMonitorCore × List MonitorOut :=
          if c1.m_isTimerRunning then
            ({ c1 with m_shutdownTimer := c1.m_shutdownTimer.stop, m_isTimerRunning := false },
              [MonitorOut.logEvent (QString.lit "Power restored: Scheduled shutdown cancelled.")
                none none])
          else (c1, [])
        let r2 :=
          if ¬ r.1.m_cpuRecoveryTimer.active then
            { r.1 with m_cpuRecoveryTimer := r.1.m_cpuRecoveryTimer.start }
          else r.1
        (r2, [log] ++ r.2)
      else (c1, [log])

/-- The slot `UpsMonitorCore::restoreCpuSpeed` (expiry of the single-shot
recovery timer). -/
def restoreCpuSpeed (c : UpsMonitorCore) : UpsMonitorCore × List MonitorOut :=
  setPowerMode { c with m_cpuRecoveryTimer := c.m_cpuRecoveryTimer.stop } false

/-- The slot `UpsMonitorCore::executeShutdown` (expiry of the single-shot
shutdown timer). -/
def executeShutdown (c : UpsMonitorCore) : UpsMonitorCore × List MonitorOut :=
  let r := setPowerMode { c with m_shutdownTimer := c.m_shutdownTimer.stop } false
  (r.1, [MonitorOut.qDebug .shutdownInitiated] ++ r.2 ++ [MonitorOut.shutdownCommand])

/-- The slot `UpsMonitorCore::loadSettings` on the configuration store `st`.
The product `m_shutdownDelay * 1000` is an `int`. -/
def loadSettings (st : Settings) (c : UpsMonitorCore) : UpsMonitorCore × List MonitorOut :=
  let oldDelay := c.m_shutdownDelay
  let oldPowerSafe := c.m_powerSafeEnabled
  let c1 :=
    { c with
      m_shutdownDelay := st.valueInt AppConstants.REG_KEY_SHUTDOWN_DELAY 30
      m_powerSafeEnabled := st.valueBool AppConstants.REG_KEY_POWER_SAFE_ENABLED false }
  let c2 :=
    { c1 with
      m_shutdownTimer := c1.m_shutdownTimer.setInterval (wrapInt32 (c1.m_shutdownDelay * 1000)) }
  let r : UpsMonitorCore × List MonitorOut :=
    if c2.m_isTimerRunning then
      if c2.m_shutdownDelay ≤ 0 then
        ({ c2 with m_shutdownTimer := c2.m_shutdownTimer.stop, m_isTimerRunning := false },
          [MonitorOut.qDebug .shutdownCancelledOnTheFly])
      else if oldDelay ≠ c2.m_shutdownDelay then
        ({ c2 with m_shutdownTimer := c2.m_shutdownTimer.stop.start },
          [MonitorOut.qDebug (.timerRestarted c2.m_shutdownDelay)])
      else (c2, [])
    else (c2, [])
  let p : UpsMonitorCore × List MonitorOut :=
    if oldPowerSafe ∧ ¬ r.1.m_powerSafeEnabled ∧ r.1.m_currentPowerModeIsBattery then
      let q := setPowerMode r.1 false
      (q.1, [MonitorOut.qDebug .powerSafeDisabledOnTheFly] ++ q.2)
    else if ¬ oldPowerSafe ∧ r.1.m_powerSafeEnabled ∧ r.1.m_lastState = UpsState.OnBattery then
      let q := setPowerMode r.1 true
      (q.1, [MonitorOut.qDebug .powerSafeEnabledOnTheFly] ++ q.2)
    else (r.1, [])
  (p.1, r.2 ++ p.2 ++
    [MonitorOut.qDebug (.configurationLoaded p.1.m_shutdownDelay p.1.m_powerSafeEnabled)])

/-- The function `UpsMonitorCore::initializeRegistry` on the configuration
store: the store afterwards and what was done. -/
def initializeRegistry (st : Settings) : Settings × List MonitorOut :=
  if ¬ st.contains AppConstants.REG_KEY_SHUTDOWN_DELAY then
    ((((st.setValue AppConstants.REG_KEY_SHUTDOWN_DELAY (QVariant.int 30)).setValue
          AppConstants.REG_KEY_POWER_SAFE_ENABLED (QVariant.bool false)).setValue
          AppConstants.REG_KEY_SELECTED_DRIVER_FILE
          (QVariant.string (QString.lit "template_driver.dll"))).setValue
          AppConstants.REG_KEY_SELECTED_COM_PORT (QVariant.string (QString.lit "COM1")),
      [MonitorOut.qDebug .creatingDefaults,
        MonitorOut.setValue AppConstants.REG_KEY_SHUTDOWN_DELAY (QVariant.int 30),
        MonitorOut.setValue AppConstants.REG_KEY_POWER_SAFE_ENABLED (QVariant.bool false),
        MonitorOut.setValue AppConstants.REG_KEY_SELECTED_DRIVER_FILE
          (QVariant.string (QString.lit "template_driver.dll")),
        MonitorOut.setValue AppConstants.REG_KEY_SELECTED_COM_PORT
          (QVariant.string (QString.lit "COM1")),
        MonitorOut.sync,
        MonitorOut.qDebug .defaultsWritten])
  else (st, [MonitorOut.qDebug .existingSettingsFound])

/-- The constructor `UpsMonitorCore::UpsMonitorCore` on the configuration store
`st`: the store afterwards, the constructed object and what was done.  The
members `m_shutdownDelay` and `m_powerSafeEnabled` have no initializer, so the
values `loadSettings` finds in them are indeterminate (`delay0`, `powerSafe0`);
`powerSaverActive` is what `powercfg /getactivescheme` reports. -/
def UpsMonitorCore.new (st : Settings) (delay0 : Int) (powerSafe0 : Bool)
    (powerSaverActive : Bool) : Settings × UpsMonitorCore × List MonitorOut :=
  let c0 : UpsMonitorCore :=
    { m_shutdownTimer := { active := false, interval := 0 }
      m_cpuRecoveryTimer := { active := false, interval := 0 }
      m_isTimerRunning := false
      m_lastState := UpsState.Unknown
      m_currentPowerModeIsBattery := false
      m_shutdownDelay := delay0
      m_powerSafeEnabled := powerSafe0 }
  let i := initializeRegistry st
  let l := loadSettings i.1 c0
  let c1 :=
    { l.1 with
      m_shutdownTimer := l.1.m_shutdownTimer.setInterval 30000
      m_cpuRecoveryTimer := l.1.m_cpuRecoveryTimer.setInterval 10000 }
  let p := checkAndFixPowerProfile c1 powerSaverActive
  (i.1, p.1, i.2 ++ l.2 ++ p.2)

/-- What the event loop delivers to the policy engine: a report from the
manager, the notification `settingsChanged` (with the store as it is then), and
the expiries of its two timers. -/
inductive MonitorEvent where
  | report (r : UpsReport)
  | settingsChanged (st : Settings)
  | shutdownTimeout
  | cpuRecoveryTimeout

/-- The slot the event runs. -/
def monitorStep (c : UpsMonitorCore) : MonitorEvent → UpsMonitorCore × List MonitorOut
  | .report r => handleUpsReport c r
  | .settingsChanged st => loadSettings st c
  | .shutdownTimeout => executeShutdown c
  | .cpuRecoveryTimeout => restoreCpuSpeed c

/-- A sequence of events, with everything done in order. -/
def monitorRun (c : UpsMonitorCore) : List MonitorEvent → UpsMonitorCore × List MonitorOut
  | [] => (c, [])
  | e :: rest =>
    let r := monitorStep c e
    let r2 := monitorRun r.1 rest
    (r2.1, r.2 ++ r2.2)

/-! ## Derived notions used in the statements -/

/-- A sequence of `readData` calls (the clock reading and the chunk of each):
the final state and the total number of bytes by which the calls advanced
`m_tail`. -/
def readDataSeq : Nhs_driver → List (QDateTime × List Nat) → Nhs_driver × Nat
  | s, [] => (s, 0)
  | s, call :: rest =>
    let r := readData call.1 s call.2
    let r2 := readDataSeq r.drv rest
    (r2.1, r.consumed + r2.2)

/-- The total number of bytes the calls ingested. -/
def totalIngested (calls : List (QDateTime × List Nat)) : Nat :=
  (calls.map (fun call => call.2.length)).sum

/-- The sum of the frame bytes at offsets `1 .. n` from `tail_index`. -/
def frameSum (s : Nhs_driver) (tail_index : Int) (n : Nat) : Nat :=
  ((List.range n).map (fun i => ringAt s (tail_index + ((i + 1 : Nat) : Int)))).sum

/-- The state cascade as the specification words it, on the bits of the
status byte: bit 1 (`0x02`) set gives BatteryCritical; otherwise bit 4 (`0x10`)
clear gives OnBattery; otherwise bit 0 (`0x01`) set gives OnlineFault; otherwise
bit 7 (`0x80`) set gives OnlineCharging; otherwise OnlineFull. -/
def stateCascade (b : Nat) : UpsState :=
  if b.testBit 1 then UpsState.BatteryCritical
  else if ¬ b.testBit 4 then UpsState.OnBattery
  else if b.testBit 0 then UpsState.OnlineFault
  else if b.testBit 7 then UpsState.OnlineCharging
  else UpsState.OnlineFull

/-- The driver state in which the status byte of the last type D payload is
`b`. -/
def withStatus (s : Nhs_driver) (b : Nat) : Nhs_driver :=
  { s with m_latestRawData :=
      { s.m_latestRawData with payload := { s.m_latestRawData.payload with statusval := b } } }

/-- The type byte of the frame at `m_tail` goes with the total length `L`:
`D` (0x44) with 21, `S` (0x53) with 18. -/
def typeMatches (s : Nhs_driver) (L : Nat) : Prop :=
  (ringAt s ((s.m_tail : Int) + 2) = 0x44 ∧ L = 21) ∨
  (ringAt s ((s.m_tail : Int) + 2) = 0x53 ∧ L = 18)

/-- The frame of total length `L` at `m_tail` is valid in the words of the
specification: its type goes with its length, its last byte (offset `L - 1`)
is `0xFE`, and the byte at offset `L - 2` is the low 8 bits of the sum of the
bytes at offsets `1 .. L - 3`. -/
def frameValid (s : Nhs_driver) (L : Nat) : Prop :=
  typeMatches s L ∧
  ringAt s ((s.m_tail : Int) + L - 1) = 0xFE ∧
  ringAt s ((s.m_tail : Int) + L - 2) = frameSum s s.m_tail (L - 3) % 256

/-- The condition of the `if` in `readData` that guards `parse_packet_ring`. -/
def guardHolds (s : Nhs_driver) (L : Nat) : Prop :=
  ringAt s ((s.m_tail : Int) + L - 1) = 0xFE ∧
  calculate_checksum_ring s s.m_tail (if ringAt s ((s.m_tail : Int) + 2) = 0x44 then 18 else 15)
    = ringAt s ((s.m_tail : Int) + L - 2)

/-- The driver name or the port read from the store differs (as strings) from
the currently active driver name or port of the manager status. -/
def hardwareChanged (env : ApiEnv) (m : Ups_api_library) : Prop :=
  (env.settings.valueString AppConstants.REG_KEY_SELECTED_DRIVER_FILE).units
      ≠ m.m_currentStatus.activeDriverName.units ∨
  (env.settings.valueString AppConstants.REG_KEY_SELECTED_COM_PORT).units
      ≠ m.m_currentStatus.activeComPort.units

/-! ### Value ranges of the C++ types of a report -/

/-- A string `QDataStream` can write with a 32-bit length: every code unit is a
16-bit value and the byte length is below the null marker `0xFFFFFFFF`. -/
def QString.WF : QString → Prop
  | .null => True
  | .str u => (∀ x ∈ u, x < 65536) ∧ 2 * u.length < 0xFFFFFFFF

instance QString.decidableWF : (q : QString) → Decidable q.WF
  | .null => isTrue trivial
  | .str u => inferInstanceAs (Decidable ((∀ x ∈ u, x < 65536) ∧ 2 * u.length < 0xFFFFFFFF))

/-- The fields of a date-time are in the range of their C++ types (`qint64`
Julian day, `int` milliseconds, `qint32` offset), the time spec is local time,
UTC or an offset from UTC, and the offset is 0 unless the spec is an offset. -/
def QDateTime.WF (t : QDateTime) : Prop :=
  -(2 ^ 63) ≤ t.jd ∧ t.jd < 2 ^ 63 ∧ -(2 ^ 31) ≤ t.mds ∧ t.mds < 2 ^ 31 ∧
  t.timeSpec ≤ 2 ∧ -(2 ^ 31) ≤ t.offset ∧ t.offset < 2 ^ 31 ∧
  (t.timeSpec ≠ 2 → t.offset = 0)

/-- A 64-bit pattern. -/
def CDouble.WF (d : CDouble) : Prop := d.bits < 2 ^ 64

/-- Every field of the data block is in the range of its C++ type. -/
def UpsData.WF (d : UpsData) : Prop :=
  d.timestamp.WF ∧ -(2 ^ 31) ≤ d.state.val ∧ d.state.val < 2 ^ 31 ∧
  d.inputVoltage.WF ∧ d.outputVoltage.WF ∧ d.batteryVoltage.WF ∧ d.batteryLevel.WF ∧
  d.temperatureC.WF ∧ -(2 ^ 31) ≤ d.loadPercentage ∧ d.loadPercentage < 2 ^ 31 ∧
  d.statusMessage.WF

/-- Every field of the service-status block is in the range of its C++ type. -/
def UpsServiceStatus.WF (st : UpsServiceStatus) : Prop :=
  st.timestamp.WF ∧ st.activeDriverName.WF ∧ st.activeComPort.WF ∧ st.lastErrorMessage.WF

/-- Every field of the report is in the range of its C++ type. -/
def UpsReport.WF (r : UpsReport) : Prop := r.data.WF ∧ r.serviceStatus.WF

/-! ### Handshake traces -/

/-- The emitted item is the signal `initializationFailure`. -/
def isInitializationFailure : DriverOut → Bool
  | .initializationFailure _ => true
  | _ => false

/-- The emitted item is a write of the initiator command to the serial port. -/
def isSerialWrite : DriverOut → Bool
  | .serialWrite _ => true
  | _ => false

/-- The `readyRead` events of a sequence of chunks. -/
def readEvents (chunks : List (QDateTime × List Nat)) : List DriverEvent :=
  chunks.map (fun c => DriverEvent.readyRead c.1 c.2)

/-- A sequence of timer expiries, each preceded by the serial data that arrived
since the previous one. -/
def expiries : List (List (QDateTime × List Nat) × OpenResult) → List DriverEvent
  | [] => []
  | phase :: rest => readEvents phase.1 ++ [DriverEvent.monitorTimeout phase.2] ++ expiries rest

/-- The life of a driver from `initialize` on a port that opens: serial data may
arrive before the single-shot request fires and sends the first initiator
command, then the timer expiries of `phases` follow.  The state at the end and
everything emitted since `initialize`. -/
def handshakeTrace (s0 : Nhs_driver) (connectionInfo : QString)
    (early : List (QDateTime × List Nat))
    (phases : List (List (QDateTime × List Nat) × OpenResult)) : Nhs_driver × List DriverOut :=
  let i := initializeDriver s0 connectionInfo OpenResult.opened
  let r := driverRun i.1 (readEvents early ++ [DriverEvent.initiatorShot] ++ expiries phases)
  (r.1, i.2 ++ r.2)

/-- The members that steer the handshake are the same in both states. -/
def sameControl (a b : Nhs_driver) : Prop :=
  a.m_handshakeComplete = b.m_handshakeComplete ∧ a.m_retryCount = b.m_retryCount ∧
  a.m_monitorTimer = b.m_monitorTimer ∧ a.m_serialPort = b.m_serialPort ∧
  a.m_portName = b.m_portName

/-- Nothing emitted is an initialization failure or a serial write. -/
def quietOut (out : List DriverOut) : Prop :=
  ∀ o ∈ out, isInitializationFailure o = false ∧ isSerialWrite o = false

/-- The driver waits for the handshake answer: port open, handshake incomplete,
`k` initiator commands sent, handshake timer running. -/
def Awaiting (k : Nat) (s : Nhs_driver) : Prop :=
  portIsOpen s = true ∧ s.m_handshakeComplete = false ∧ s.m_retryCount = k ∧
  s.m_monitorTimer = some ⟨true, HANDSHAKE_TIMEOUT⟩

/-! ### Wire layout of a report -/

/-- The field encodings of a report in the order the specification fixes: data
timestamp, state (4-byte integer), input voltage, output voltage, battery
voltage, battery level, temperature, load percentage, battery-fault flag,
status message, then service-status timestamp, driver-loaded flag,
driver-initialized flag, data-active flag, active driver name, active port,
last error message. -/
def fieldEncodings (r : UpsReport) : List (List Nat) :=
  [putQDateTime r.data.timestamp,
   putInt32 r.data.state.val,
   putDouble r.data.inputVoltage,
   putDouble r.data.outputVoltage,
   putDouble r.data.batteryVoltage,
   putDouble r.data.batteryLevel,
   putDouble r.data.temperatureC,
   putInt32 r.data.loadPercentage,
   putBool r.data.BatteryFault,
   putQString r.data.statusMessage,
   putQDateTime r.serviceStatus.timestamp,
   putBool r.serviceStatus.driverLoaded,
   putBool r.serviceStatus.driverInitialized,
   putBool r.serviceStatus.dataCommunicationActive,
   putQString r.serviceStatus.activeDriverName,
   putQString r.serviceStatus.activeComPort,
   putQString r.serviceStatus.lastErrorMessage]

/-! ### Commands -/

/-- Every key occurs once in the map (keys compare by their code units). -/
def QMap.WF (m : QMap) : Prop := m.Pairwise (fun p q => p.1.units ≠ q.1.units)

/-- The store `s` with every pair of the map except the `COMMAND` key written
verbatim, all other keys unchanged. -/
def storeAfterUpdate (s : Settings) (m : QMap) : Settings := fun k =>
  match m.find? (fun p => decide (p.1.units = k)) with
  | some p => if k = (QString.lit "COMMAND").units then s k else some (QVariant.string p.2)
  | none => s k

/-- The pairs written by the `setValue` calls among what was emitted, in
order. -/
def writesOf (out : List ServerOut) : List (QString × QString) :=
  out.filterMap (fun o =>
    match o with
    | .setValue k v => some (k, v)
    | _ => none)

/-- Something the driver emits other than a debug line: a signal, a write to
the serial port, or a timer request. -/
def isSignal : DriverOut → Bool
  | .qDebug _ => false
  | _ => true

/-- The signals and requests among what was emitted, in order. -/
def signals (out : List DriverOut) : List DriverOut := out.filter isSignal

/-- One of the six values of the enumeration `UpsState`. -/
def knownState (u : UpsState) : Prop := 0 ≤ u.val ∧ u.val ≤ 5

/-- The states in which `handleUpsReport` schedules the shutdown: OnBattery,
BatteryCritical, OnlineFault. -/
def shutdownState (u : UpsState) : Prop :=
  u = UpsState.OnBattery ∨ u = UpsState.BatteryCritical ∨ u = UpsState.OnlineFault

/-- Every report among the events carries one of the six `UpsState` values. -/
def eventsKnown (events : List MonitorEvent) : Prop :=
  ∀ r, MonitorEvent.report r ∈ events → knownState r.data.state

/-- The shutdown flag is set only in a shutdown state, and the shutdown timer
runs only while the flag is set. -/
def shutdownInvariant (c : UpsMonitorCore) : Prop :=
  (c.m_isTimerRunning = true → shutdownState c.m_lastState) ∧
  (c.m_shutdownTimer.active = true → c.m_isTimerRunning = true)

/-- The store with the four defaults of `initializeRegistry` written over
`st`. -/
def withDefaults (st : Settings) : Settings := fun k =>
  if k = AppConstants.REG_KEY_SELECTED_COM_PORT.units then
    some (QVariant.string (QString.lit "COM1"))
  else if k = AppConstants.REG_KEY_SELECTED_DRIVER_FILE.units then
    some (QVariant.string (QString.lit "template_driver.dll"))
  else if k = AppConstants.REG_KEY_POWER_SAFE_ENABLED.units then some (QVariant.bool false)
  else if k = AppConstants.REG_KEY_SHUTDOWN_DELAY.units then some (QVariant.int 30)
  else st k

/-! ## The numbers IEEE-754 bit patterns stand for

These follow the IEEE-754 interchange formats, not the conversion functions
above: sign bit, biased exponent field, fraction field. -/

/-- A raw record with every field zero. -/
def zeroRaw : pkt_data_t :=
  { payload := copyDataPayload (fun _ => 0)
    hardware_payload := copyHardwarePayload (fun _ => 0)
    input_voltage_v := 0, battery_voltage_v := ⟨0⟩, output_voltage_v := 0
    temperature_c := 0, power_rms_percent := 0
    input_voltage_min_v := 0, input_voltage_max_v := 0
    s_battery_mode := false, s_battery_low := false, s_network_failure := false
    s_fast_network_failure := false, s_220_in := false, s_220_out := false
    s_bypass_on := false, s_charger_on := false, uv_220v := 0, ov_220v := 0 }

/-- A driver object right after construction (no port, no timer), with a
zeroed buffer. -/
def newDriver : Nhs_driver :=
  { m_portName := QString.null
    m_serialPort := none
    m_monitorTimer := none
    m_latestRawData := zeroRaw
    m_latestUpsData := UpsData.default
    m_initialSDataReceived := false
    m_retryCount := 0
    m_handshakeComplete := false
    m_ringBuffer := fun _ => 0
    m_head := 0
    m_tail := 0 }

/-- A clock reading. -/
def sampleNow : QDateTime := ⟨2460000, 1000, 0, 0⟩

/-- A valid type S frame: 18 bytes, zero payload, checksum `0x12 + 0x53`. -/
def sampleSFrame : List Nat :=
  [0xFF, 18, 0x53, 0, 0, 0, 0, 0, 0, 0, 0, 0, 0, 0, 0, 0, 0x65, 0xFE]

/-- A valid type D frame: input 220 V, battery 13.5 V, load 42 %, status
`0x10`; the checksum is `0xF6` (the byte sum 502 modulo 256). -/
def sampleDFrame : List Nat :=
  [0xFF, 21, 0x44, 220, 0, 135, 0, 42, 0, 0, 0, 0, 0, 0, 0, 0, 0, 0x10, 0, 0xF6, 0xFE]

/-- The frame `sampleDFrame` with one payload byte corrupted (220 became 221). -/
def corruptedDFrame : List Nat :=
  [0xFF, 21, 0x44, 221, 0, 135, 0, 42, 0, 0, 0, 0, 0, 0, 0, 0, 0, 0x10, 0, 0xF6, 0xFE]

/-- A store that selects the driver file `nhs_driver.dll` on port `COM7`. -/
def sampleSettings : Settings := fun key =>
  if key = AppConstants.REG_KEY_SELECTED_DRIVER_FILE.units then
    some (QVariant.string (QString.lit "nhs_driver.dll"))
  else if key = AppConstants.REG_KEY_SELECTED_COM_PORT.units then
    some (QVariant.string (QString.lit "COM7"))
  else none

/-- The store `sampleSettings` with the port changed to `COM8`. -/
def changedSettings : Settings := fun key =>
  if key = AppConstants.REG_KEY_SELECTED_COM_PORT.units then
    some (QVariant.string (QString.lit "COM8"))
  else sampleSettings key

/-- Surroundings in which every plugin file loads as a driver. -/
def sampleEnv : ApiEnv :=
  { now := sampleNow, settings := sampleSettings, pluginInstance := fun _ => PluginInstance.driver }

/-- The surroundings `sampleEnv` after the port setting changed. -/
def changedEnv : ApiEnv := { sampleEnv with settings := changedSettings }

/-- The manager after `loadAndStartDriver` loaded the driver of `sampleEnv`. -/
def loadedManager : Ups_api_library := (loadAndStartDriver sampleEnv Ups_api_library.new).2.1

/-- A driver after `initialize` opened its port and the first initiator command
went out. -/
def awaitingDriver : Nhs_driver :=
  (sendInitiatorCommand (initializeDriver newDriver (QString.lit "COM7") OpenResult.opened).1).1

/-- What the driver emits when the handshake frame `sampleSFrame` arrives. -/
def handshakeOutput : List DriverOut := (readData sampleNow awaitingDriver sampleSFrame).out

/-- The driver after the handshake frame. -/
def streamingDriver : Nhs_driver := (readData sampleNow awaitingDriver sampleSFrame).drv

/-- The manager after it processed the handshake and then the sample of the
type D frame `sampleDFrame`: samples are flowing. -/
def streamingManager : Ups_api_library :=
  (deliverAll sampleNow (deliverAll sampleNow loadedManager handshakeOutput).1
    (readData sampleNow streamingDriver sampleDFrame).out).1

/-- The error text of a handshake that failed after five attempts. -/
def sampleError : QString := handshakeFailedText 5

/-- A report of a live sample: the data of `sampleDFrame` under the status of
`streamingManager`. -/
def sampleReport : UpsReport :=
  { data := convertRawToUpsData sampleNow (readData sampleNow streamingDriver sampleDFrame).drv
    serviceStatus := streamingManager.m_currentStatus }

/-- Five timer expiries; a valid type D frame arrives before the first and a
corrupted frame before the third. -/
def samplePhases : List (List (QDateTime × List Nat) × OpenResult) :=
  [([(sampleNow, sampleDFrame)], OpenResult.opened), ([], OpenResult.opened),
   ([(sampleNow, corruptedDFrame)], OpenResult.opened), ([], OpenResult.opened),
   ([], OpenResult.opened)]

/-- The command map of `notifyService("SelectedComPort", "COM3")`. -/
def sampleCommand : QMap :=
  [(QString.lit "COMMAND", QString.lit "CONFIG_UPDATE"),
   (QString.lit "SelectedComPort", QString.lit "COM3")]

/-- A map without the `COMMAND` key. -/
def sampleNoCommand : QMap := [(QString.lit "SelectedComPort", QString.lit "COM3")]

/-- A server with nothing received yet on any socket. -/
def idleServer : UpsIpcServer :=
  { blockSize := 0, available := fun _ => [], settings := sampleSettings }

/-- The first six bytes of a frame of subscriber 0: a length prefix that
declares 200 payload bytes, and two of them. -/
def partialFrame : List Nat := [0, 0, 0, 200, 1, 2]

/-- The first six bytes of a frame of subscriber 0 whose prefix declares 20
payload bytes. -/
def shortPartialFrame : List Nat := [0, 0, 0, 20, 1, 2]

/-- The packet subscriber 1 sends with `notifyService("SelectedComPort",
"COM3")`. -/
def samplePacket : List Nat :=
  notifyServicePacket (QString.lit "SelectedComPort") (QString.lit "COM3")

/-- The driver `awaitingDriver` (handshake timer armed) after the hardware was
removed: the port reported `ResourceError`. -/
def removedDriver : Nhs_driver := (handleSerialError awaitingDriver SerialPortError.ResourceError).1

/-- Surroundings with an empty configuration store. -/
def emptyEnv : ApiEnv :=
  { now := sampleNow, settings := fun _ => none, pluginInstance := fun _ => PluginInstance.driver }

/-- A manager whose recovery timer is pending with 1200 ms left to run. -/
def pendingManager : Ups_api_library :=
  { Ups_api_library.new with m_recoveryTimer := { active := true, interval := 5000, remaining := 1200 } }

/-- A frame of declared length 18 whose type byte is `D`.  For this
combination `readData` sums the 18 bytes after the start byte, the last of
which is the byte that follows the frame; the sum matches the checksum byte
exactly when that following byte is `0xAC`. -/
def oddFrame : List Nat := [0xFF, 18, 0x44, 0, 0, 0, 0, 0, 0, 0, 0, 0, 0, 0, 0, 0, 0, 0xFE]

/-- A server on whose subscriber sockets a complete frame waits whose payload
`00 00 00 01` announces one pair and holds none. -/
def garbledCommandServer : UpsIpcServer :=
  { blockSize := 0, available := fun _ => [0, 0, 0, 4, 0, 0, 0, 1], settings := sampleSettings }

/-- A client on whose socket a complete frame waits whose two payload bytes are
no report. -/
def garbledReportApp : SystemTrayApp := { m_nextBlockSize := 0, socket := [0, 0, 0, 2, 1, 2] }

/-- A store that holds only a shutdown delay of 60 seconds. -/
def delayOnlySettings : Settings := fun key =>
  if key = AppConstants.REG_KEY_SHUTDOWN_DELAY.units then some (QVariant.int 60) else none

/-- A report of a live sample whose state is OnBattery. -/
def onBatteryReport : UpsReport :=
  { sampleReport with data := { sampleReport.data with state := UpsState.OnBattery } }

/-- A report of a live sample whose state is OnlineFull. -/
def onlineFullReport : UpsReport :=
  { sampleReport with data := { sampleReport.data with state := UpsState.OnlineFull } }

/-- The policy engine constructed on the store `delayOnlySettings` (members
without initializer read as 0 and false, power profile not power saver). -/
def delay60Core : UpsMonitorCore := (UpsMonitorCore.new delayOnlySettings 0 false false).2.1

/-- The policy engine constructed on an empty store. -/
def defaultCore : UpsMonitorCore := (UpsMonitorCore.new (fun _ => none) 0 false false).2.1

/-! ## Ring buffer cursors -/

theorem maskIndex_lt (i : Int) : maskIndex i < 128 := by
  unfold maskIndex; omega

theorem parse_packet_ring_cursor (now : QDateTime) (s : Nhs_driver) (t : Int) (L : Nat) :
    (parse_packet_ring now s t L).2.1.m_head = s.m_head ∧
    (parse_packet_ring now s t L).2.1.m_tail = s.m_tail ∧
    (parse_packet_ring now s t L).2.1.m_ringBuffer = s.m_ringBuffer := by
  unfold parse_packet_ring
  simp only
  split_ifs <;> simp

/-- A pass of the drain loop moves the read cursor forward by between one byte
and the unread count, and touches neither the write cursor nor the buffer. -/
theorem drainStep_cursor (now : QDateTime) (s : Nhs_driver) (it : DrainIter)
    (h : drainStep now s = some it) :
    1 ≤ it.advance ∧ it.advance ≤ unread s ∧ it.drv.m_head = s.m_head ∧
    it.drv.m_tail = maskIndex ((s.m_tail : Int) + it.advance) ∧
    it.drv.m_ringBuffer = s.m_ringBuffer := by
  unfold drainStep at h
  simp only [PACKET_LEN_D, PACKET_LEN_S] at h
  have hc := parse_packet_ring_cursor now s s.m_tail (ringAt s ((s.m_tail : Int) + 1))
  split_ifs at h <;> cases h <;> simp [hc] <;> omega

theorem drainStep_unread (now : QDateTime) (s : Nhs_driver) (it : DrainIter)
    (h : drainStep now s = some it) : unread it.drv = unread s - it.advance := by
  obtain ⟨h1, h2, h3, h4, _⟩ := drainStep_cursor now s it h
  unfold unread maskIndex at *
  rw [h3, h4]
  omega

/-- The drain loop consumes at most the unread bytes and lowers the unread
count by what it consumes. -/
theorem drainLoop_consumed (now : QDateTime) (fuel : Nat) (s : Nhs_driver) :
    (drainLoop now fuel s).consumed ≤ unread s ∧
    unread (drainLoop now fuel s).drv = unread s - (drainLoop now fuel s).consumed ∧
    (drainLoop now fuel s).drv.m_head = s.m_head := by
  induction fuel generalizing s with
  | zero => simp [drainLoop]
  | succ n ih =>
    unfold drainLoop
    cases hstep : drainStep now s with
    | none => simp
    | some it =>
      obtain ⟨h1, h2, h3, _, _⟩ := drainStep_cursor now s it hstep
      have hu := drainStep_unread now s it hstep
      obtain ⟨i1, i2, i3⟩ := ih it.drv
      simp only
      refine ⟨by omega, by omega, by rw [i3, h3]⟩

/-- With fuel for every unread byte the loop has ended by itself: its condition
is false or it reached the `break`. -/
theorem drainLoop_exits (now : QDateTime) (fuel : Nat) (s : Nhs_driver) (h : unread s ≤ fuel) :
    drainStep now (drainLoop now fuel s).drv = none := by
  induction fuel generalizing s with
  | zero =>
    have h0 : unread s = 0 := by omega
    simp [drainLoop, drainStep, h0]
  | succ n ih =>
    unfold drainLoop
    cases hstep : drainStep now s with
    | none => simpa using hstep
    | some it =>
      obtain ⟨h1, h2, _⟩ := drainStep_cursor now s it hstep
      have hu := drainStep_unread now s it hstep
      simp only
      exact ih it.drv (by omega)

theorem unread_lt (s : Nhs_driver) : unread s < 128 := maskIndex_lt _

/-- The loop of `readData` always ends within its `BUFFER_SIZE` passes. -/
theorem readData_loop_ended (now : QDateTime) (s : Nhs_driver) (newData : List Nat) :
    drainStep now (readData now s newData).drv = none := by
  unfold readData
  apply drainLoop_exits
  have := unread_lt (ingest s newData)
  simp [BUFFER_SIZE]; omega

/-- Ingesting a chunk raises the unread count by at most the chunk length and
leaves the read cursor alone. -/
theorem ingest_unread (s : Nhs_driver) (bs : List Nat) :
    unread (ingest s bs) ≤ unread s + bs.length ∧ (ingest s bs).m_tail = s.m_tail := by
  induction bs generalizing s with
  | nil => simp [ingest]
  | cons c rest ih =>
    unfold ingest
    obtain ⟨i1, i2⟩ := ih { s with
        m_ringBuffer := fun j => if j = s.m_head then c % 256 else s.m_ringBuffer j
        m_head := maskIndex ((s.m_head : Int) + 1) }
    refine ⟨?_, by rw [i2]⟩
    refine le_trans i1 ?_
    simp only [unread, maskIndex, List.length_cons]
    omega

/-- One `readData` call consumes at most what was unread before it plus what it
ingested. -/
theorem readData_consumed (now : QDateTime) (s : Nhs_driver) (newData : List Nat) :
    (readData now s newData).consumed + unread (readData now s newData).drv
      ≤ unread s + newData.length := by
  unfold readData
  obtain ⟨h1, h2, _⟩ := drainLoop_consumed now BUFFER_SIZE (ingest s newData)
  obtain ⟨h3, _⟩ := ingest_unread s newData
  omega

/-! ## C2: the read cursor never passes the write cursor -/

theorem readDataSeq_consumed (s : Nhs_driver) (calls : List (QDateTime × List Nat)) :
    (readDataSeq s calls).2 + unread (readDataSeq s calls).1 ≤ unread s + totalIngested calls := by
  induction calls generalizing s with
  | nil => simp [readDataSeq, totalIngested]
  | cons call rest ih =>
    have h1 := readData_consumed call.1 s call.2
    have h2 := ih (readData call.1 s call.2).drv
    simp only [readDataSeq, totalIngested, List.map_cons, List.sum_cons] at *
    omega

/-- C2. For every sequence of `readData` calls started with `m_head = m_tail =
0`, after any number `n` of the calls the total number of bytes by which
`m_tail` was advanced is at most the total number of bytes ingested. -/
theorem C2_consumed_le_ingested (s : Nhs_driver) (calls : List (QDateTime × List Nat)) (n : Nat)
    (hhead : s.m_head = 0) (htail : s.m_tail = 0) :
    (readDataSeq s (calls.take n)).2 ≤ totalIngested (calls.take n) := by
  have h := readDataSeq_consumed s (calls.take n)
  have h0 : unread s = 0 := by simp [unread, maskIndex, hhead, htail]
  omega

theorem C2_consumed_le_ingested_witness :
    newDriver.m_head = 0 ∧ newDriver.m_tail = 0 ∧
    (readDataSeq newDriver
      ([(sampleNow, sampleSFrame), (sampleNow, sampleDFrame)].take 2)).2
      ≤ totalIngested ([(sampleNow, sampleSFrame), (sampleNow, sampleDFrame)].take 2) :=
  ⟨rfl, rfl,
    C2_consumed_le_ingested newDriver [(sampleNow, sampleSFrame), (sampleNow, sampleDFrame)] 2
      rfl rfl⟩

/-! ## C1, C3: what the drain loop does with a complete frame -/

theorem checksumSum_eq (s : Nhs_driver) (t : Int) (n : Nat) :
    checksumSum s t n = frameSum s t n % 65536 := by
  induction n with
  | zero => simp [checksumSum, frameSum]
  | succ k ih =>
    simp only [checksumSum, frameSum, List.range_succ, List.map_append, List.sum_append,
      List.map_cons, List.map_nil, List.sum_cons, List.sum_nil, add_zero] at *
    rw [ih]
    omega

/-- The checksum the code computes is the low byte of the sum of the bytes at
offsets `1 .. length`. -/
theorem calculate_checksum_ring_eq (s : Nhs_driver) (t : Int) (n : Nat) :
    calculate_checksum_ring s t n = frameSum s t n % 256 := by
  unfold calculate_checksum_ring
  rw [checksumSum_eq]
  have h := Nat.and_pow_two_sub_one_eq_mod (frameSum s t n % 65536) 8
  norm_num at h
  rw [h]
  omega

/-- The pass over a complete frame whose guard fails. -/
theorem drainStep_mismatch (now : QDateTime) (s : Nhs_driver) (L : Nat)
    (hstart : ringAt s s.m_tail = 0xFF)
    (hlen : ringAt s ((s.m_tail : Int) + 1) = L)
    (hL : L = 21 ∨ L = 18)
    (hcomplete : L ≤ unread s)
    (hmismatch : ¬ guardHolds s L) :
    drainStep now s =
      some ⟨L, { s with m_tail := maskIndex ((s.m_tail : Int) + L) },
        [DriverOut.qDebug .checksumMismatch]⟩ := by
  have h9 : unread s ≥ 9 := by omega
  unfold guardHolds at hmismatch
  unfold drainStep
  simp only [PACKET_LEN_D, PACKET_LEN_S, hlen, hstart]
  rw [if_pos h9]
  have hnot : ¬ (L ≠ 21 ∧ L ≠ 18) := by omega
  have hnlt : ¬ unread s < L := by omega
  simp only [ne_eq, not_true_eq_false, if_false, hnot, hnlt]
  rw [if_neg hmismatch]

/-- The pass over a complete frame whose guard holds. -/
theorem drainStep_guarded (now : QDateTime) (s : Nhs_driver) (L : Nat)
    (hstart : ringAt s s.m_tail = 0xFF)
    (hlen : ringAt s ((s.m_tail : Int) + 1) = L)
    (hL : L = 21 ∨ L = 18)
    (hcomplete : L ≤ unread s)
    (hguard : guardHolds s L) :
    drainStep now s =
      some ⟨L,
        { (parse_packet_ring now s s.m_tail L).2.1 with
          m_tail := maskIndex (((parse_packet_ring now s s.m_tail L).2.1.m_tail : Int) + L) },
        (parse_packet_ring now s s.m_tail L).2.2⟩ := by
  have h9 : unread s ≥ 9 := by omega
  unfold guardHolds at hguard
  unfold drainStep
  simp only [PACKET_LEN_D, PACKET_LEN_S, hlen, hstart]
  rw [if_pos h9]
  have hnot : ¬ (L ≠ 21 ∧ L ≠ 18) := by omega
  have hnlt : ¬ unread s < L := by omega
  simp only [ne_eq, not_true_eq_false, if_false, hnot, hnlt]
  rw [if_pos hguard]

/-- C1 (as amended). When the drain loop finds at `m_tail` a complete frame that
starts with `0xFF` and declares a valid total length `L` (21 or 18) but whose
checksum byte differs from the checksum the code computes, the pass emits only
the mismatch debug line, changes nothing in the driver except `m_tail`, and
advances `m_tail` by the declared frame length `L`. -/
theorem C1_mismatch_skips_frame (now : QDateTime) (s : Nhs_driver) (L : Nat)
    (hstart : ringAt s s.m_tail = 0xFF)
    (hlen : ringAt s ((s.m_tail : Int) + 1) = L)
    (hL : L = 21 ∨ L = 18)
    (hcomplete : L ≤ unread s)
    (hmismatch :
      calculate_checksum_ring s s.m_tail (if ringAt s ((s.m_tail : Int) + 2) = 0x44 then 18 else 15)
        ≠ ringAt s ((s.m_tail : Int) + L - 2)) :
    drainStep now s =
      some ⟨L, { s with m_tail := maskIndex ((s.m_tail : Int) + L) },
        [DriverOut.qDebug .checksumMismatch]⟩ :=
  drainStep_mismatch now s L hstart hlen hL hcomplete (fun h => hmismatch h.2)

theorem C1_mismatch_skips_frame_witness :
    drainStep sampleNow (ingest newDriver corruptedDFrame) =
      some ⟨21, { ingest newDriver corruptedDFrame with
                  m_tail := maskIndex (((ingest newDriver corruptedDFrame).m_tail : Int) + (21 : Nat)) },
        [DriverOut.qDebug .checksumMismatch]⟩ :=
  C1_mismatch_skips_frame sampleNow (ingest newDriver corruptedDFrame) 21
    (by decide) (by decide) (by decide) (by decide) (by decide)

/-- C1 (as stated) fails: on the corrupted frame `corruptedDFrame`, complete at
`m_tail` with a valid declared length and a checksum byte that differs from the
computed checksum, the pass emits no frame but advances `m_tail` by 21 bytes,
not by one. -/
theorem C1_counterexample :
    ringAt (ingest newDriver corruptedDFrame) (ingest newDriver corruptedDFrame).m_tail = 0xFF ∧
    ringAt (ingest newDriver corruptedDFrame)
      (((ingest newDriver corruptedDFrame).m_tail : Int) + 1) = 21 ∧
    21 ≤ unread (ingest newDriver corruptedDFrame) ∧
    calculate_checksum_ring (ingest newDriver corruptedDFrame)
      (ingest newDriver corruptedDFrame).m_tail 18
      ≠ ringAt (ingest newDriver corruptedDFrame)
          (((ingest newDriver corruptedDFrame).m_tail : Int) + 19) ∧
    (∃ it, drainStep sampleNow (ingest newDriver corruptedDFrame) = some it ∧
      it.out = [DriverOut.qDebug .checksumMismatch] ∧ it.advance = 21 ∧ it.advance ≠ 1 ∧
      it.drv.m_tail = 21 ∧
      it.drv.m_tail ≠ maskIndex (((ingest newDriver corruptedDFrame).m_tail : Int) + 1)) ∧
    (readData sampleNow newDriver corruptedDFrame).consumed = 21 := by
  refine ⟨by decide, by decide, by decide, by decide, ?_, by decide⟩
  refine ⟨_, rfl, ?_⟩
  decide

theorem parse_packet_ring_D (now : QDateTime) (s : Nhs_driver) (t : Int)
    (htype : ringAt s (t + 2) = 0x44) :
    DriverOut.qDebug .typeDParsed ∈ (parse_packet_ring now s t 21).2.2 ∧
    (parse_packet_ring now s t 21).2.1.m_latestRawData
      = parseDRaw s.m_latestRawData (fun k => ringAt s (t + 3 + (k : Int))) ∧
    (parse_packet_ring now s t 21).2.1.m_latestUpsData
      = convertRawToUpsData now (parse_packet_ring now s t 21).2.1 := by
  have hraw : parseDRaw s.m_latestRawData (fun k => linearPacket s t 21 (3 + k))
      = parseDRaw s.m_latestRawData (fun k => ringAt s (t + 3 + (k : Int))) := by
    simp [parseDRaw, copyDataPayload, linearPacket, add_assoc]
  have hlp : linearPacket s t 21 2 = 0x44 := by simp [linearPacket, htype]
  unfold parse_packet_ring
  simp only [hlp, PACKET_LEN_D, hraw]
  rw [if_pos (by decide)]
  refine ⟨by simp, ?_, ?_⟩
  · split_ifs <;> rfl
  · rfl

theorem parse_packet_ring_S (now : QDateTime) (s : Nhs_driver) (t : Int)
    (htype : ringAt s (t + 2) = 0x53) :
    DriverOut.qDebug .typeSParsed ∈ (parse_packet_ring now s t 18).2.2 ∧
    (parse_packet_ring now s t 18).2.1.m_latestRawData
      = parseSRaw s.m_latestRawData (fun k => ringAt s (t + 3 + (k : Int))) ∧
    (parse_packet_ring now s t 18).2.1.m_latestUpsData
      = convertRawToUpsData now (parse_packet_ring now s t 18).2.1 := by
  have hraw : parseSRaw s.m_latestRawData (fun k => linearPacket s t 18 (3 + k))
      = parseSRaw s.m_latestRawData (fun k => ringAt s (t + 3 + (k : Int))) := by
    simp [parseSRaw, copyHardwarePayload, linearPacket, add_assoc]
  have hlp : linearPacket s t 18 2 = 0x53 := by simp [linearPacket, htype]
  unfold parse_packet_ring
  simp only [hlp, PACKET_LEN_D, PACKET_LEN_S, hraw]
  rw [if_neg (by decide), if_pos (by decide)]
  refine ⟨by simp, ?_, ?_⟩
  · split_ifs <;> rfl
  · rfl

/-- When the type does not go with the length, `parse_packet_ring` returns
false, changes nothing and emits nothing. -/
theorem parse_packet_ring_reject (now : QDateTime) (s : Nhs_driver) (t : Int) (L : Nat)
    (hL : L = 21 ∨ L = 18)
    (h : ¬ ((ringAt s (t + 2) = 0x44 ∧ L = 21) ∨ (ringAt s (t + 2) = 0x53 ∧ L = 18))) :
    parse_packet_ring now s t L = (false, s, []) := by
  have hlp : linearPacket s t L 2 = ringAt s (t + 2) := by
    have : 2 < L := by omega
    simp [linearPacket, this]
  unfold parse_packet_ring
  simp only [hlp, PACKET_LEN_D, PACKET_LEN_S]
  rw [if_neg (fun hh => h (Or.inl hh)), if_neg (fun hh => h (Or.inr hh))]

/-- For a valid declared length, the validity of the specification is the
guard of the code together with the type check of `parse_packet_ring`. -/
theorem frameValid_iff (s : Nhs_driver) (L : Nat) :
    frameValid s L ↔ typeMatches s L ∧ guardHolds s L := by
  unfold frameValid guardHolds
  rw [calculate_checksum_ring_eq]
  constructor
  · rintro ⟨ht, hl, hc⟩
    refine ⟨ht, hl, ?_⟩
    rcases ht with ⟨h1, h2⟩ | ⟨h1, h2⟩
    · rw [hc, h1, h2]; rfl
    · rw [hc, h1, h2]; rfl
  · rintro ⟨ht, hl, hc⟩
    refine ⟨ht, hl, ?_⟩
    rcases ht with ⟨h1, h2⟩ | ⟨h1, h2⟩
    · rw [← hc, h1, h2]; rfl
    · rw [← hc, h1, h2]; rfl

/-- C3. For every complete frame at `m_tail` that starts with `0xFF` and
declares a valid total length `L` (18 or 21), the pass of the drain loop decodes
the frame exactly when the frame is valid: the type goes with the length (`D`
with 21, `S` with 18), the byte at offset `L - 1` is `0xFE` and the byte at
offset `L - 2` is the low byte of the sum of the bytes at offsets `1 .. L - 3`.
Decoding shows as the parse debug line; it stores the payload fields in the raw
record and recomputes the latest sample from it.  Otherwise the raw record and
the latest sample are left as they were.  Either way `m_tail` advances by `L`. -/
theorem C3_decode_iff_valid (now : QDateTime) (s : Nhs_driver) (L : Nat)
    (hstart : ringAt s s.m_tail = 0xFF)
    (hlen : ringAt s ((s.m_tail : Int) + 1) = L)
    (hL : L = 18 ∨ L = 21)
    (hcomplete : L ≤ unread s) :
    ∃ it, drainStep now s = some it ∧ it.advance = L ∧
      ((DriverOut.qDebug .typeDParsed ∈ it.out ∨ DriverOut.qDebug .typeSParsed ∈ it.out) ↔
        frameValid s L) ∧
      (frameValid s L →
        it.drv.m_latestRawData =
          (if L = 21
            then parseDRaw s.m_latestRawData (fun k => ringAt s ((s.m_tail : Int) + 3 + (k : Int)))
            else parseSRaw s.m_latestRawData (fun k => ringAt s ((s.m_tail : Int) + 3 + (k : Int)))) ∧
        it.drv.m_latestUpsData = convertRawToUpsData now it.drv) ∧
      (¬ frameValid s L →
        it.drv.m_latestRawData = s.m_latestRawData ∧
        it.drv.m_latestUpsData = s.m_latestUpsData) := by
  have hL2 : L = 21 ∨ L = 18 := by omega
  rw [frameValid_iff]
  by_cases hg : guardHolds s L
  · have hstep := drainStep_guarded now s L hstart hlen hL2 hcomplete hg
    refine ⟨_, hstep, rfl, ?_⟩
    by_cases ht : typeMatches s L
    · rcases ht with ⟨h1, h2⟩ | ⟨h1, h2⟩
      · subst h2
        obtain ⟨p1, p2, p3⟩ := parse_packet_ring_D now s s.m_tail h1
        have ht2 : typeMatches s 21 := Or.inl ⟨h1, rfl⟩
        refine ⟨⟨fun _ => ⟨ht2, hg⟩, fun _ => Or.inl p1⟩, fun _ => ⟨?_, ?_⟩,
          fun hn => absurd ⟨ht2, hg⟩ hn⟩
        · rw [if_pos rfl]; exact p2
        · exact p3
      · subst h2
        obtain ⟨p1, p2, p3⟩ := parse_packet_ring_S now s s.m_tail h1
        have ht2 : typeMatches s 18 := Or.inr ⟨h1, rfl⟩
        refine ⟨⟨fun _ => ⟨ht2, hg⟩, fun _ => Or.inr p1⟩, fun _ => ⟨?_, ?_⟩,
          fun hn => absurd ⟨ht2, hg⟩ hn⟩
        · rw [if_neg (by decide)]; exact p2
        · exact p3
    · have hrej := parse_packet_ring_reject now s s.m_tail L hL2 ht
      rw [hrej]
      refine ⟨⟨fun h => ?_, fun h => absurd h.1 ht⟩, fun h => absurd h.1 ht, fun _ => ⟨rfl, rfl⟩⟩
      simp at h
  · have hstep := drainStep_mismatch now s L hstart hlen hL2 hcomplete hg
    refine ⟨_, hstep, rfl, ⟨fun h => ?_, fun h => absurd h.2 hg⟩, fun h => absurd h.2 hg,
      fun _ => ⟨rfl, rfl⟩⟩
    simp at h

theorem C3_decode_iff_valid_witness :
    frameValid (ingest newDriver sampleDFrame) 21 ∧
    ¬ frameValid (ingest newDriver corruptedDFrame) 21 ∧
    ∃ it, drainStep sampleNow (ingest newDriver sampleDFrame) = some it ∧ it.advance = 21 ∧
      ((DriverOut.qDebug .typeDParsed ∈ it.out ∨ DriverOut.qDebug .typeSParsed ∈ it.out) ↔
        frameValid (ingest newDriver sampleDFrame) 21) ∧
      (frameValid (ingest newDriver sampleDFrame) 21 →
        it.drv.m_latestRawData =
          (if 21 = 21
            then parseDRaw (ingest newDriver sampleDFrame).m_latestRawData
              (fun k => ringAt (ingest newDriver sampleDFrame)
                (((ingest newDriver sampleDFrame).m_tail : Int) + 3 + (k : Int)))
            else parseSRaw (ingest newDriver sampleDFrame).m_latestRawData
              (fun k => ringAt (ingest newDriver sampleDFrame)
                (((ingest newDriver sampleDFrame).m_tail : Int) + 3 + (k : Int)))) ∧
        it.drv.m_latestUpsData = convertRawToUpsData sampleNow it.drv) ∧
      (¬ frameValid (ingest newDriver sampleDFrame) 21 →
        it.drv.m_latestRawData = (ingest newDriver sampleDFrame).m_latestRawData ∧
        it.drv.m_latestUpsData = (ingest newDriver sampleDFrame).m_latestUpsData) :=
  ⟨by unfold frameValid typeMatches frameSum; decide,
    by unfold frameValid typeMatches frameSum; decide,
    C3_decode_iff_valid sampleNow (ingest newDriver sampleDFrame) 21
      (by decide) (by decide) (by decide) (by decide)⟩

/-! ## C4: the state cascade -/

theorem and_two_pow_ne_zero (b k : Nat) : b &&& 2 ^ k ≠ 0 ↔ b.testBit k = true := by
  constructor
  · intro h
    obtain ⟨i, hi⟩ := Nat.ne_zero_implies_bit_true h
    rw [Nat.testBit_and, Nat.testBit_two_pow] at hi
    simp only [Bool.and_eq_true, decide_eq_true_eq] at hi
    rw [hi.2]; exact hi.1
  · intro h h0
    have : (b &&& 2 ^ k).testBit k = true := by
      rw [Nat.testBit_and, Nat.testBit_two_pow_self, h]; rfl
    rw [h0] at this
    simp at this

theorem convertRawToUpsData_state (now : QDateTime) (s : Nhs_driver) :
    (convertRawToUpsData now s).state = stateCascade s.m_latestRawData.payload.statusval := by
  have h1 : s.m_latestRawData.payload.statusval &&& 2 ≠ 0 ↔
      s.m_latestRawData.payload.statusval.testBit 1 = true :=
    and_two_pow_ne_zero s.m_latestRawData.payload.statusval 1
  have h4 : s.m_latestRawData.payload.statusval &&& 16 ≠ 0 ↔
      s.m_latestRawData.payload.statusval.testBit 4 = true :=
    and_two_pow_ne_zero s.m_latestRawData.payload.statusval 4
  have h0 : s.m_latestRawData.payload.statusval &&& 1 ≠ 0 ↔
      s.m_latestRawData.payload.statusval.testBit 0 = true :=
    and_two_pow_ne_zero s.m_latestRawData.payload.statusval 0
  have h7 : s.m_latestRawData.payload.statusval &&& 128 ≠ 0 ↔
      s.m_latestRawData.payload.statusval.testBit 7 = true :=
    and_two_pow_ne_zero s.m_latestRawData.payload.statusval 7
  unfold convertRawToUpsData stateCascade
  simp only [NhsStatusBits.BATTERY_LOW_CRITICAL, NhsStatusBits.BATTERY_CHARGING,
    NhsStatusBits.FREQUENCY_ASYNC, NhsStatusBits.BATTERY_FLOW_ACTIVE, ne_eq]
  by_cases c1 : s.m_latestRawData.payload.statusval.testBit 1 = true
  · rw [if_pos c1, if_pos (h1.mpr c1)]
  · rw [if_neg c1, if_neg (fun h => c1 (h1.mp h))]
    by_cases c4 : s.m_latestRawData.payload.statusval.testBit 4 = true
    · have n4 : ¬ s.m_latestRawData.payload.statusval &&& 16 = 0 := h4.mpr c4
      rw [if_neg (not_not.mpr c4), if_neg n4]
      by_cases c0 : s.m_latestRawData.payload.statusval.testBit 0 = true
      · rw [if_pos c0, if_pos (h0.mpr c0)]
      · rw [if_neg c0, if_neg (fun h => c0 (h0.mp h))]
        by_cases c7 : s.m_latestRawData.payload.statusval.testBit 7 = true
        · rw [if_pos c7, if_pos (h7.mpr c7)]
        · rw [if_neg c7, if_neg (fun h => c7 (h7.mp h))]
    · have e4 : s.m_latestRawData.payload.statusval &&& 16 = 0 := by
        by_contra hne
        exact c4 (h4.mp hne)
      rw [if_pos c4, if_pos e4]

theorem stateCascade_ne_unknown (b : Nat) : stateCascade b ≠ UpsState.Unknown := by
  unfold stateCascade
  split_ifs <;> decide

/-- C4. For every status byte `b` held by the raw record, `convertRawToUpsData`
yields the state of the fixed-priority cascade (BatteryCritical if bit `0x02` is
set; otherwise OnBattery if bit `0x10` is clear; otherwise OnlineFault if bit
`0x01` is set; otherwise OnlineCharging if bit `0x80` is set; otherwise
OnlineFull).  The result is never Unknown; every `b` with bit `0x02` set gives
BatteryCritical, `b = 0x10` gives OnlineFull and `b = 0x00` gives OnBattery. -/
theorem C4_state_cascade (now : QDateTime) (s : Nhs_driver) :
    (convertRawToUpsData now s).state = stateCascade s.m_latestRawData.payload.statusval ∧
    (convertRawToUpsData now s).state ≠ UpsState.Unknown ∧
    (s.m_latestRawData.payload.statusval &&& 0x02 ≠ 0 →
      (convertRawToUpsData now s).state = UpsState.BatteryCritical) ∧
    (s.m_latestRawData.payload.statusval = 0x10 →
      (convertRawToUpsData now s).state = UpsState.OnlineFull) ∧
    (s.m_latestRawData.payload.statusval = 0x00 →
      (convertRawToUpsData now s).state = UpsState.OnBattery) := by
  have h := convertRawToUpsData_state now s
  refine ⟨h, ?_, ?_, ?_, ?_⟩
  · rw [h]; exact stateCascade_ne_unknown _
  · intro hb
    have h1 := (and_two_pow_ne_zero s.m_latestRawData.payload.statusval 1).mp hb
    rw [h]; unfold stateCascade; rw [if_pos h1]
  · intro hb; rw [h, hb]; decide
  · intro hb; rw [h, hb]; decide

theorem C4_state_cascade_witness :
    (withStatus newDriver 0x92).m_latestRawData.payload.statusval &&& 0x02 ≠ 0 ∧
    (convertRawToUpsData sampleNow (withStatus newDriver 0x92)).state = UpsState.BatteryCritical ∧
    (withStatus newDriver 0x10).m_latestRawData.payload.statusval = 0x10 ∧
    (convertRawToUpsData sampleNow (withStatus newDriver 0x10)).state = UpsState.OnlineFull ∧
    (withStatus newDriver 0x00).m_latestRawData.payload.statusval = 0x00 ∧
    (convertRawToUpsData sampleNow (withStatus newDriver 0x00)).state = UpsState.OnBattery :=
  ⟨by decide,
    (C4_state_cascade sampleNow (withStatus newDriver 0x92)).2.2.1 (by decide),
    rfl,
    (C4_state_cascade sampleNow (withStatus newDriver 0x10)).2.2.2.1 rfl,
    rfl,
    (C4_state_cascade sampleNow (withStatus newDriver 0x00)).2.2.2.2 rfl⟩

/-! ## C5, C8, C9, C10: the lifecycle manager -/

/-- C5. For every manager status with data-active false and every `UpsData`
passed to `emitUpsReport`, exactly one report is published and it has battery
level 0, state Unknown, input, output and battery voltage 0, temperature 0,
load percentage 0 and battery-fault false. -/
theorem C5_inactive_report_is_safe (now : QDateTime) (m : Ups_api_library) (data : UpsData)
    (hinactive : m.m_currentStatus.dataCommunicationActive = false) :
    ∃ report, (emitUpsReport now m data).2 = [ApiOut.upsReportAvailable report] ∧
      report.data.batteryLevel = CDouble.zero ∧
      report.data.state = UpsState.Unknown ∧
      report.data.inputVoltage = CDouble.zero ∧
      report.data.outputVoltage = CDouble.zero ∧
      report.data.batteryVoltage = CDouble.zero ∧
      report.data.temperatureC = CDouble.zero ∧
      report.data.loadPercentage = 0 ∧
      report.data.BatteryFault = false ∧
      report.serviceStatus.dataCommunicationActive = false := by
  unfold emitUpsReport
  simp only [hinactive]
  refine ⟨_, rfl, ?_⟩
  simp [CDouble.ofNat, CDouble.zero]

theorem C5_inactive_report_is_safe_witness :
    Ups_api_library.new.m_currentStatus.dataCommunicationActive = false ∧
    ∃ report,
      (emitUpsReport sampleNow Ups_api_library.new
        (convertRawToUpsData sampleNow streamingDriver)).2
        = [ApiOut.upsReportAvailable report] ∧
      report.data.batteryLevel = CDouble.zero ∧
      report.data.state = UpsState.Unknown ∧
      report.data.inputVoltage = CDouble.zero ∧
      report.data.outputVoltage = CDouble.zero ∧
      report.data.batteryVoltage = CDouble.zero ∧
      report.data.temperatureC = CDouble.zero ∧
      report.data.loadPercentage = 0 ∧
      report.data.BatteryFault = false ∧
      report.serviceStatus.dataCommunicationActive = false :=
  ⟨rfl, C5_inactive_report_is_safe sampleNow Ups_api_library.new
    (convertRawToUpsData sampleNow streamingDriver) rfl⟩

/-- What `onDriverInitFailure` does in every manager state: the error text is
recorded, one report is published first, its data block is the safe default
(zero values, state Unknown), and its data-active flag is the flag the manager
had before the call: the slot does not clear it. -/
theorem onDriverInitFailure_report (now : QDateTime) (m : Ups_api_library) (error : QString) :
    (onDriverInitFailure now m error).1.m_currentStatus.lastErrorMessage = error ∧
    (onDriverInitFailure now m error).1.m_currentStatus.dataCommunicationActive
      = m.m_currentStatus.dataCommunicationActive ∧
    ∃ report rest,
      (onDriverInitFailure now m error).2 = ApiOut.upsReportAvailable report :: rest ∧
      (∀ o ∈ rest, ∀ r, o ≠ ApiOut.upsReportAvailable r) ∧
      report.serviceStatus.lastErrorMessage = error ∧
      report.serviceStatus.dataCommunicationActive
        = m.m_currentStatus.dataCommunicationActive ∧
      report.data.state = UpsState.Unknown ∧
      report.data.batteryLevel = CDouble.zero ∧
      report.data.inputVoltage = CDouble.zero ∧
      report.data.outputVoltage = CDouble.zero ∧
      report.data.batteryVoltage = CDouble.zero ∧
      report.data.temperatureC = CDouble.zero ∧
      report.data.loadPercentage = 0 ∧
      report.data.BatteryFault = false := by
  unfold onDriverInitFailure emitUpsReport
  cases hact : m.m_currentStatus.dataCommunicationActive <;>
    cases htim : m.m_recoveryTimer.active <;>
    simp [hact, htim, UpsData.default, CDouble.ofNat, CDouble.zero] <;>
    exact ⟨_, _, ⟨rfl, rfl⟩, by simp⟩

/-- C8 (the code at the failing input). In the manager state `streamingManager`
(reached by loading the driver, processing its handshake and then a sample of
a valid type D frame, so data-active is true), handling the initialization
failure records the error text and publishes a report whose data block is the
safe default but whose data-active flag is still true. -/
theorem C8_failure_report_still_active :
    DriverOut.dataReceived (convertRawToUpsData sampleNow
        (readData sampleNow streamingDriver sampleDFrame).drv)
      ∈ (readData sampleNow streamingDriver sampleDFrame).out ∧
    (convertRawToUpsData sampleNow
        (readData sampleNow streamingDriver sampleDFrame).drv).state = UpsState.OnlineFull ∧
    streamingManager.m_currentStatus.dataCommunicationActive = true ∧
    (onDriverInitFailure sampleNow streamingManager sampleError).1.m_currentStatus.lastErrorMessage
      = sampleError ∧
    ∃ report rest,
      (onDriverInitFailure sampleNow streamingManager sampleError).2
        = ApiOut.upsReportAvailable report :: rest ∧
      report.serviceStatus.lastErrorMessage = sampleError ∧
      report.serviceStatus.dataCommunicationActive = true ∧
      report.data.state = UpsState.Unknown ∧
      report.data.inputVoltage = CDouble.zero ∧
      report.data.batteryLevel = CDouble.zero := by
  refine ⟨by decide, by decide, by decide, by decide, _, _, rfl, by decide, by decide, by decide,
    by decide, by decide⟩

/-- C9 (the code at the failing input). The driver `awaitingDriver` receives the
valid type S frame `sampleSFrame`: it emits `initializationSuccess` followed by
`dataReceived(silentData)`.  After the manager processed both, driver-initialized
is true and the last error is empty, but data-active is true although no type D
frame was received. -/
theorem C9_handshake_activates_data :
    handshakeOutput =
      [DriverOut.qDebug .typeSParsed, DriverOut.qDebug .handshakeComplete,
        DriverOut.initializationSuccess, DriverOut.dataReceived silentData] ∧
    loadedManager.m_currentStatus.dataCommunicationActive = false ∧
    (deliverAll sampleNow loadedManager handshakeOutput).1.m_currentStatus.driverInitialized = true ∧
    (deliverAll sampleNow loadedManager handshakeOutput).1.m_currentStatus.lastErrorMessage.isEmpty
      = true ∧
    (deliverAll sampleNow loadedManager handshakeOutput).1.m_currentStatus.dataCommunicationActive
      = true := by
  refine ⟨by decide, by decide, by decide, by decide, by decide⟩

theorem cleanupDriver_logs (now : QDateTime) (m : Ups_api_library) :
    ApiOut.qDebug .startingSafeCleanup ∈ (cleanupDriver now m).2 := by
  unfold cleanupDriver
  simp

/-- Every run of `loadAndStartDriver` starts with the teardown `cleanupDriver`. -/
theorem loadAndStartDriver_cleans (env : ApiEnv) (m : Ups_api_library) :
    ApiOut.qDebug .startingSafeCleanup ∈ (loadAndStartDriver env m).2.2 := by
  have h := cleanupDriver_logs env.now m
  unfold loadAndStartDriver
  simp only
  split_ifs
  · exact List.mem_append_left _ h
  · split <;> exact List.mem_append_left _ h

theorem QString_equals_iff (a b : QString) : a.equals b = true ↔ a.units = b.units := by
  simp [QString.equals]

/-- C10. On a configuration-change notification `onRegistryChanged` runs the
teardown / reload cycle `loadAndStartDriver` if and only if the driver name or
the port read from the store differs from the currently active driver name or
port.  When both are unchanged the manager state is left unchanged and nothing
but a debug line is emitted: no teardown, no report. -/
theorem C10_reload_iff_changed (env : ApiEnv) (m : Ups_api_library) :
    (ApiOut.qDebug .startingSafeCleanup ∈ (onRegistryChanged env m).2 ↔ hardwareChanged env m) ∧
    (hardwareChanged env m →
      (onRegistryChanged env m).1 = (loadAndStartDriver env m).2.1 ∧
      (onRegistryChanged env m).2
        = ApiOut.qDebug .hardwareSettingsChanged :: (loadAndStartDriver env m).2.2) ∧
    (¬ hardwareChanged env m →
      (onRegistryChanged env m).1 = m ∧
      (onRegistryChanged env m).2 = [ApiOut.qDebug .onlyLogicalSettingsChanged]) := by
  have hcl := loadAndStartDriver_cleans env m
  unfold hardwareChanged
  unfold onRegistryChanged
  simp only [Bool.not_eq_true, ← Bool.not_eq_true, QString_equals_iff]
  by_cases hc :
      (env.settings.valueString AppConstants.REG_KEY_SELECTED_DRIVER_FILE).units
        ≠ m.m_currentStatus.activeDriverName.units ∨
      (env.settings.valueString AppConstants.REG_KEY_SELECTED_COM_PORT).units
        ≠ m.m_currentStatus.activeComPort.units
  · rw [if_pos hc]
    simp [hc, hcl]
  · rw [if_neg hc]
    simp [hc]

theorem C10_reload_iff_changed_witness :
    (hardwareChanged changedEnv streamingManager ∧
      (onRegistryChanged changedEnv streamingManager).1
        = (loadAndStartDriver changedEnv streamingManager).2.1 ∧
      (onRegistryChanged changedEnv streamingManager).2
        = ApiOut.qDebug .hardwareSettingsChanged
            :: (loadAndStartDriver changedEnv streamingManager).2.2) ∧
    (¬ hardwareChanged sampleEnv streamingManager ∧
      (onRegistryChanged sampleEnv streamingManager).1 = streamingManager ∧
      (onRegistryChanged sampleEnv streamingManager).2
        = [ApiOut.qDebug .onlyLogicalSettingsChanged]) :=
  ⟨⟨by unfold hardwareChanged; decide,
      (C10_reload_iff_changed changedEnv streamingManager).2.1 (by unfold hardwareChanged; decide)⟩,
    ⟨by unfold hardwareChanged; decide,
      (C10_reload_iff_changed sampleEnv streamingManager).2.2 (by unfold hardwareChanged; decide)⟩⟩

/-! ## C6: the report round trip -/

theorem beBytes_length (k v : Nat) : (beBytes k v).length = k := by
  induction k with
  | zero => rfl
  | succ n ih => simp [beBytes, ih]

theorem foldl_beBytes (k v acc : Nat) :
    (beBytes k v).foldl (fun a b => a * 256 + b) acc = acc * 256 ^ k + v % 256 ^ k := by
  induction k generalizing acc with
  | zero => simp [beBytes, Nat.mod_one]
  | succ n ih =>
    simp only [beBytes, List.foldl_cons, ih]
    rw [Nat.mod_pow_succ]
    ring

theorem beValue_beBytes (k v : Nat) : beValue (beBytes k v) = v % 256 ^ k := by
  unfold beValue
  rw [foldl_beBytes]
  simp

theorem readBlock_append (bs rest : List Nat) (status : StreamStatus) (n : Nat)
    (h : bs.length = n) :
    readBlock n ⟨bs ++ rest, status⟩ = (some bs, ⟨rest, status⟩) := by
  unfold readBlock
  subst h
  simp

theorem readUnsigned_put (k v : Nat) (rest : List Nat) (status : StreamStatus) :
    readUnsigned k ⟨beBytes k v ++ rest, status⟩ = (v % 256 ^ k, ⟨rest, status⟩) := by
  unfold readUnsigned
  rw [readBlock_append _ _ _ _ (beBytes_length k v)]
  simp [beValue_beBytes]

theorem readUInt32_put (v : Nat) (rest : List Nat) (status : StreamStatus) (h : v < 2 ^ 32) :
    readUInt32 ⟨putUInt32 v ++ rest, status⟩ = (v, ⟨rest, status⟩) := by
  unfold readUInt32 putUInt32
  rw [readUnsigned_put]
  have : v % 256 ^ 4 = v := Nat.mod_eq_of_lt (by norm_num at h ⊢; exact h)
  rw [this]

theorem toSigned_toUnsigned_32 (i : Int) (h1 : -(2 ^ 31) ≤ i) (h2 : i < 2 ^ 31) :
    toSigned 32 (toUnsigned 32 i % 256 ^ 4) = i := by
  unfold toSigned toUnsigned
  have e1 : (2 : Int) ^ 32 = 4294967296 := by norm_num
  have e2 : (256 : Nat) ^ 4 = 4294967296 := by norm_num
  have e3 : (2 : Nat) ^ (32 - 1) = 2147483648 := by norm_num
  rw [e1, e2, e3]
  norm_num at h1 h2
  split_ifs <;> omega

theorem toSigned_toUnsigned_64 (i : Int) (h1 : -(2 ^ 63) ≤ i) (h2 : i < 2 ^ 63) :
    toSigned 64 (toUnsigned 64 i % 256 ^ 8) = i := by
  unfold toSigned toUnsigned
  have e1 : (2 : Int) ^ 64 = 18446744073709551616 := by norm_num
  have e2 : (256 : Nat) ^ 8 = 18446744073709551616 := by norm_num
  have e3 : (2 : Nat) ^ (64 - 1) = 9223372036854775808 := by norm_num
  rw [e1, e2, e3]
  norm_num at h1 h2
  split_ifs <;> omega

theorem toSigned_toUnsigned_8 (i : Int) (h1 : -(2 ^ 7) ≤ i) (h2 : i < 2 ^ 7) :
    toSigned 8 (toUnsigned 8 i % 256 ^ 1) = i := by
  unfold toSigned toUnsigned
  have e1 : (2 : Int) ^ 8 = 256 := by norm_num
  have e2 : (256 : Nat) ^ 1 = 256 := by norm_num
  have e3 : (2 : Nat) ^ (8 - 1) = 128 := by norm_num
  rw [e1, e2, e3]
  norm_num at h1 h2
  split_ifs <;> omega

theorem readInt32_put (i : Int) (rest : List Nat) (status : StreamStatus)
    (h1 : -(2 ^ 31) ≤ i) (h2 : i < 2 ^ 31) :
    readInt32 ⟨putInt32 i ++ rest, status⟩ = (i, ⟨rest, status⟩) := by
  unfold readInt32 putInt32
  rw [readUnsigned_put]
  simp only [toSigned_toUnsigned_32 i h1 h2]

theorem readInt64_put (i : Int) (rest : List Nat) (status : StreamStatus)
    (h1 : -(2 ^ 63) ≤ i) (h2 : i < 2 ^ 63) :
    readInt64 ⟨putInt64 i ++ rest, status⟩ = (i, ⟨rest, status⟩) := by
  unfold readInt64 putInt64
  rw [readUnsigned_put]
  simp only [toSigned_toUnsigned_64 i h1 h2]

theorem readInt8_put (i : Int) (rest : List Nat) (status : StreamStatus)
    (h1 : -(2 ^ 7) ≤ i) (h2 : i < 2 ^ 7) :
    readInt8 ⟨putInt8 i ++ rest, status⟩ = (i, ⟨rest, status⟩) := by
  unfold readInt8 putInt8
  rw [readUnsigned_put]
  simp only [toSigned_toUnsigned_8 i h1 h2]

theorem readBool_put (b : Bool) (rest : List Nat) (status : StreamStatus) :
    readBool ⟨putBool b ++ rest, status⟩ = (b, ⟨rest, status⟩) := by
  unfold readBool putBool
  cases b
  · rw [readInt8_put _ _ _ (by norm_num) (by norm_num)]; simp
  · rw [readInt8_put _ _ _ (by norm_num) (by norm_num)]; simp

theorem readDouble_put (d : CDouble) (rest : List Nat) (status : StreamStatus) (h : d.WF) :
    readDouble ⟨putDouble d ++ rest, status⟩ = (d, ⟨rest, status⟩) := by
  unfold readDouble putDouble
  rw [readUnsigned_put]
  unfold CDouble.WF at h
  have : d.bits % 256 ^ 8 = d.bits := Nat.mod_eq_of_lt (by norm_num at h ⊢; exact h)
  rw [this]

theorem unitsToBytes_length (u : List Nat) : (unitsToBytes u).length = 2 * u.length := by
  induction u with
  | nil => rfl
  | cons x rest ih => simp [unitsToBytes, ih]; omega

theorem bytesToUnits_unitsToBytes (u : List Nat) (h : ∀ x ∈ u, x < 65536) :
    bytesToUnits (unitsToBytes u) = u := by
  induction u with
  | nil => rfl
  | cons x rest ih =>
    have hx : x < 65536 := h x (List.mem_cons_self _ _)
    have hrest : ∀ y ∈ rest, y < 65536 := fun y hy => h y (List.mem_cons_of_mem _ hy)
    simp only [unitsToBytes, bytesToUnits, ih hrest]
    congr 1
    omega

theorem readQString_put (q : QString) (rest : List Nat) (status : StreamStatus) (h : q.WF) :
    readQString ⟨putQString q ++ rest, status⟩ = (q, ⟨rest, status⟩) := by
  cases q with
  | null =>
    unfold readQString putQString
    rw [readUInt32_put _ _ _ (by norm_num)]
    simp
  | str u =>
    obtain ⟨hu, hlen⟩ := h
    unfold readQString putQString
    rw [List.append_assoc, readUInt32_put _ _ _ (by norm_num at hlen ⊢; omega)]
    simp only
    rw [if_neg (by omega)]
    by_cases h0 : 2 * u.length > 0
    · rw [if_pos h0, if_neg (by omega),
        readBlock_append _ _ _ _ (unitsToBytes_length u)]
      simp [bytesToUnits_unitsToBytes u hu]
    · rw [if_neg h0]
      have : u = [] := by
        cases u with
        | nil => rfl
        | cons x r => simp at h0
      subst this
      simp [unitsToBytes]

theorem toUnsigned_32_lt (i : Int) : toUnsigned 32 i < 2 ^ 32 := by
  unfold toUnsigned
  have e1 : (2 : Int) ^ 32 = 4294967296 := by norm_num
  have e2 : (2 : Nat) ^ 32 = 4294967296 := by norm_num
  rw [e1, e2]
  omega

theorem toSigned_toUnsigned_32_raw (i : Int) (h1 : -(2 ^ 31) ≤ i) (h2 : i < 2 ^ 31) :
    toSigned 32 (toUnsigned 32 i) = i := by
  have h := toSigned_toUnsigned_32 i h1 h2
  have hlt := toUnsigned_32_lt i
  have e : toUnsigned 32 i % 256 ^ 4 = toUnsigned 32 i :=
    Nat.mod_eq_of_lt (by norm_num at hlt ⊢; exact hlt)
  rw [e] at h
  exact h

theorem readQDateTime_put (t : QDateTime) (rest : List Nat) (status : StreamStatus) (h : t.WF) :
    readQDateTime ⟨putQDateTime t ++ rest, status⟩ = (t, ⟨rest, status⟩) := by
  obtain ⟨jd, mds, spec, off⟩ := t
  obtain ⟨j1, j2, m1, m2, hs, o1, o2, hoff⟩ := h
  simp only at j1 j2 m1 m2 hs o1 o2 hoff
  unfold readQDateTime putQDateTime
  simp only [List.append_assoc]
  rw [readInt64_put _ _ _ j1 j2]
  simp only
  rw [readUInt32_put _ _ _ (toUnsigned_32_lt mds)]
  simp only
  rw [readInt8_put _ _ _ (by omega) (by norm_num; omega), toSigned_toUnsigned_32_raw mds m1 m2]
  simp only
  have hcases : spec = 0 ∨ spec = 1 ∨ spec = 2 := by omega
  rcases hcases with rfl | rfl | rfl
  · have := hoff (by decide)
    subst this
    simp
  · have := hoff (by decide)
    subst this
    simp
  · simp [readInt32_put _ _ _ o1 o2]

/-- Reading back what `operator<<` wrote gives the report and leaves the rest
of the device, with the stream status untouched. -/
theorem operatorIn_operatorOut (r : UpsReport) (rest : List Nat) (status : StreamStatus)
    (h : r.WF) :
    operatorIn ⟨operatorOut r ++ rest, status⟩ = (r, ⟨rest, status⟩) := by
  obtain ⟨⟨d1, d2, d3, d4, d5, d6, d7, d8, d9, d10, d11⟩, ⟨s1, s2, s3, s4⟩⟩ := h
  unfold operatorIn operatorOut
  simp only [List.append_assoc]
  simp only [readQDateTime_put _ _ _ d1, readInt32_put _ _ _ d2 d3, readDouble_put _ _ _ d4,
    readDouble_put _ _ _ d5, readDouble_put _ _ _ d6, readDouble_put _ _ _ d7,
    readDouble_put _ _ _ d8, readInt32_put _ _ _ d9 d10, readBool_put,
    readQString_put _ _ _ d11, readQDateTime_put _ _ _ s1, readQString_put _ _ _ s2,
    readQString_put _ _ _ s3, readQString_put _ _ _ s4]

theorem putUInt32_length (v : Nat) : (putUInt32 v).length = 4 := beBytes_length 4 v

/-- The packet of `sendReportToClients` is the length prefix followed by the
serialised report. -/
theorem reportPacket_eq (r : UpsReport) :
    reportPacket r = putUInt32 (operatorOut r).length ++ operatorOut r := by
  unfold reportPacket
  simp only [List.length_append, putUInt32_length]
  rw [List.drop_left' (putUInt32_length 0)]
  simp

theorem putUInt32_mod (v : Nat) : putUInt32 v = putUInt32 (v % 2 ^ 32) := by
  have h : ∀ k, k ≤ 4 → beBytes k v = beBytes k (v % 2 ^ 32) := by
    intro k hk
    induction k with
    | zero => rfl
    | succ n ih =>
      simp only [beBytes, ih (by omega)]
      congr 1
      have hn : n ≤ 3 := by omega
      interval_cases n <;> omega
  exact h 4 (le_refl 4)

theorem socketReadLoop_empty (fuel : Nat) (status : StreamStatus) :
    socketReadLoop fuel ⟨0, []⟩ status = (⟨0, []⟩, []) := by
  cases fuel <;> simp [socketReadLoop]

/-- One pass of the client loop over a device that holds exactly one frame. -/
theorem socketReadLoop_one (fuel : Nat) (pkt payload : List Nat) (w : Nat) (r : UpsReport)
    (hge : ¬ pkt.length < 4)
    (hread : readUInt32 ⟨pkt, .Ok⟩ = (w, ⟨payload, .Ok⟩))
    (hle : ¬ payload.length < w % 4294967296)
    (hrt : operatorIn ⟨payload, .Ok⟩ = (r, ⟨[], .Ok⟩)) :
    socketReadLoop (fuel + 1) ⟨0, pkt⟩ .Ok = (⟨0, []⟩, [TrayOut.handleUpsReport r]) := by
  rw [socketReadLoop]
  rw [if_pos rfl]
  rw [if_neg hge, hread]
  dsimp only
  rw [if_neg hle, hrt]
  dsimp only
  rw [if_pos rfl, socketReadLoop_empty]

/-- The client reading one whole packet. -/
theorem socketReadyRead_packet (r : UpsReport)
    (hrt : operatorIn ⟨operatorOut r, .Ok⟩ = (r, ⟨[], .Ok⟩)) :
    socketReadyRead ⟨0, reportPacket r⟩ = (⟨0, []⟩, [TrayOut.handleUpsReport r]) := by
  have hlen : (reportPacket r).length = (operatorOut r).length + 4 := by
    rw [reportPacket_eq, List.length_append, putUInt32_length]; omega
  have hge : ¬ (reportPacket r).length < 4 := by omega
  have hread : readUInt32 ⟨reportPacket r, .Ok⟩
      = ((operatorOut r).length % 4294967296, ⟨operatorOut r, .Ok⟩) := by
    rw [reportPacket_eq, putUInt32_mod,
      readUInt32_put _ _ _ (Nat.mod_lt _ (by norm_num))]
    norm_num
  have hle : ¬ (operatorOut r).length < (operatorOut r).length % 4294967296 % 4294967296 := by
    omega
  unfold socketReadyRead
  exact socketReadLoop_one _ _ _ _ r hge hread hle hrt

/-- C6. Round trip: for every report whose fields are in the range of their C++
types, reading with `operator>>` what `operator<<` wrote gives back the same
report (data block and service-status block) with the stream status Ok and
nothing left over; a connected subscriber is sent the packet
`reportPacket`, and `socketReadyRead` on that packet handles exactly that
report and leaves the cursor at 0. -/
theorem C6_report_round_trip (r : UpsReport) (h : r.WF) :
    operatorIn ⟨operatorOut r, .Ok⟩ = (r, ⟨[], .Ok⟩) ∧
    sendReportToClients [⟨true, []⟩] r = [⟨true, reportPacket r⟩] ∧
    socketReadyRead ⟨0, reportPacket r⟩ = (⟨0, []⟩, [TrayOut.handleUpsReport r]) := by
  have hrt := operatorIn_operatorOut r [] .Ok h
  rw [List.append_nil] at hrt
  exact ⟨hrt, by simp [sendReportToClients], socketReadyRead_packet r hrt⟩

theorem C6_report_round_trip_witness :
    sampleReport.WF ∧
    operatorIn ⟨operatorOut sampleReport, .Ok⟩ = (sampleReport, ⟨[], .Ok⟩) ∧
    sendReportToClients [⟨true, []⟩] sampleReport = [⟨true, reportPacket sampleReport⟩] ∧
    socketReadyRead ⟨0, reportPacket sampleReport⟩
      = (⟨0, []⟩, [TrayOut.handleUpsReport sampleReport]) :=
  ⟨by
      simp only [UpsReport.WF, UpsData.WF, UpsServiceStatus.WF, QDateTime.WF, CDouble.WF]
      decide,
    C6_report_round_trip sampleReport (by
      simp only [UpsReport.WF, UpsData.WF, UpsServiceStatus.WF, QDateTime.WF, CDouble.WF]
      decide)⟩

/-! ## C7: five handshake expiries -/

theorem sameControl_refl (s : Nhs_driver) : sameControl s s := ⟨rfl, rfl, rfl, rfl, rfl⟩

theorem sameControl_trans {a b c : Nhs_driver} (h1 : sameControl a b) (h2 : sameControl b c) :
    sameControl a c :=
  ⟨h1.1.trans h2.1, h1.2.1.trans h2.2.1, h1.2.2.1.trans h2.2.2.1, h1.2.2.2.1.trans h2.2.2.2.1,
    h1.2.2.2.2.trans h2.2.2.2.2⟩

theorem quietOut_nil : quietOut [] := by
  intro o ho; simp at ho

theorem quietOut_append {a b : List DriverOut} (ha : quietOut a) (hb : quietOut b) :
    quietOut (a ++ b) := by
  intro o ho
  rcases List.mem_append.mp ho with h | h
  · exact ha o h
  · exact hb o h

/-- While the handshake is incomplete, a `parse_packet_ring` call that does not
decode a type S frame leaves the handshake members alone and emits neither a
failure nor a write. -/
theorem parse_packet_ring_quiet (now : QDateTime) (s : Nhs_driver) (t : Int) (L : Nat)
    (hc : s.m_handshakeComplete = false)
    (hno : DriverOut.qDebug .typeSParsed ∉ (parse_packet_ring now s t L).2.2) :
    sameControl (parse_packet_ring now s t L).2.1 s ∧ quietOut (parse_packet_ring now s t L).2.2 := by
  unfold sameControl quietOut
  unfold parse_packet_ring at hno ⊢
  by_cases hD : linearPacket s t L 2 = 0x44 ∧ L = PACKET_LEN_D
  · rw [if_pos hD]
    refine ⟨by simp [hc], ?_⟩
    intro o ho
    simp only [hc, Bool.false_eq_true, if_false, false_and, List.append_nil, List.mem_append,
      List.mem_singleton] at ho
    rcases ho with rfl | ho
    · exact ⟨rfl, rfl⟩
    · split_ifs at ho
      · simp only [List.mem_singleton] at ho
        subst ho
        exact ⟨rfl, rfl⟩
      · simp at ho
  · by_cases hS : linearPacket s t L 2 = 0x53 ∧ L = PACKET_LEN_S
    · rw [if_neg hD, if_pos hS] at hno
      simp at hno
    · rw [if_neg hD, if_neg hS]
      exact ⟨⟨rfl, rfl, rfl, rfl, rfl⟩, fun o ho => by simp at ho⟩

theorem drainStep_quiet (now : QDateTime) (s : Nhs_driver) (it : DrainIter)
    (hc : s.m_handshakeComplete = false)
    (h : drainStep now s = some it)
    (hno : DriverOut.qDebug .typeSParsed ∉ it.out) :
    sameControl it.drv s ∧ quietOut it.out := by
  unfold drainStep at h
  simp only [PACKET_LEN_D, PACKET_LEN_S] at h
  split_ifs at h <;> cases h
  all_goals first
    | exact ⟨⟨rfl, rfl, rfl, rfl, rfl⟩, quietOut_nil⟩
    | (obtain ⟨q1, q2⟩ := parse_packet_ring_quiet now s s.m_tail _ hc hno
       exact ⟨⟨q1.1, q1.2.1, q1.2.2.1, q1.2.2.2.1, q1.2.2.2.2⟩, q2⟩)
    | (refine ⟨⟨rfl, rfl, rfl, rfl, rfl⟩, ?_⟩
       intro o ho
       simp only [List.mem_singleton] at ho
       subst ho
       exact ⟨rfl, rfl⟩)

theorem drainLoop_quiet (now : QDateTime) (fuel : Nat) (s : Nhs_driver)
    (hc : s.m_handshakeComplete = false)
    (hno : DriverOut.qDebug .typeSParsed ∉ (drainLoop now fuel s).out) :
    sameControl (drainLoop now fuel s).drv s ∧ quietOut (drainLoop now fuel s).out := by
  induction fuel generalizing s with
  | zero => exact ⟨sameControl_refl s, quietOut_nil⟩
  | succ n ih =>
    unfold drainLoop at hno ⊢
    cases hstep : drainStep now s with
    | none => simp only [hstep]; exact ⟨sameControl_refl s, quietOut_nil⟩
    | some it =>
      simp only [hstep] at hno ⊢
      have hno1 : DriverOut.qDebug .typeSParsed ∉ it.out :=
        fun hm => hno (List.mem_append_left _ hm)
      have hno2 : DriverOut.qDebug .typeSParsed ∉ (drainLoop now n it.drv).out :=
        fun hm => hno (List.mem_append_right _ hm)
      obtain ⟨c1, q1⟩ := drainStep_quiet now s it hc hstep hno1
      obtain ⟨c2, q2⟩ := ih it.drv (c1.1.trans hc) hno2
      exact ⟨sameControl_trans c2 c1, quietOut_append q1 q2⟩

theorem ingest_control (s : Nhs_driver) (bs : List Nat) : sameControl (ingest s bs) s := by
  induction bs generalizing s with
  | nil => exact sameControl_refl s
  | cons c rest ih =>
    unfold ingest
    exact sameControl_trans (ih _) ⟨rfl, rfl, rfl, rfl, rfl⟩

/-- While the handshake is incomplete, a `readData` call that decodes no type S
frame leaves the handshake members alone and emits neither a failure nor a
write. -/
theorem readData_quiet (now : QDateTime) (s : Nhs_driver) (newData : List Nat)
    (hc : s.m_handshakeComplete = false)
    (hno : DriverOut.qDebug .typeSParsed ∉ (readData now s newData).out) :
    sameControl (readData now s newData).drv s ∧ quietOut (readData now s newData).out := by
  unfold readData at hno ⊢
  have hi := ingest_control s newData
  obtain ⟨c, q⟩ := drainLoop_quiet now BUFFER_SIZE (ingest s newData) (hi.1.trans hc) hno
  exact ⟨sameControl_trans c hi, q⟩

theorem driverRun_append (s : Nhs_driver) (a b : List DriverEvent) :
    driverRun s (a ++ b) =
      ((driverRun (driverRun s a).1 b).1, (driverRun s a).2 ++ (driverRun (driverRun s a).1 b).2) := by
  induction a generalizing s with
  | nil => simp [driverRun]
  | cons e rest ih =>
    show driverRun s (e :: (rest ++ b)) = _
    simp only [driverRun, ih, List.append_assoc]

theorem driverRun_reads_quiet (s : Nhs_driver) (chunks : List (QDateTime × List Nat))
    (hc : s.m_handshakeComplete = false)
    (hno : DriverOut.qDebug .typeSParsed ∉ (driverRun s (readEvents chunks)).2) :
    sameControl (driverRun s (readEvents chunks)).1 s ∧
    quietOut (driverRun s (readEvents chunks)).2 := by
  induction chunks generalizing s with
  | nil => exact ⟨sameControl_refl s, quietOut_nil⟩
  | cons c rest ih =>
    simp only [readEvents, List.map_cons, driverRun, driverStep] at hno ⊢
    have hno1 : DriverOut.qDebug .typeSParsed ∉ (readData c.1 s c.2).out :=
      fun hm => hno (List.mem_append_left _ hm)
    obtain ⟨c1, q1⟩ := readData_quiet c.1 s c.2 hc hno1
    have hno2 : DriverOut.qDebug .typeSParsed ∉
        (driverRun (readData c.1 s c.2).drv (readEvents rest)).2 :=
      fun hm => hno (List.mem_append_right _ hm)
    obtain ⟨c2, q2⟩ := ih (readData c.1 s c.2).drv (c1.1.trans hc) hno2
    exact ⟨sameControl_trans c2 c1, quietOut_append q1 q2⟩

theorem quietOut_count (out : List DriverOut) (h : quietOut out) :
    out.countP isInitializationFailure = 0 ∧ out.countP isSerialWrite = 0 := by
  constructor
  · rw [List.countP_eq_zero]
    intro o ho
    simp [(h o ho).1]
  · rw [List.countP_eq_zero]
    intro o ho
    simp [(h o ho).2]

theorem Awaiting_of_sameControl {k : Nat} {a b : Nhs_driver} (h : sameControl a b)
    (hb : Awaiting k b) : Awaiting k a := by
  obtain ⟨h1, h2, h3, h4, _⟩ := h
  obtain ⟨b1, b2, b3, b4⟩ := hb
  refine ⟨?_, h1.trans b2, h2.trans b3, h3.trans b4⟩
  unfold portIsOpen at b1 ⊢
  rw [h4]
  exact b1

/-- An expiry of the handshake timer before the retry bound: the initiator
command is sent again and the timer restarted. -/
theorem onMonitorTimeout_resend (s : Nhs_driver) (res : OpenResult) (k : Nat)
    (hA : Awaiting k s) (hk : k < 5) :
    Awaiting (k + 1) (onMonitorTimeout s res).1 ∧
    (onMonitorTimeout s res).2.countP isInitializationFailure = 0 ∧
    (onMonitorTimeout s res).2.countP isSerialWrite = 1 := by
  obtain ⟨b1, b2, b3, b4⟩ := hA
  have hlt : ¬ s.m_retryCount ≥ MAX_RETRIES := by simp [MAX_RETRIES, b3]; omega
  unfold onMonitorTimeout sendInitiatorCommand
  simp only [b1, b2, not_true_eq_false, if_false, Bool.false_eq_true, not_false_eq_true, if_true]
  rw [if_neg hlt]
  refine ⟨⟨?_, rfl, by simp [b3], by simp [b4, timerStart]⟩, rfl, rfl⟩
  unfold portIsOpen at b1 ⊢
  exact b1

/-- The expiry of the handshake timer at the retry bound: the timer is stopped
and the failure signalled. -/
theorem onMonitorTimeout_fail (s : Nhs_driver) (res : OpenResult)
    (hA : Awaiting 5 s) :
    (onMonitorTimeout s res).1.m_monitorTimer = some ⟨false, HANDSHAKE_TIMEOUT⟩ ∧
    (onMonitorTimeout s res).2.countP isInitializationFailure = 1 ∧
    (onMonitorTimeout s res).2.countP isSerialWrite = 0 := by
  obtain ⟨b1, b2, b3, b4⟩ := hA
  have hge : s.m_retryCount ≥ MAX_RETRIES := by simp [MAX_RETRIES, b3]
  unfold onMonitorTimeout sendInitiatorCommand
  simp only [b1, b2, not_true_eq_false, if_false, Bool.false_eq_true, not_false_eq_true, if_true]
  rw [if_pos hge]
  exact ⟨by simp [b4, timerStop], rfl, rfl⟩

theorem not_mem_append_left {o : DriverOut} {a b : List DriverOut} (h : o ∉ a ++ b) : o ∉ a :=
  fun hm => h (List.mem_append_left _ hm)

theorem not_mem_append_right {o : DriverOut} {a b : List DriverOut} (h : o ∉ a ++ b) : o ∉ b :=
  fun hm => h (List.mem_append_right _ hm)

/-- One phase before the retry bound: the data that arrived, then the expiry. -/
theorem phase_resend (s : Nhs_driver) (k : Nat) (phase : List (QDateTime × List Nat) × OpenResult)
    (hA : Awaiting k s) (hk : k < 5)
    (hno : DriverOut.qDebug .typeSParsed ∉
      (driverRun s (readEvents phase.1 ++ [DriverEvent.monitorTimeout phase.2])).2) :
    Awaiting (k + 1) (driverRun s (readEvents phase.1 ++ [DriverEvent.monitorTimeout phase.2])).1 ∧
    (driverRun s (readEvents phase.1 ++ [DriverEvent.monitorTimeout phase.2])).2.countP
      isInitializationFailure = 0 ∧
    (driverRun s (readEvents phase.1 ++ [DriverEvent.monitorTimeout phase.2])).2.countP
      isSerialWrite = 1 := by
  rw [driverRun_append] at hno ⊢
  simp only at hno ⊢
  obtain ⟨c1, q1⟩ := driverRun_reads_quiet s phase.1 hA.2.1 (not_mem_append_left hno)
  have hA1 := Awaiting_of_sameControl c1 hA
  obtain ⟨r1, r2, r3⟩ :=
    onMonitorTimeout_resend (driverRun s (readEvents phase.1)).1 phase.2 k hA1 hk
  obtain ⟨n1, n2⟩ := quietOut_count _ q1
  simp only [driverRun, driverStep, List.append_nil, List.countP_append]
  exact ⟨r1, by omega, by omega⟩

/-- The phase at the retry bound. -/
theorem phase_fail (s : Nhs_driver) (phase : List (QDateTime × List Nat) × OpenResult)
    (hA : Awaiting 5 s)
    (hno : DriverOut.qDebug .typeSParsed ∉
      (driverRun s (readEvents phase.1 ++ [DriverEvent.monitorTimeout phase.2])).2) :
    (driverRun s (readEvents phase.1 ++ [DriverEvent.monitorTimeout phase.2])).1.m_monitorTimer
      = some ⟨false, HANDSHAKE_TIMEOUT⟩ ∧
    (driverRun s (readEvents phase.1 ++ [DriverEvent.monitorTimeout phase.2])).2.countP
      isInitializationFailure = 1 ∧
    (driverRun s (readEvents phase.1 ++ [DriverEvent.monitorTimeout phase.2])).2.countP
      isSerialWrite = 0 := by
  rw [driverRun_append] at hno ⊢
  simp only at hno ⊢
  obtain ⟨c1, q1⟩ := driverRun_reads_quiet s phase.1 hA.2.1 (not_mem_append_left hno)
  have hA1 := Awaiting_of_sameControl c1 hA
  obtain ⟨r1, r2, r3⟩ := onMonitorTimeout_fail (driverRun s (readEvents phase.1)).1 phase.2 hA1
  obtain ⟨n1, n2⟩ := quietOut_count _ q1
  simp only [driverRun, driverStep, List.append_nil, List.countP_append]
  exact ⟨r1, by omega, by omega⟩

/-- Any number of phases that stays within the retry bound. -/
theorem expiries_resend (phases : List (List (QDateTime × List Nat) × OpenResult))
    (s : Nhs_driver) (k : Nat) (hA : Awaiting k s) (hk : k + phases.length ≤ 5)
    (hno : DriverOut.qDebug .typeSParsed ∉ (driverRun s (expiries phases)).2) :
    Awaiting (k + phases.length) (driverRun s (expiries phases)).1 ∧
    (driverRun s (expiries phases)).2.countP isInitializationFailure = 0 ∧
    (driverRun s (expiries phases)).2.countP isSerialWrite = phases.length := by
  induction phases generalizing s k with
  | nil => exact ⟨hA, rfl, rfl⟩
  | cons phase rest ih =>
    simp only [List.length_cons] at hk ⊢
    unfold expiries at hno ⊢
    rw [driverRun_append] at hno ⊢
    simp only at hno ⊢
    obtain ⟨a1, a2, a3⟩ := phase_resend s k phase hA (by omega) (not_mem_append_left hno)
    obtain ⟨b1, b2, b3⟩ := ih _ (k + 1) a1 (by omega) (not_mem_append_right hno)
    rw [List.countP_append, List.countP_append]
    refine ⟨?_, by omega, by omega⟩
    have e : k + (rest.length + 1) = k + 1 + rest.length := by omega
    rw [e]
    exact b1

theorem expiries_append (a b : List (List (QDateTime × List Nat) × OpenResult)) :
    expiries (a ++ b) = expiries a ++ expiries b := by
  induction a with
  | nil => rfl
  | cons p rest ih =>
    show expiries (p :: (rest ++ b)) = _
    simp only [expiries, ih, List.append_assoc]

theorem handshakeTrace_append (s0 : Nhs_driver) (connectionInfo : QString)
    (early : List (QDateTime × List Nat))
    (a b : List (List (QDateTime × List Nat) × OpenResult)) :
    handshakeTrace s0 connectionInfo early (a ++ b) =
      ((driverRun (handshakeTrace s0 connectionInfo early a).1 (expiries b)).1,
        (handshakeTrace s0 connectionInfo early a).2 ++
          (driverRun (handshakeTrace s0 connectionInfo early a).1 (expiries b)).2) := by
  unfold handshakeTrace
  simp only [expiries_append, ← List.append_assoc]
  rw [driverRun_append]
  simp only [List.append_assoc]

/-- After `initialize` on a port that opens, the port is open, the handshake is
incomplete, no command has been sent and the timer object exists and runs;
nothing emitted is a failure or a write. -/
theorem initializeDriver_opened (s0 : Nhs_driver) (connectionInfo : QString)
    (hclosed : portIsOpen s0 = false) :
    portIsOpen (initializeDriver s0 connectionInfo .opened).1 = true ∧
    (initializeDriver s0 connectionInfo .opened).1.m_handshakeComplete = false ∧
    (initializeDriver s0 connectionInfo .opened).1.m_retryCount = 0 ∧
    (initializeDriver s0 connectionInfo .opened).1.m_monitorTimer = some ⟨true, 3000⟩ ∧
    quietOut (initializeDriver s0 connectionInfo .opened).2 := by
  unfold portIsOpen at hclosed
  unfold initializeDriver tryOpenPort portIsOpen quietOut
  cases hp : s0.m_serialPort with
  | none =>
    cases ht : s0.m_monitorTimer <;>
      simp [timerStart, isInitializationFailure, isSerialWrite]
  | some p =>
    rw [hp] at hclosed
    simp only at hclosed
    cases ht : s0.m_monitorTimer <;>
      simp [hclosed, timerStart, isInitializationFailure, isSerialWrite]

/-- The single-shot request fires: the first initiator command goes out. -/
theorem sendInitiatorCommand_first (s : Nhs_driver) (t : QTimer)
    (h1 : portIsOpen s = true) (h2 : s.m_handshakeComplete = false) (h3 : s.m_retryCount = 0)
    (h4 : s.m_monitorTimer = some t) :
    Awaiting 1 (sendInitiatorCommand s).1 ∧
    (sendInitiatorCommand s).2.countP isInitializationFailure = 0 ∧
    (sendInitiatorCommand s).2.countP isSerialWrite = 1 := by
  have hlt : ¬ s.m_retryCount ≥ MAX_RETRIES := by simp [MAX_RETRIES, h3]
  unfold sendInitiatorCommand
  simp only [h2, Bool.false_eq_true, if_false]
  rw [if_neg hlt]
  refine ⟨⟨?_, rfl, by simp [h3], by simp [h4, timerStart]⟩, rfl, rfl⟩
  unfold portIsOpen at h1 ⊢
  exact h1

/-- The trace up to and including at most four expiries: the driver is still
waiting, no failure was signalled, and one command went out at the start and
one per expiry. -/
theorem handshakeTrace_resend (s0 : Nhs_driver) (connectionInfo : QString)
    (early : List (QDateTime × List Nat))
    (phases : List (List (QDateTime × List Nat) × OpenResult))
    (hclosed : portIsOpen s0 = false) (hlen : phases.length ≤ 4)
    (hno : DriverOut.qDebug .typeSParsed ∉ (handshakeTrace s0 connectionInfo early phases).2) :
    Awaiting (1 + phases.length) (handshakeTrace s0 connectionInfo early phases).1 ∧
    (handshakeTrace s0 connectionInfo early phases).2.countP isInitializationFailure = 0 ∧
    (handshakeTrace s0 connectionInfo early phases).2.countP isSerialWrite
      = 1 + phases.length := by
  obtain ⟨i1, i2, i3, i4, i5⟩ := initializeDriver_opened s0 connectionInfo hclosed
  unfold handshakeTrace at hno ⊢
  simp only at hno ⊢
  rw [driverRun_append, driverRun_append] at hno ⊢
  simp only at hno ⊢
  have hnoR := not_mem_append_right hno
  have hnoEarly := not_mem_append_left (not_mem_append_left hnoR)
  have hnoShot := not_mem_append_right (not_mem_append_left hnoR)
  have hnoPh := not_mem_append_right hnoR
  obtain ⟨c1, q1⟩ := driverRun_reads_quiet _ early i2 hnoEarly
  have e1 : portIsOpen (driverRun (initializeDriver s0 connectionInfo .opened).1
      (readEvents early)).1 = true := by
    unfold portIsOpen at i1 ⊢
    rw [c1.2.2.2.1]
    exact i1
  obtain ⟨a1, a2, a3⟩ := sendInitiatorCommand_first _ ⟨true, 3000⟩ e1 (c1.1.trans i2)
    (c1.2.1.trans i3) (c1.2.2.1.trans i4)
  have hshot : driverRun (driverRun (initializeDriver s0 connectionInfo .opened).1
      (readEvents early)).1 [DriverEvent.initiatorShot]
      = ((sendInitiatorCommand (driverRun (initializeDriver s0 connectionInfo .opened).1
          (readEvents early)).1).1,
        (sendInitiatorCommand (driverRun (initializeDriver s0 connectionInfo .opened).1
          (readEvents early)).1).2) := by
    simp [driverRun, driverStep]
  rw [hshot] at hnoPh ⊢
  simp only at hnoPh ⊢
  obtain ⟨b1, b2, b3⟩ := expiries_resend phases _ 1 a1 (by omega) hnoPh
  obtain ⟨n1, n2⟩ := quietOut_count _ i5
  obtain ⟨n3, n4⟩ := quietOut_count _ q1
  simp only [List.countP_append]
  exact ⟨b1, by omega, by omega⟩

/-- C7. A driver is freshly initialised on a port that opens; serial data may
arrive at any time, but no valid type S frame is decoded; the first initiator
command is sent and then the timer expires 5 times.  Then exactly one
`initializationFailure` is emitted in total, none of it before the fifth expiry
(during the first four the handshake timer keeps running), the monitor timer is
stopped afterwards, and exactly 5 initiator commands (so no more than 5) have
been written. -/
theorem C7_five_expiries_fail_once (s0 : Nhs_driver) (connectionInfo : QString)
    (early : List (QDateTime × List Nat))
    (phases : List (List (QDateTime × List Nat) × OpenResult))
    (hclosed : portIsOpen s0 = false) (hlen : phases.length = 5)
    (hno : DriverOut.qDebug .typeSParsed ∉ (handshakeTrace s0 connectionInfo early phases).2) :
    (handshakeTrace s0 connectionInfo early phases).2.countP isInitializationFailure = 1 ∧
    (handshakeTrace s0 connectionInfo early (phases.take 4)).2.countP isInitializationFailure = 0 ∧
    (handshakeTrace s0 connectionInfo early (phases.take 4)).1.m_monitorTimer
      = some ⟨true, HANDSHAKE_TIMEOUT⟩ ∧
    (handshakeTrace s0 connectionInfo early phases).1.m_monitorTimer
      = some ⟨false, HANDSHAKE_TIMEOUT⟩ ∧
    (handshakeTrace s0 connectionInfo early phases).2.countP isSerialWrite = 5 ∧
    (handshakeTrace s0 connectionInfo early phases).2.countP isSerialWrite ≤ MAX_RETRIES := by
  rcases phases with _ | ⟨p1, _ | ⟨p2, _ | ⟨p3, _ | ⟨p4, _ | ⟨p5, _ | ⟨p6, rest⟩⟩⟩⟩⟩⟩ <;>
    simp at hlen
  have hsplit : [p1, p2, p3, p4, p5] = [p1, p2, p3, p4] ++ [p5] := rfl
  have htake : List.take 4 [p1, p2, p3, p4, p5] = [p1, p2, p3, p4] := rfl
  rw [htake]
  rw [hsplit, handshakeTrace_append] at hno ⊢
  simp only at hno ⊢
  obtain ⟨a1, a2, a3⟩ := handshakeTrace_resend s0 connectionInfo early [p1, p2, p3, p4] hclosed
    (by simp) (not_mem_append_left hno)
  have hexp : expiries [p5] = readEvents p5.1 ++ [DriverEvent.monitorTimeout p5.2] := by
    simp [expiries]
  rw [hexp] at hno ⊢
  obtain ⟨f1, f2, f3⟩ := phase_fail _ p5 a1 (not_mem_append_right hno)
  simp only [List.countP_append, List.length_cons, List.length_nil] at a3 ⊢
  refine ⟨by omega, a2, a1.2.2.2, f1, by omega, ?_⟩
  simp only [MAX_RETRIES]
  omega

theorem C7_five_expiries_fail_once_witness :
    portIsOpen newDriver = false ∧ samplePhases.length = 5 ∧
    DriverOut.qDebug .typeSParsed ∉
      (handshakeTrace newDriver (QString.lit "COM7") [] samplePhases).2 ∧
    (handshakeTrace newDriver (QString.lit "COM7") [] samplePhases).2.countP
      isInitializationFailure = 1 ∧
    (handshakeTrace newDriver (QString.lit "COM7") [] (samplePhases.take 4)).2.countP
      isInitializationFailure = 0 ∧
    (handshakeTrace newDriver (QString.lit "COM7") [] (samplePhases.take 4)).1.m_monitorTimer
      = some ⟨true, HANDSHAKE_TIMEOUT⟩ ∧
    (handshakeTrace newDriver (QString.lit "COM7") [] samplePhases).1.m_monitorTimer
      = some ⟨false, HANDSHAKE_TIMEOUT⟩ ∧
    (handshakeTrace newDriver (QString.lit "COM7") [] samplePhases).2.countP isSerialWrite = 5 ∧
    (handshakeTrace newDriver (QString.lit "COM7") [] samplePhases).2.countP isSerialWrite
      ≤ MAX_RETRIES :=
  ⟨rfl, rfl, by decide,
    C7_five_expiries_fail_once newDriver (QString.lit "COM7") [] samplePhases rfl rfl
      (by decide)⟩

/-! ## C11, C12: wire layout and framing of a report -/

/-- C11. For every report the payload written by `operator<<` is exactly the
concatenation of the field encodings in the fixed order (`fieldEncodings`),
the state is written as a 4-byte integer, and `operator>>` reads the fields in
the same order: from a stream that holds the encodings in that order (and
anything after them) it reads back every field of the report and stops where
the encodings end. -/
theorem C11_field_order (r : UpsReport) :
    operatorOut r = (fieldEncodings r).flatten ∧
    (putInt32 r.data.state.val).length = 4 ∧
    (r.WF → ∀ rest : List Nat,
      operatorIn ⟨(fieldEncodings r).flatten ++ rest, .Ok⟩ = (r, ⟨rest, .Ok⟩)) := by
  have h1 : operatorOut r = (fieldEncodings r).flatten := by
    simp [operatorOut, fieldEncodings, List.flatten]
  refine ⟨h1, beBytes_length 4 _, ?_⟩
  intro hwf rest
  rw [← h1]
  exact operatorIn_operatorOut r rest .Ok hwf

theorem C11_field_order_witness :
    sampleReport.WF ∧
    operatorIn ⟨(fieldEncodings sampleReport).flatten ++ [1, 2, 3], .Ok⟩
      = (sampleReport, ⟨[1, 2, 3], .Ok⟩) :=
  ⟨by
      simp only [UpsReport.WF, UpsData.WF, UpsServiceStatus.WF, QDateTime.WF, CDouble.WF]
      decide,
    (C11_field_order sampleReport).2.2 (by
      simp only [UpsReport.WF, UpsData.WF, UpsServiceStatus.WF, QDateTime.WF, CDouble.WF]
      decide) [1, 2, 3]⟩

theorem sendReportToClients_getElem (m_clients : List QLocalSocket) (r : UpsReport) (i : Nat) :
    (sendReportToClients m_clients r)[i]? =
      m_clients[i]?.map (fun socket =>
        if socket.connected then { socket with written := socket.written ++ reportPacket r }
        else socket) := by
  unfold sendReportToClients
  cases m_clients with
  | nil => simp
  | cons c rest =>
    simp only [List.isEmpty_cons, Bool.false_eq_true, if_false]
    rw [List.getElem?_map]

/-- C12. For every report and every list of subscribers, `sendReportToClients`
appends to each connected subscriber exactly the packet `reportPacket`
(unconnected ones get nothing).  The packet is a 4-byte prefix followed by the
serialised report; its size is the payload size plus 4; the prefix is the
payload size written as `quint32`, so its value equals the number of payload
bytes that follow (the packet size minus 4) whenever that number fits 32
bits. -/
theorem C12_prefix_is_payload_size (m_clients : List QLocalSocket) (r : UpsReport) (i : Nat) :
    (sendReportToClients m_clients r)[i]? =
      m_clients[i]?.map (fun socket =>
        if socket.connected then { socket with written := socket.written ++ reportPacket r }
        else socket) ∧
    (reportPacket r).take 4 = putUInt32 (operatorOut r).length ∧
    ((reportPacket r).take 4).length = 4 ∧
    (reportPacket r).drop 4 = operatorOut r ∧
    (reportPacket r).length = (operatorOut r).length + 4 ∧
    ((operatorOut r).length < 2 ^ 32 →
      beValue ((reportPacket r).take 4) = ((reportPacket r).drop 4).length ∧
      beValue ((reportPacket r).take 4) = (reportPacket r).length - 4) := by
  have hp := reportPacket_eq r
  have h4 := putUInt32_length (operatorOut r).length
  have htake : (reportPacket r).take 4 = putUInt32 (operatorOut r).length := by
    rw [hp, List.take_left' h4]
  have hdrop : (reportPacket r).drop 4 = operatorOut r := by
    rw [hp, List.drop_left' h4]
  have hlen : (reportPacket r).length = (operatorOut r).length + 4 := by
    rw [hp, List.length_append, h4]; omega
  refine ⟨sendReportToClients_getElem m_clients r i, htake, by rw [htake, h4], hdrop, hlen, ?_⟩
  intro hfit
  have hv : beValue ((reportPacket r).take 4) = (operatorOut r).length := by
    rw [htake]
    unfold putUInt32
    rw [beValue_beBytes]
    exact Nat.mod_eq_of_lt (by norm_num at hfit ⊢; exact hfit)
  rw [hv, hdrop, hlen]
  exact ⟨rfl, by omega⟩

theorem C12_prefix_is_payload_size_witness :
    (operatorOut sampleReport).length < 2 ^ 32 ∧
    beValue ((reportPacket sampleReport).take 4) = ((reportPacket sampleReport).drop 4).length ∧
    beValue ((reportPacket sampleReport).take 4) = (reportPacket sampleReport).length - 4 :=
  ⟨by
      have h : (operatorOut sampleReport).length = 222 := by rfl
      rw [h]; norm_num,
    (C12_prefix_is_payload_size [⟨true, []⟩] sampleReport 0).2.2.2.2.2 (by
      have h : (operatorOut sampleReport).length = 222 := by rfl
      rw [h]; norm_num)⟩

/-! ## C13: `processCommand` -/

theorem find_none_of_pairwise (k1 v1 : QString) (rest : QMap)
    (h : QMap.WF ((k1, v1) :: rest)) :
    rest.find? (fun p => decide (p.1.units = k1.units)) = none := by
  unfold QMap.WF at h
  rw [List.pairwise_cons] at h
  rw [List.find?_eq_none]
  intro p hp
  have := h.1 p hp
  simp only [decide_eq_true_eq]
  exact fun e => this e.symm

theorem storeAfterUpdate_setValue (st : Settings) (k1 : QString) (v : QVariant) (rest : QMap)
    (k : List Nat) (hk : k1.units ≠ k) :
    storeAfterUpdate (st.setValue k1 v) rest k = storeAfterUpdate st rest k := by
  unfold storeAfterUpdate Settings.setValue
  have hne : ¬ k = k1.units := fun e => hk e.symm
  cases rest.find? (fun p => decide (p.1.units = k)) with
  | none => simp [hne]
  | some p => simp [hne]

/-- The store after the write loop, key by key. -/
theorem writePairs_store (m : QMap) (hwf : QMap.WF m) (st : Settings) (k : List Nat) :
    (writePairs st m).1 k = storeAfterUpdate st m k := by
  induction m generalizing st with
  | nil => simp [writePairs, storeAfterUpdate]
  | cons p rest ih =>
    obtain ⟨k1, v1⟩ := p
    have hrest : QMap.WF rest := by
      unfold QMap.WF at hwf ⊢
      exact (List.pairwise_cons.mp hwf).2
    have hnone := find_none_of_pairwise k1 v1 rest hwf
    unfold writePairs
    by_cases hcmd : k1.equals (QString.lit "COMMAND") = true
    · rw [if_pos hcmd, ih hrest]
      have hu : k1.units = (QString.lit "COMMAND").units := by
        simpa [QString.equals] using hcmd
      by_cases hk : k1.units = k
      · subst hk
        unfold storeAfterUpdate
        rw [hnone]
        simp [List.find?, hu]
      · unfold storeAfterUpdate
        simp [List.find?, hk]
    · rw [if_neg hcmd]
      have hu : k1.units ≠ (QString.lit "COMMAND").units := by
        simpa [QString.equals] using hcmd
      simp only
      rw [ih hrest]
      by_cases hk : k1.units = k
      · subst hk
        unfold storeAfterUpdate
        rw [hnone]
        simp [List.find?, hu, Settings.setValue]
      · rw [storeAfterUpdate_setValue _ _ _ _ _ hk]
        unfold storeAfterUpdate
        simp [List.find?, hk]

/-- The write loop emits the `setValue` of every pair except `COMMAND`, in
order, and never the notification. -/
theorem writePairs_out (m : QMap) (st : Settings) :
    writesOf (writePairs st m).2 = m.filter (fun p => ! p.1.equals (QString.lit "COMMAND")) ∧
    ServerOut.settingsChanged ∉ (writePairs st m).2 := by
  induction m generalizing st with
  | nil => simp [writePairs, writesOf]
  | cons p rest ih =>
    obtain ⟨k1, v1⟩ := p
    unfold writePairs
    by_cases hcmd : k1.equals (QString.lit "COMMAND") = true
    · rw [if_pos hcmd]
      obtain ⟨i1, i2⟩ := ih st
      refine ⟨?_, i2⟩
      rw [i1, List.filter_cons]
      simp [hcmd]
    · rw [if_neg hcmd]
      obtain ⟨i1, i2⟩ := ih (st.setValue k1 (QVariant.string v1))
      simp only
      constructor
      · have : writesOf ([ServerOut.setValue k1 v1, ServerOut.qDebug .registryChanged,
            ServerOut.qDebug .registryModified] ++
            (writePairs (st.setValue k1 (QVariant.string v1)) rest).2)
            = (k1, v1) :: writesOf (writePairs (st.setValue k1 (QVariant.string v1)) rest).2 := by
          simp [writesOf, List.filterMap_cons]
        rw [this, i1, List.filter_cons]
        simp [hcmd]
      · intro hmem
        simp only [List.mem_append, List.mem_cons, List.mem_singleton, List.mem_nil_iff,
          or_false] at hmem
        rcases hmem with (h | h | h) | h
        · cases h
        · cases h
        · cases h
        · exact i2 h

/-- C13. For every key/value mapping `m` (each key once) and every store `s`:
if the `COMMAND` value of `m` is `CONFIG_UPDATE`, `processCommand` leaves the
store equal to `s` with every pair of `m` except the `COMMAND` key written
verbatim (other keys unchanged), the `setValue` calls are those pairs in order,
and exactly one `settingsChanged` is emitted, after all writes; if `COMMAND`
is absent or has another value, the store is unchanged and nothing is
emitted. -/
theorem C13_processCommand (s : Settings) (m : QMap) (hwf : QMap.WF m) :
    ((QMap.value m (QString.lit "COMMAND")).units = (QString.lit "CONFIG_UPDATE").units →
      (processCommand s m).1 = storeAfterUpdate s m ∧
      (processCommand s m).2.count ServerOut.settingsChanged = 1 ∧
      ∃ pre, (processCommand s m).2 =
          pre ++ [ServerOut.sync, ServerOut.settingsChanged, ServerOut.qDebug .signalEmitted] ∧
        ServerOut.settingsChanged ∉ pre ∧
        writesOf pre = m.filter (fun p => ! p.1.equals (QString.lit "COMMAND"))) ∧
    ((QMap.value m (QString.lit "COMMAND")).units ≠ (QString.lit "CONFIG_UPDATE").units →
      (processCommand s m).1 = s ∧ (processCommand s m).2 = []) := by
  obtain ⟨w1, w2⟩ := writePairs_out m s
  constructor
  · intro hcmd
    have heq : (QMap.value m (QString.lit "COMMAND")).equals (QString.lit "CONFIG_UPDATE") = true := by
      simpa [QString.equals] using hcmd
    unfold processCommand
    simp only [heq, if_true]
    refine ⟨funext (fun k => writePairs_store m hwf s k), ?_, ?_⟩
    · rw [List.count_append, List.count_append]
      have h0 : (writePairs s m).2.count ServerOut.settingsChanged = 0 :=
        List.count_eq_zero.mpr w2
      rw [h0]
      decide
    · refine ⟨[ServerOut.qDebug .configUpdateReceived] ++ (writePairs s m).2, rfl, ?_, ?_⟩
      · intro hmem
        rcases List.mem_append.mp hmem with h | h
        · simp at h
        · exact w2 h
      · rw [← w1]
        simp [writesOf, List.filterMap_cons]
  · intro hcmd
    have hne : ¬ (QMap.value m (QString.lit "COMMAND")).equals (QString.lit "CONFIG_UPDATE") = true := by
      simpa [QString.equals] using hcmd
    unfold processCommand
    simp only [hne, if_false, Bool.false_eq_true]
    exact ⟨trivial, trivial⟩

theorem C13_processCommand_witness :
    QMap.WF sampleCommand ∧
    (QMap.value sampleCommand (QString.lit "COMMAND")).units
      = (QString.lit "CONFIG_UPDATE").units ∧
    ((processCommand sampleSettings sampleCommand).1 = storeAfterUpdate sampleSettings sampleCommand ∧
      (processCommand sampleSettings sampleCommand).2.count ServerOut.settingsChanged = 1 ∧
      ∃ pre, (processCommand sampleSettings sampleCommand).2 =
          pre ++ [ServerOut.sync, ServerOut.settingsChanged, ServerOut.qDebug .signalEmitted] ∧
        ServerOut.settingsChanged ∉ pre ∧
        writesOf pre
          = sampleCommand.filter (fun p => ! p.1.equals (QString.lit "COMMAND"))) ∧
    QMap.WF sampleNoCommand ∧
    (QMap.value sampleNoCommand (QString.lit "COMMAND")).units
      ≠ (QString.lit "CONFIG_UPDATE").units ∧
    ((processCommand sampleSettings sampleNoCommand).1 = sampleSettings ∧
      (processCommand sampleSettings sampleNoCommand).2 = []) :=
  ⟨by unfold QMap.WF; decide, by decide,
    (C13_processCommand sampleSettings sampleCommand (by unfold QMap.WF; decide)).1 (by decide),
    by unfold QMap.WF; decide, by decide,
    (C13_processCommand sampleSettings sampleNoCommand (by unfold QMap.WF; decide)).2 (by decide)⟩

/-! ## C14: the read cursor of the server -/

/-- C14 (the code at the failing input). Subscriber 1 sends one whole
`CONFIG_UPDATE` packet.  Alone, the packet is parsed and handed to
`processCommand`, and the store takes the new port.  When subscriber 0 has sent
the start of a frame before (a prefix and two payload bytes), the prefix of
subscriber 0 stays in the shared `blockSize` and is applied to the bytes of
subscriber 1: with a declared size of 200 the packet of subscriber 1 is held
back, with a declared size of 20 it is parsed from its own prefix on, fails after 14
bytes and is dropped.  Either way no command of subscriber 1 is parsed and the store keeps
the old port. -/
theorem C14_block_size_is_shared :
    (serverRun idleServer [(1, samplePacket)]).2 = [(1, sampleCommand)] ∧
    (serverRun idleServer [(1, samplePacket)]).1.settings
        AppConstants.REG_KEY_SELECTED_COM_PORT.units
      = some (QVariant.string (QString.lit "COM3")) ∧
    (serverReceive idleServer 0 partialFrame).srv.blockSize = 200 ∧
    (serverRun idleServer [(0, partialFrame), (1, samplePacket)]).2 = [] ∧
    (serverRun idleServer [(0, partialFrame), (1, samplePacket)]).1.available 1 = samplePacket ∧
    (serverRun idleServer [(0, partialFrame), (1, samplePacket)]).1.settings
        AppConstants.REG_KEY_SELECTED_COM_PORT.units
      = some (QVariant.string (QString.lit "COM7")) ∧
    (serverRun idleServer [(0, shortPartialFrame), (1, samplePacket)]).2 = [] ∧
    (serverRun idleServer [(0, shortPartialFrame), (1, samplePacket)]).1.available 1
      = samplePacket.drop 14 ∧
    (serverRun idleServer [(0, shortPartialFrame), (1, samplePacket)]).1.settings
        AppConstants.REG_KEY_SELECTED_COM_PORT.units
      = some (QVariant.string (QString.lit "COM7")) := by
  refine ⟨by decide, by decide, by decide, by decide, by decide, by decide, by decide,
    by decide, by decide⟩

/-! ## C18, C19: the recovery timer and the configuration error -/

theorem emitUpsReport_timer (now : QDateTime) (m : Ups_api_library) (data : UpsData) :
    (emitUpsReport now m data).1.m_recoveryTimer = m.m_recoveryTimer ∧
    (emitUpsReport now m data).1.m_driver = m.m_driver ∧
    (emitUpsReport now m data).1.m_pluginLoader = m.m_pluginLoader ∧
    (emitUpsReport now m data).1.m_workerThread = m.m_workerThread ∧
    (∀ line, ApiOut.qDebug line ∉ (emitUpsReport now m data).2) ∧
    (∀ c, ApiOut.workerThreadStarted c ∉ (emitUpsReport now m data).2) := by
  unfold emitUpsReport
  simp

/-- What `onDriverInitFailure` does to the recovery timer. -/
theorem onDriverInitFailure_timer (now : QDateTime) (m : Ups_api_library) (error : QString) :
    (m.m_recoveryTimer.active = true →
      (onDriverInitFailure now m error).1.m_recoveryTimer = m.m_recoveryTimer ∧
      (onDriverInitFailure now m error).2.count (ApiOut.qDebug .startingRecoveryTimer) = 0) ∧
    (m.m_recoveryTimer.active = false →
      (onDriverInitFailure now m error).1.m_recoveryTimer
        = ⟨true, m.m_recoveryTimer.interval, m.m_recoveryTimer.interval⟩ ∧
      (onDriverInitFailure now m error).2.count (ApiOut.qDebug .startingRecoveryTimer) = 1) := by
  unfold onDriverInitFailure emitUpsReport
  constructor
  · intro h
    simp [h]
  · intro h
    simp [h, QSingleShotTimer.start]

theorem failureBurst_active (now : QDateTime) (errors : List QString) (m : Ups_api_library)
    (h : m.m_recoveryTimer.active = true) :
    (failureBurst now m errors).1.m_recoveryTimer = m.m_recoveryTimer ∧
    (failureBurst now m errors).2.count (ApiOut.qDebug .startingRecoveryTimer) = 0 := by
  induction errors generalizing m with
  | nil => exact ⟨rfl, rfl⟩
  | cons e rest ih =>
    obtain ⟨t1, t2⟩ := (onDriverInitFailure_timer now m e).1 h
    obtain ⟨i1, i2⟩ := ih (onDriverInitFailure now m e).1 (by rw [t1]; exact h)
    simp only [failureBurst, List.count_append]
    exact ⟨by rw [i1, t1], by omega⟩

/-- A burst of failures starts the recovery timer at most once. -/
theorem failureBurst_starts (now : QDateTime) (errors : List QString) (m : Ups_api_library) :
    (failureBurst now m errors).2.count (ApiOut.qDebug .startingRecoveryTimer) ≤ 1 := by
  cases errors with
  | nil => simp [failureBurst]
  | cons e rest =>
    simp only [failureBurst, List.count_append]
    cases hact : m.m_recoveryTimer.active with
    | true =>
      obtain ⟨t1, t2⟩ := (onDriverInitFailure_timer now m e).1 hact
      obtain ⟨i1, i2⟩ := failureBurst_active now rest (onDriverInitFailure now m e).1
        (by rw [t1]; exact hact)
      omega
    | false =>
      obtain ⟨t1, t2⟩ := (onDriverInitFailure_timer now m e).2 hact
      obtain ⟨i1, i2⟩ := failureBurst_active now rest (onDriverInitFailure now m e).1
        (by rw [t1])
      omega

theorem onDriverInitFailure_interval (now : QDateTime) (m : Ups_api_library) (error : QString) :
    (onDriverInitFailure now m error).1.m_recoveryTimer.interval = m.m_recoveryTimer.interval := by
  unfold onDriverInitFailure emitUpsReport
  dsimp only
  split_ifs <;> simp [QSingleShotTimer.start]

theorem cleanupDriver_timer (now : QDateTime) (m : Ups_api_library) :
    (cleanupDriver now m).1.m_recoveryTimer = m.m_recoveryTimer.stop ∧
    (cleanupDriver now m).1.m_driver = false ∧
    (cleanupDriver now m).1.m_pluginLoader = false ∧
    (cleanupDriver now m).1.m_workerThread = none ∧
    (cleanupDriver now m).1.m_currentStatus.driverLoaded = false ∧
    (∀ c, ApiOut.workerThreadStarted c ∉ (cleanupDriver now m).2) := by
  unfold cleanupDriver emitUpsReport
  refine ⟨rfl, rfl, rfl, rfl, rfl, ?_⟩
  intro c
  dsimp only
  simp only [List.mem_append, List.mem_singleton, not_or]
  refine ⟨⟨⟨⟨⟨by simp, by simp⟩, ?_⟩, ?_⟩, ?_⟩, ?_⟩ <;> split_ifs <;> simp

theorem loadAndStartDriver_interval (env : ApiEnv) (m : Ups_api_library) :
    (loadAndStartDriver env m).2.1.m_recoveryTimer.interval = m.m_recoveryTimer.interval := by
  have hc : (cleanupDriver env.now m).1.m_recoveryTimer.interval = m.m_recoveryTimer.interval := by
    rw [(cleanupDriver_timer env.now m).1]; rfl
  unfold loadAndStartDriver
  dsimp only
  split_ifs
  · dsimp only
    rw [onDriverInitFailure_interval, hc]
  · split
    · dsimp only
      rw [onDriverInitFailure_interval]; exact hc
    · dsimp only
      rw [onDriverInitFailure_interval]; exact hc
    · exact hc

theorem apiStep_interval (m : Ups_api_library) (e : ApiEvent) :
    (apiStep m e).1.m_recoveryTimer.interval = m.m_recoveryTimer.interval := by
  cases e with
  | driverSignal now signal =>
    cases signal <;> simp only [apiStep, deliver]
    · unfold onDriverInitSuccess emitUpsReport; rfl
    · rw [onDriverInitFailure_interval]
    · unfold handleDriverData emitUpsReport; rfl
  | recoveryTimeout env =>
    simp only [apiStep]
    rw [loadAndStartDriver_interval]; rfl
  | registryChanged env =>
    simp only [apiStep, onRegistryChanged]
    split_ifs
    · exact loadAndStartDriver_interval env m
    · rfl
  | startService env =>
    simp only [apiStep]
    exact loadAndStartDriver_interval env m

/-- The interval of the recovery timer is the 5000 ms the constructor set, in
every state the manager reaches. -/
theorem apiRun_interval (events : List ApiEvent) (m : Ups_api_library) :
    (apiRun m events).1.m_recoveryTimer.interval = m.m_recoveryTimer.interval := by
  induction events generalizing m with
  | nil => rfl
  | cons e rest ih =>
    simp only [apiRun]
    rw [ih, apiStep_interval]

/-- Claim C18: with the recovery timer set up as the constructor leaves it
(interval 5000 ms, which no slot changes in any state the manager reaches), a
failure event that finds the timer pending leaves the timer as it is, its
remaining time included, and starts nothing; one that finds it not pending
leaves it pending with the full 5000 ms to run; and a burst of failure events
handled one after the other starts the timer at most once. -/
theorem C18_recovery_timer_not_restarted (now : QDateTime) (m : Ups_api_library)
    (error : QString) (errors : List QString) (hinterval : m.m_recoveryTimer.interval = 5000) :
    (m.m_recoveryTimer.active = true →
      (onDriverInitFailure now m error).1.m_recoveryTimer = m.m_recoveryTimer ∧
      (onDriverInitFailure now m error).2.count (ApiOut.qDebug .startingRecoveryTimer) = 0) ∧
    (m.m_recoveryTimer.active = false →
      (onDriverInitFailure now m error).1.m_recoveryTimer = ⟨true, 5000, 5000⟩ ∧
      (onDriverInitFailure now m error).2.count (ApiOut.qDebug .startingRecoveryTimer) = 1) ∧
    (failureBurst now m errors).2.count (ApiOut.qDebug .startingRecoveryTimer) ≤ 1 ∧
    (∀ events : List ApiEvent,
      (apiRun Ups_api_library.new events).1.m_recoveryTimer.interval = 5000) := by
  have ht := onDriverInitFailure_timer now m error
  refine ⟨ht.1, ?_, failureBurst_starts now errors m, ?_⟩
  · intro h
    obtain ⟨t1, t2⟩ := ht.2 h
    rw [hinterval] at t1
    exact ⟨t1, t2⟩
  · intro events
    rw [apiRun_interval]
    rfl

/-- Claim C18 at a manager whose timer is pending with 1200 ms left (the 1200
ms stay), and at the constructed manager (the timer is started). -/
theorem C18_recovery_timer_not_restarted_witness :
    pendingManager.m_recoveryTimer.interval = 5000 ∧
    pendingManager.m_recoveryTimer.active = true ∧
    (onDriverInitFailure sampleNow pendingManager sampleError).1.m_recoveryTimer
      = ⟨true, 5000, 1200⟩ ∧
    Ups_api_library.new.m_recoveryTimer.active = false ∧
    (onDriverInitFailure sampleNow Ups_api_library.new sampleError).1.m_recoveryTimer
      = ⟨true, 5000, 5000⟩ ∧
    (failureBurst sampleNow Ups_api_library.new [sampleError, sampleError, sampleError]).2.count
      (ApiOut.qDebug .startingRecoveryTimer) = 1 :=
  ⟨rfl, rfl,
    ((C18_recovery_timer_not_restarted sampleNow pendingManager sampleError [] rfl).1 rfl).1,
    rfl,
    ((C18_recovery_timer_not_restarted sampleNow Ups_api_library.new sampleError [] rfl).2.1
      rfl).1,
    by decide⟩

/-- Claim C19: when the configured driver file name or the configured port
name is empty, `loadAndStartDriver` returns false, the status carries the
missing-configuration message, no plug-in is loaded, no driver and no worker
thread exist, no worker thread was started, and the recovery timer is left
pending with its full interval to run. -/
theorem C19_missing_configuration (env : ApiEnv) (m : Ups_api_library)
    (h : (env.settings.valueString AppConstants.REG_KEY_SELECTED_DRIVER_FILE).isEmpty = true ∨
      (env.settings.valueString AppConstants.REG_KEY_SELECTED_COM_PORT).isEmpty = true) :
    (loadAndStartDriver env m).1 = false ∧
    (loadAndStartDriver env m).2.1.m_currentStatus.lastErrorMessage
      = QString.lit "Missing configuration (Driver/Port)" ∧
    (loadAndStartDriver env m).2.1.m_currentStatus.driverLoaded = false ∧
    (loadAndStartDriver env m).2.1.m_currentStatus.driverInitialized = false ∧
    (loadAndStartDriver env m).2.1.m_pluginLoader = false ∧
    (loadAndStartDriver env m).2.1.m_driver = false ∧
    (loadAndStartDriver env m).2.1.m_workerThread = none ∧
    (∀ c, ApiOut.workerThreadStarted c ∉ (loadAndStartDriver env m).2.2) ∧
    (loadAndStartDriver env m).2.1.m_recoveryTimer
      = ⟨true, m.m_recoveryTimer.interval, m.m_recoveryTimer.interval⟩ := by
  obtain ⟨c1, c2, c3, c4, c5, c6⟩ := cleanupDriver_timer env.now m
  have hact : (cleanupDriver env.now m).1.m_recoveryTimer.active = false := by rw [c1]; rfl
  have hint : (cleanupDriver env.now m).1.m_recoveryTimer.interval = m.m_recoveryTimer.interval := by
    rw [c1]; rfl
  obtain ⟨t1, t2⟩ := (onDriverInitFailure_timer env.now (cleanupDriver env.now m).1
    (QString.lit "Missing configuration (Driver/Port)")).2 hact
  have hf : loadAndStartDriver env m =
      (false, (onDriverInitFailure env.now (cleanupDriver env.now m).1
          (QString.lit "Missing configuration (Driver/Port)")).1,
        (cleanupDriver env.now m).2 ++ (onDriverInitFailure env.now (cleanupDriver env.now m).1
          (QString.lit "Missing configuration (Driver/Port)")).2) := by
    unfold loadAndStartDriver
    dsimp only
    rw [if_pos h]
  rw [hf]
  dsimp only
  refine ⟨rfl, ?_, ?_, ?_, ?_, ?_, ?_, ?_, ?_⟩
  · unfold onDriverInitFailure emitUpsReport
    dsimp only
    split_ifs <;> rfl
  · unfold onDriverInitFailure emitUpsReport
    dsimp only
    split_ifs <;> exact c5
  · unfold onDriverInitFailure emitUpsReport
    dsimp only
    split_ifs <;> rfl
  · unfold onDriverInitFailure emitUpsReport
    dsimp only
    split_ifs <;> exact c3
  · unfold onDriverInitFailure emitUpsReport
    dsimp only
    split_ifs <;> exact c2
  · unfold onDriverInitFailure emitUpsReport
    dsimp only
    split_ifs <;> exact c4
  · intro c hc
    rw [List.mem_append] at hc
    rcases hc with hc | hc
    · exact c6 c hc
    · revert hc
      unfold onDriverInitFailure emitUpsReport
      dsimp only
      split_ifs <;> simp
  · rw [t1, hint]

/-- Claim C19 at an empty configuration store, from the constructed manager
(an ordinary configuration does start the worker thread). -/
theorem C19_missing_configuration_witness :
    ((emptyEnv.settings.valueString AppConstants.REG_KEY_SELECTED_DRIVER_FILE).isEmpty = true ∨
      (emptyEnv.settings.valueString AppConstants.REG_KEY_SELECTED_COM_PORT).isEmpty = true) ∧
    (loadAndStartDriver sampleEnv Ups_api_library.new).1 = true ∧
    (loadAndStartDriver emptyEnv Ups_api_library.new).1 = false ∧
    (loadAndStartDriver emptyEnv Ups_api_library.new).2.1.m_currentStatus.lastErrorMessage
      = QString.lit "Missing configuration (Driver/Port)" ∧
    (loadAndStartDriver emptyEnv Ups_api_library.new).2.1.m_recoveryTimer = ⟨true, 5000, 5000⟩ :=
  ⟨by decide, by decide,
    (C19_missing_configuration emptyEnv Ups_api_library.new (by decide)).1,
    (C19_missing_configuration emptyEnv Ups_api_library.new (by decide)).2.1,
    (C19_missing_configuration emptyEnv Ups_api_library.new (by decide)).2.2.2.2.2.2.2.2⟩

/-! ## C17: the tick of the reopen attempts -/

/-- Claim C17 (refuted): the state `removedDriver` is reached by `initialize`
with the port opening, the first initiator command, and then a hardware-removal
error while the 1500 ms handshake timer is armed.  In it the port is closed,
only one of the five handshake attempts is used, and the monitor timer is
active with an interval of 1500 ms, not 3000 ms; every expiry whose reopen
attempt fails leaves the port closed and the interval at 1500 ms, so the
reopen attempts follow each other at 1500 ms.  The same removal while the
3000 ms watchdog is armed (`streamingDriver`) leaves the 3000 ms interval. -/
theorem C17_reopen_tick_after_handshake_removal :
    removedDriver
      = (driverRun (initializeDriver newDriver (QString.lit "COM7") OpenResult.opened).1
          [DriverEvent.initiatorShot, DriverEvent.serialError SerialPortError.ResourceError]).1 ∧
    awaitingDriver.m_monitorTimer = some ⟨true, 1500⟩ ∧
    portIsOpen awaitingDriver = true ∧
    portIsOpen removedDriver = false ∧
    removedDriver.m_retryCount = 1 ∧
    removedDriver.m_monitorTimer = some ⟨true, 1500⟩ ∧
    portIsOpen
      (onMonitorTimeout removedDriver (OpenResult.failed SerialPortError.DeviceNotFoundError)).1
      = false ∧
    (onMonitorTimeout removedDriver
      (OpenResult.failed SerialPortError.DeviceNotFoundError)).1.m_monitorTimer
      = some ⟨true, 1500⟩ ∧
    (driverRun removedDriver
      (List.replicate 10
        (DriverEvent.monitorTimeout
          (OpenResult.failed SerialPortError.DeviceNotFoundError)))).1.m_monitorTimer
      = some ⟨true, 1500⟩ ∧
    (∀ out ∈ (driverRun removedDriver
      (List.replicate 10
        (DriverEvent.monitorTimeout (OpenResult.failed SerialPortError.DeviceNotFoundError)))).2,
      isInitializationFailure out = false) ∧
    (handleSerialError streamingDriver SerialPortError.ResourceError).1.m_monitorTimer
      = some ⟨true, 3000⟩ := by
  refine ⟨rfl, by decide, by decide, by decide, by decide, by decide, by decide, by decide,
    by decide, by decide, by decide⟩

/-! ## C20: the handshake frame -/

/-- The type S branch of `parse_packet_ring`, by the handshake flag. -/
theorem parse_packet_ring_S_handshake (now : QDateTime) (s : Nhs_driver) (t : Int)
    (htype : ringAt s (t + 2) = 0x53) :
    (s.m_handshakeComplete = false →
      (parse_packet_ring now s t 18).2.1.m_handshakeComplete = true ∧
      (parse_packet_ring now s t 18).2.1.m_retryCount = 0 ∧
      (parse_packet_ring now s t 18).2.1.m_monitorTimer = timerStart s.m_monitorTimer 3000 ∧
      (parse_packet_ring now s t 18).2.2
        = [DriverOut.qDebug .typeSParsed, DriverOut.qDebug .handshakeComplete,
            DriverOut.initializationSuccess, DriverOut.dataReceived silentData]) ∧
    (s.m_handshakeComplete = true →
      (parse_packet_ring now s t 18).2.1.m_handshakeComplete = true ∧
      (parse_packet_ring now s t 18).2.1.m_retryCount = s.m_retryCount ∧
      (parse_packet_ring now s t 18).2.1.m_monitorTimer = s.m_monitorTimer ∧
      (parse_packet_ring now s t 18).2.2 = [DriverOut.qDebug .typeSParsed]) := by
  have hlp : linearPacket s t 18 2 = 0x53 := by simp [linearPacket, htype]
  unfold parse_packet_ring
  simp only [hlp, PACKET_LEN_D, PACKET_LEN_S, MONITOR_TIMEOUT]
  rw [if_neg (by decide), if_pos (by decide)]
  constructor
  · intro h
    simp [h]
  · intro h
    simp [h]

/-- Claim C20: when the drain loop finds at `m_tail` a complete valid type S
frame (start byte, declared length 18, type S, end byte and checksum right)
and the monitor timer exists, the pass decodes it.  With the handshake not yet
complete the pass marks the handshake complete, sets the retry counter to 0,
emits `initializationSuccess` exactly once, and leaves the monitor timer
running with the 3000 ms interval.  With the handshake already complete the
handshake flag, the retry counter and the monitor timer stay as they were and
no `initializationSuccess` is emitted. -/
theorem C20_handshake_frame (now : QDateTime) (s : Nhs_driver)
    (hstart : ringAt s s.m_tail = 0xFF)
    (hlen : ringAt s ((s.m_tail : Int) + 1) = 18)
    (hcomplete : 18 ≤ unread s)
    (hvalid : frameValid s 18)
    (htimer : s.m_monitorTimer.isSome = true) :
    ∃ it, drainStep now s = some it ∧ it.advance = 18 ∧
      DriverOut.qDebug .typeSParsed ∈ it.out ∧
      (s.m_handshakeComplete = false →
        it.drv.m_handshakeComplete = true ∧
        it.drv.m_retryCount = 0 ∧
        it.out.count DriverOut.initializationSuccess = 1 ∧
        it.drv.m_monitorTimer = some ⟨true, 3000⟩) ∧
      (s.m_handshakeComplete = true →
        it.drv.m_handshakeComplete = true ∧
        it.drv.m_retryCount = s.m_retryCount ∧
        it.out.count DriverOut.initializationSuccess = 0 ∧
        it.drv.m_monitorTimer = s.m_monitorTimer) := by
  obtain ⟨ht, hg⟩ := (frameValid_iff s 18).1 hvalid
  have htype : ringAt s ((s.m_tail : Int) + 2) = 0x53 := by
    rcases ht with ⟨_, h2⟩ | ⟨h1, _⟩
    · omega
    · exact h1
  have hstep := drainStep_guarded now s 18 hstart hlen (Or.inr rfl) hcomplete hg
  obtain ⟨hfalse, htrue⟩ := parse_packet_ring_S_handshake now s s.m_tail htype
  refine ⟨_, hstep, rfl, (parse_packet_ring_S now s s.m_tail htype).1, ?_, ?_⟩
  · intro h
    obtain ⟨a1, a2, a3, a4⟩ := hfalse h
    refine ⟨a1, a2, ?_, ?_⟩
    · dsimp only
      rw [a4]
      decide
    · dsimp only
      rw [a3]
      cases htm : s.m_monitorTimer with
      | none => rw [htm] at htimer; cases htimer
      | some q => rfl
  · intro h
    obtain ⟨a1, a2, a3, a4⟩ := htrue h
    refine ⟨a1, a2, ?_, a3⟩
    dsimp only
    rw [a4]
    decide

/-- Claim C20 at the handshake frame `sampleSFrame`, first arriving while the
driver awaits the handshake (retry counter 1, timer at 1500 ms) and then
arriving again while it streams. -/
theorem C20_handshake_frame_witness :
    frameValid (ingest awaitingDriver sampleSFrame) 18 ∧
    (ingest awaitingDriver sampleSFrame).m_handshakeComplete = false ∧
    (ingest awaitingDriver sampleSFrame).m_retryCount = 1 ∧
    (ingest awaitingDriver sampleSFrame).m_monitorTimer = some ⟨true, 1500⟩ ∧
    frameValid (ingest streamingDriver sampleSFrame) 18 ∧
    (ingest streamingDriver sampleSFrame).m_handshakeComplete = true ∧
    (∃ it, drainStep sampleNow (ingest awaitingDriver sampleSFrame) = some it ∧
      it.drv.m_handshakeComplete = true ∧ it.drv.m_retryCount = 0 ∧
      it.out.count DriverOut.initializationSuccess = 1 ∧
      it.drv.m_monitorTimer = some ⟨true, 3000⟩) ∧
    (∃ it, drainStep sampleNow (ingest streamingDriver sampleSFrame) = some it ∧
      it.out.count DriverOut.initializationSuccess = 0) := by
  obtain ⟨it, h1, _, _, h2, _⟩ := C20_handshake_frame sampleNow
    (ingest awaitingDriver sampleSFrame) (by decide) (by decide) (by decide)
    (by unfold frameValid typeMatches frameSum; decide) (by decide)
  obtain ⟨it2, g1, _, _, _, g2⟩ := C20_handshake_frame sampleNow
    (ingest streamingDriver sampleSFrame) (by decide) (by decide) (by decide)
    (by unfold frameValid typeMatches frameSum; decide) (by decide)
  exact ⟨by unfold frameValid typeMatches frameSum; decide, by decide, by decide, by decide,
    by unfold frameValid typeMatches frameSum; decide, by decide,
    ⟨it, h1, (h2 (by decide)).1, (h2 (by decide)).2.1, (h2 (by decide)).2.2.1,
      (h2 (by decide)).2.2.2⟩,
    ⟨it2, g1, (g2 (by decide)).2.2.1⟩⟩

/-! ## C16: the ring-buffer invariant -/

/-- Ingesting a chunk raises the unread count by the chunk length, modulo the
buffer size. -/
theorem ingest_unread_mod (s : Nhs_driver) (bs : List Nat) :
    unread (ingest s bs) = (unread s + bs.length) % 128 := by
  induction bs generalizing s with
  | nil =>
    have := unread_lt s
    simp only [ingest, List.length_nil, Nat.add_zero]
    omega
  | cons c rest ih =>
    unfold ingest
    rw [ih]
    simp only [unread, maskIndex, List.length_cons]
    omega

/-- Ingestion that fits leaves every unread cell as it was. -/
theorem ingest_cells (bs : List Nat) (s : Nhs_driver) (hfit : unread s + bs.length < 128)
    (k : Nat) (hk : k < unread s) :
    ringAt (ingest s bs) ((s.m_tail : Int) + (k : Int)) = ringAt s ((s.m_tail : Int) + (k : Int)) := by
  induction bs generalizing s with
  | nil => rfl
  | cons c rest ih =>
    unfold ingest
    have hu : unread { s with
        m_ringBuffer := fun j => if j = s.m_head then c % 256 else s.m_ringBuffer j
        m_head := maskIndex ((s.m_head : Int) + 1) } = unread s + 1 := by
      simp only [unread, maskIndex, List.length_cons] at *
      omega
    have h1 := ih { s with
        m_ringBuffer := fun j => if j = s.m_head then c % 256 else s.m_ringBuffer j
        m_head := maskIndex ((s.m_head : Int) + 1) }
      (by rw [hu]; simp only [List.length_cons] at hfit; omega) (by rw [hu]; omega)
    rw [h1]
    unfold ringAt
    have hne : maskIndex ((s.m_tail : Int) + (k : Int)) ≠ s.m_head := by
      simp only [unread, maskIndex] at *
      omega
    simp only [hne, if_false]

theorem ingest_fields (bs : List Nat) (s : Nhs_driver) :
    ingest s bs
      = { s with m_ringBuffer := (ingest s bs).m_ringBuffer, m_head := (ingest s bs).m_head } := by
  induction bs generalizing s with
  | nil => rfl
  | cons c rest ih =>
    unfold ingest
    exact (ih _).trans rfl

theorem ingest_congr (bs : List Nat) (s t : Nhs_driver)
    (hb : s.m_ringBuffer = t.m_ringBuffer) (hh : s.m_head = t.m_head) :
    (ingest s bs).m_ringBuffer = (ingest t bs).m_ringBuffer ∧
    (ingest s bs).m_head = (ingest t bs).m_head := by
  induction bs generalizing s t with
  | nil => exact ⟨hb, hh⟩
  | cons c rest ih =>
    unfold ingest
    apply ih
    · simp only [hb, hh]
    · simp only [hh]

theorem ingest_append (a b : List Nat) (s : Nhs_driver) :
    ingest s (a ++ b) = ingest (ingest s a) b := by
  induction a generalizing s with
  | nil => rfl
  | cons c rest ih =>
    simp only [List.cons_append, ingest]
    exact ih _

theorem drainStep_short (now : QDateTime) (s : Nhs_driver) (h : unread s < 9) :
    drainStep now s = none := by
  unfold drainStep
  rw [if_neg (by omega)]

theorem drainStep_skip (now : QDateTime) (s : Nhs_driver) (h9 : 9 ≤ unread s)
    (h : ringAt s s.m_tail ≠ 0xFF ∨
      (ringAt s ((s.m_tail : Int) + 1) ≠ 21 ∧ ringAt s ((s.m_tail : Int) + 1) ≠ 18)) :
    drainStep now s = some ⟨1, { s with m_tail := maskIndex ((s.m_tail : Int) + 1) }, []⟩ := by
  unfold drainStep
  simp only [PACKET_LEN_D, PACKET_LEN_S]
  rw [if_pos h9]
  by_cases hs : ringAt s s.m_tail ≠ 0xFF
  · rw [if_pos hs]
  · rw [if_neg hs]
    rcases h with h | h
    · exact absurd h hs
    · rw [if_pos h]

theorem drainStep_wait (now : QDateTime) (s : Nhs_driver)
    (hstart : ringAt s s.m_tail = 0xFF)
    (hL : ringAt s ((s.m_tail : Int) + 1) = 21 ∨ ringAt s ((s.m_tail : Int) + 1) = 18)
    (hlt : unread s < ringAt s ((s.m_tail : Int) + 1)) :
    drainStep now s = none := by
  unfold drainStep
  simp only [PACKET_LEN_D, PACKET_LEN_S]
  split_ifs <;> first | rfl | omega

theorem checksumSum_ext (s t : Nhs_driver) (i : Int) (n : Nat)
    (h : ∀ k : Nat, k ≤ n → ringAt t (i + (k : Int)) = ringAt s (i + (k : Int))) :
    checksumSum t i n = checksumSum s i n := by
  induction n with
  | zero => rfl
  | succ m ih =>
    simp only [checksumSum]
    rw [ih (fun k hk => h k (by omega)), h (m + 1) (le_refl _)]

/-- The function `parse_packet_ring` on a state whose buffer and write cursor
were replaced, the cells of the frame being the same. -/
theorem parse_packet_ring_ext (now : QDateTime) (A : Nhs_driver) (buf : Nat → Nat) (hd : Nat)
    (t : Int) (L : Nat)
    (hcells : ∀ k : Nat, k < L →
      ringAt { A with m_ringBuffer := buf, m_head := hd } (t + (k : Int)) = ringAt A (t + (k : Int))) :
    parse_packet_ring now { A with m_ringBuffer := buf, m_head := hd } t L
      = ((parse_packet_ring now A t L).1,
          { (parse_packet_ring now A t L).2.1 with m_ringBuffer := buf, m_head := hd },
          (parse_packet_ring now A t L).2.2) := by
  have hlp : linearPacket { A with m_ringBuffer := buf, m_head := hd } t L = linearPacket A t L := by
    funext i
    unfold linearPacket
    split_ifs with hi
    · exact hcells i hi
    · rfl
  unfold parse_packet_ring
  simp only [hlp]
  split_ifs <;> rfl

theorem guardHolds_ext (A : Nhs_driver) (buf : Nat → Nat) (hd : Nat) (L : Nat)
    (hL : L = 21 ∨ L = 18)
    (hcells : ∀ k : Nat, k < L →
      ringAt { A with m_ringBuffer := buf, m_head := hd } ((A.m_tail : Int) + (k : Int))
        = ringAt A ((A.m_tail : Int) + (k : Int)))
    (hreg : ¬ (ringAt A ((A.m_tail : Int) + 2) = 0x44 ∧ L = 18)) :
    guardHolds { A with m_ringBuffer := buf, m_head := hd } L ↔ guardHolds A L := by
  have c2 : ringAt { A with m_ringBuffer := buf, m_head := hd } ((A.m_tail : Int) + 2)
      = ringAt A ((A.m_tail : Int) + 2) := by
    have := hcells 2 (by omega)
    simpa using this
  have e1 : ((A.m_tail : Int) + (L : Int) - 1) = (A.m_tail : Int) + ((L - 1 : Nat) : Int) := by omega
  have e2 : ((A.m_tail : Int) + (L : Int) - 2) = (A.m_tail : Int) + ((L - 2 : Nat) : Int) := by omega
  have hsum : ∀ n : Nat, n < L →
      calculate_checksum_ring { A with m_ringBuffer := buf, m_head := hd } (A.m_tail : Int) n
        = calculate_checksum_ring A (A.m_tail : Int) n := by
    intro n hn
    unfold calculate_checksum_ring
    rw [checksumSum_ext A _ (A.m_tail : Int) n (fun k hk => hcells k (by omega))]
  unfold guardHolds
  simp only [c2]
  rw [e1, e2, hcells (L - 1) (by omega), hcells (L - 2) (by omega)]
  by_cases hD : ringAt A ((A.m_tail : Int) + 2) = 0x44
  · have h21 : L = 21 := by
      rcases hL with h | h
      · exact h
      · exact absurd ⟨hD, h⟩ hreg
    rw [if_pos hD, hsum 18 (by omega)]
  · rw [if_neg hD, hsum 15 (by omega)]

/-- A pass of the drain loop on a state whose buffer and write cursor were
replaced, the unread cells being the same and the unread count not smaller:
the pass advances by the same number of bytes, leaves the same state (with the
replaced buffer and write cursor) and emits the same signals. -/
theorem drainStep_ext (now : QDateTime) (A : Nhs_driver) (buf : Nat → Nat) (hd : Nat)
    (it : DrainIter)
    (hu : unread A ≤ unread { A with m_ringBuffer := buf, m_head := hd })
    (hcells : ∀ k : Nat, k < unread A →
      ringAt { A with m_ringBuffer := buf, m_head := hd } ((A.m_tail : Int) + (k : Int))
        = ringAt A ((A.m_tail : Int) + (k : Int)))
    (h : drainStep now A = some it) :
    ∃ out, drainStep now { A with m_ringBuffer := buf, m_head := hd }
        = some ⟨it.advance, { it.drv with m_ringBuffer := buf, m_head := hd }, out⟩ ∧
      signals out = signals it.out := by
  by_cases h9 : 9 ≤ unread A
  swap
  · rw [drainStep_short now A (by omega)] at h
    cases h
  have c0 : ringAt { A with m_ringBuffer := buf, m_head := hd } (A.m_tail : Int)
      = ringAt A (A.m_tail : Int) := by
    have := hcells 0 (by omega)
    simpa using this
  have c1 : ringAt { A with m_ringBuffer := buf, m_head := hd } ((A.m_tail : Int) + 1)
      = ringAt A ((A.m_tail : Int) + 1) := by
    have := hcells 1 (by omega)
    simpa using this
  have c2 : ringAt { A with m_ringBuffer := buf, m_head := hd } ((A.m_tail : Int) + 2)
      = ringAt A ((A.m_tail : Int) + 2) := by
    have := hcells 2 (by omega)
    simpa using this
  by_cases hskip : ringAt A A.m_tail ≠ 0xFF ∨
      (ringAt A ((A.m_tail : Int) + 1) ≠ 21 ∧ ringAt A ((A.m_tail : Int) + 1) ≠ 18)
  · rw [drainStep_skip now A h9 hskip] at h
    cases h
    refine ⟨[], ?_, rfl⟩
    rw [drainStep_skip now { A with m_ringBuffer := buf, m_head := hd } (by omega)
      (by
        show ringAt { A with m_ringBuffer := buf, m_head := hd } (A.m_tail : Int) ≠ 0xFF ∨ _
        rw [c0]
        show _ ∨ (ringAt { A with m_ringBuffer := buf, m_head := hd } ((A.m_tail : Int) + 1) ≠ 21
          ∧ ringAt { A with m_ringBuffer := buf, m_head := hd } ((A.m_tail : Int) + 1) ≠ 18)
        rw [c1]
        exact hskip)]
  · have hstart : ringAt A A.m_tail = 0xFF := by
      by_contra hne
      exact hskip (Or.inl hne)
    have hL : ringAt A ((A.m_tail : Int) + 1) = 21 ∨ ringAt A ((A.m_tail : Int) + 1) = 18 := by
      by_contra hne
      exact hskip (Or.inr (by omega))
    by_cases hlt : unread A < ringAt A ((A.m_tail : Int) + 1)
    · rw [drainStep_wait now A hstart hL hlt] at h
      cases h
    have hcomplete : ringAt A ((A.m_tail : Int) + 1) ≤ unread A := by omega
    have hcellsL : ∀ k : Nat, k < ringAt A ((A.m_tail : Int) + 1) →
        ringAt { A with m_ringBuffer := buf, m_head := hd } ((A.m_tail : Int) + (k : Int))
          = ringAt A ((A.m_tail : Int) + (k : Int)) := fun k hk => hcells k (by omega)
    have hstartT : ringAt { A with m_ringBuffer := buf, m_head := hd }
        ({ A with m_ringBuffer := buf, m_head := hd } : Nhs_driver).m_tail = 0xFF := by
      show ringAt { A with m_ringBuffer := buf, m_head := hd } (A.m_tail : Int) = 0xFF
      rw [c0]; exact hstart
    have hlenT : ringAt { A with m_ringBuffer := buf, m_head := hd }
        ((({ A with m_ringBuffer := buf, m_head := hd } : Nhs_driver).m_tail : Int) + 1)
          = ringAt A ((A.m_tail : Int) + 1) := c1
    have hL2 : ringAt A ((A.m_tail : Int) + 1) = 21 ∨ ringAt A ((A.m_tail : Int) + 1) = 18 := hL
    by_cases hcorner : ringAt A ((A.m_tail : Int) + 2) = 0x44 ∧ ringAt A ((A.m_tail : Int) + 1) = 18
    · have rejA := parse_packet_ring_reject now A A.m_tail _ hL2
        (by rintro (⟨_, h2⟩ | ⟨h1, _⟩) <;> omega)
      have rejT := parse_packet_ring_reject now { A with m_ringBuffer := buf, m_head := hd }
        A.m_tail _ hL2 (by rw [c2]; rintro (⟨_, h2⟩ | ⟨h1, _⟩) <;> omega)
      by_cases gA : guardHolds A (ringAt A ((A.m_tail : Int) + 1))
      · rw [drainStep_guarded now A _ hstart rfl hL2 hcomplete gA, rejA] at h
        cases h
        by_cases gT : guardHolds { A with m_ringBuffer := buf, m_head := hd }
            (ringAt A ((A.m_tail : Int) + 1))
        · refine ⟨[], ?_, rfl⟩
          rw [drainStep_guarded now _ _ hstartT hlenT hL2 (by omega) gT]
          show some (DrainIter.mk _ { (parse_packet_ring now { A with m_ringBuffer := buf, m_head := hd }
            A.m_tail (ringAt A ((A.m_tail : Int) + 1))).2.1 with m_tail := _ } _) = _
          rw [rejT]
        · refine ⟨[DriverOut.qDebug .checksumMismatch], ?_, rfl⟩
          rw [drainStep_mismatch now _ _ hstartT hlenT hL2 (by omega) gT]
      · rw [drainStep_mismatch now A _ hstart rfl hL2 hcomplete gA] at h
        cases h
        by_cases gT : guardHolds { A with m_ringBuffer := buf, m_head := hd }
            (ringAt A ((A.m_tail : Int) + 1))
        · refine ⟨[], ?_, rfl⟩
          rw [drainStep_guarded now _ _ hstartT hlenT hL2 (by omega) gT]
          show some (DrainIter.mk _ { (parse_packet_ring now { A with m_ringBuffer := buf, m_head := hd }
            A.m_tail (ringAt A ((A.m_tail : Int) + 1))).2.1 with m_tail := _ } _) = _
          rw [rejT]
        · refine ⟨[DriverOut.qDebug .checksumMismatch], ?_, rfl⟩
          rw [drainStep_mismatch now _ _ hstartT hlenT hL2 (by omega) gT]
    · have hg := guardHolds_ext A buf hd _ hL2 hcellsL hcorner
      have hp := parse_packet_ring_ext now A buf hd A.m_tail _ hcellsL
      by_cases gA : guardHolds A (ringAt A ((A.m_tail : Int) + 1))
      · rw [drainStep_guarded now A _ hstart rfl hL2 hcomplete gA] at h
        cases h
        refine ⟨_, ?_, rfl⟩
        rw [drainStep_guarded now _ _ hstartT hlenT hL2 (by omega) (hg.2 gA)]
        show some (DrainIter.mk _ { (parse_packet_ring now { A with m_ringBuffer := buf, m_head := hd }
            A.m_tail (ringAt A ((A.m_tail : Int) + 1))).2.1 with m_tail := _ } _) = _
        rw [hp]
      · rw [drainStep_mismatch now A _ hstart rfl hL2 hcomplete gA] at h
        cases h
        refine ⟨_, ?_, rfl⟩
        rw [drainStep_mismatch now _ _ hstartT hlenT hL2 (by omega) (fun g => gA (hg.1 g))]

theorem drainLoop_keeps (now : QDateTime) (fuel : Nat) (s : Nhs_driver) :
    (drainLoop now fuel s).drv.m_ringBuffer = s.m_ringBuffer ∧
    (drainLoop now fuel s).drv.m_head = s.m_head ∧
    ((drainLoop now fuel s).drv.m_tail : Int) % 128
      = ((s.m_tail : Int) + ((drainLoop now fuel s).consumed : Int)) % 128 := by
  induction fuel generalizing s with
  | zero => simp [drainLoop]
  | succ n ih =>
    unfold drainLoop
    cases hstep : drainStep now s with
    | none => simp
    | some it =>
      obtain ⟨_, _, h3, h4, h5⟩ := drainStep_cursor now s it hstep
      obtain ⟨i1, i2, i3⟩ := ih it.drv
      simp only
      refine ⟨by rw [i1, h5], by rw [i2, h3], ?_⟩
      rw [i3, h4]
      unfold maskIndex
      push_cast
      omega

/-- Once the fuel covers the unread count, more fuel changes nothing. -/
theorem drainLoop_fuel (now : QDateTime) (f : Nat) (g : Nat) (s : Nhs_driver)
    (hf : unread s ≤ f) (hg : unread s ≤ g) : drainLoop now f s = drainLoop now g s := by
  induction f generalizing g s with
  | zero =>
    have hnone : drainStep now s = none := drainStep_short now s (by omega)
    cases g with
    | zero => rfl
    | succ g1 =>
      simp only [drainLoop]
      rw [hnone]
  | succ n ih =>
    cases hstep : drainStep now s with
    | none =>
      cases g with
      | zero =>
        simp only [drainLoop]
        rw [hstep]
      | succ g1 =>
        simp only [drainLoop]
        rw [hstep]
    | some it =>
      obtain ⟨h1, h2, _, _, _⟩ := drainStep_cursor now s it hstep
      have hu := drainStep_unread now s it hstep
      cases g with
      | zero => omega
      | succ g1 =>
        simp only [drainLoop]
        rw [hstep]
        simp only
        rw [ih g1 it.drv (by omega) (by omega)]

theorem signals_append (x y : List DriverOut) : signals (x ++ y) = signals x ++ signals y := by
  unfold signals
  exact List.filter_append x y

/-- The drain loop on a state whose buffer and write cursor were replaced (the
unread cells being the same, the unread count not smaller) does what the loop
does on the original state and then goes on from where that loop ended. -/
theorem drainLoop_ext (now : QDateTime) (buf : Nat → Nat) (hd : Nat) (f : Nat) :
    ∀ (A : Nhs_driver) (g : Nat), unread A ≤ f →
      unread A ≤ unread { A with m_ringBuffer := buf, m_head := hd } →
      (∀ k : Nat, k < unread A →
        ringAt { A with m_ringBuffer := buf, m_head := hd } ((A.m_tail : Int) + (k : Int))
          = ringAt A ((A.m_tail : Int) + (k : Int))) →
      unread { A with m_ringBuffer := buf, m_head := hd } ≤ g →
      (drainLoop now g { A with m_ringBuffer := buf, m_head := hd }).drv
        = (drainLoop now g
            { (drainLoop now f A).drv with m_ringBuffer := buf, m_head := hd }).drv ∧
      signals (drainLoop now g { A with m_ringBuffer := buf, m_head := hd }).out
        = signals (drainLoop now f A).out ++
          signals (drainLoop now g
            { (drainLoop now f A).drv with m_ringBuffer := buf, m_head := hd }).out ∧
      (drainLoop now g { A with m_ringBuffer := buf, m_head := hd }).consumed
        = (drainLoop now f A).consumed +
          (drainLoop now g
            { (drainLoop now f A).drv with m_ringBuffer := buf, m_head := hd }).consumed := by
  induction f with
  | zero =>
    intro A g _ _ _ _
    simp [drainLoop, signals]
  | succ n ih =>
    intro A g hf hu hcells hg
    cases hstep : drainStep now A with
    | none =>
      simp only [drainLoop]
      rw [hstep]
      simp [signals]
    | some it =>
      obtain ⟨out1, hT, hsig⟩ := drainStep_ext now A buf hd it hu hcells hstep
      obtain ⟨h1, h2, h3, h4, h5⟩ := drainStep_cursor now A it hstep
      have huA := drainStep_unread now A it hstep
      have huT := drainStep_unread now _ _ hT
      simp only at huT
      cases g with
      | zero => omega
      | succ g1 =>
        have hcells2 : ∀ k : Nat, k < unread it.drv →
            ringAt { it.drv with m_ringBuffer := buf, m_head := hd }
                ((it.drv.m_tail : Int) + (k : Int))
              = ringAt it.drv ((it.drv.m_tail : Int) + (k : Int)) := by
          intro k hk
          have hm : maskIndex ((it.drv.m_tail : Int) + (k : Int))
              = maskIndex ((A.m_tail : Int) + ((it.advance + k : Nat) : Int)) := by
            rw [h4]
            unfold maskIndex
            push_cast
            omega
          have hc := hcells (it.advance + k) (by omega)
          unfold ringAt at hc ⊢
          rw [hm, h5]
          exact hc
        obtain ⟨i1, i2, i3⟩ := ih it.drv g1 (by omega) (by omega) hcells2 (by omega)
        obtain ⟨k1, k2, k3⟩ := drainLoop_keeps now n it.drv
        obtain ⟨c1, _, _⟩ := drainLoop_consumed now n it.drv
        have hfuel : drainLoop now (g1 + 1)
              { (drainLoop now n it.drv).drv with m_ringBuffer := buf, m_head := hd }
            = drainLoop now g1
              { (drainLoop now n it.drv).drv with m_ringBuffer := buf, m_head := hd } := by
          have hle : unread { (drainLoop now n it.drv).drv with m_ringBuffer := buf, m_head := hd }
              ≤ g1 := by
            simp only [unread, maskIndex] at *
            omega
          exact drainLoop_fuel now _ _ _ (by omega) hle
        have hA : drainLoop now (n + 1) A
            = ⟨(drainLoop now n it.drv).drv, it.out ++ (drainLoop now n it.drv).out,
                it.advance + (drainLoop now n it.drv).consumed⟩ := by
          simp only [drainLoop]
          rw [hstep]
        have hTT : drainLoop now (g1 + 1) { A with m_ringBuffer := buf, m_head := hd }
            = ⟨(drainLoop now g1 { it.drv with m_ringBuffer := buf, m_head := hd }).drv,
                out1 ++ (drainLoop now g1 { it.drv with m_ringBuffer := buf, m_head := hd }).out,
                it.advance
                  + (drainLoop now g1 { it.drv with m_ringBuffer := buf, m_head := hd }).consumed⟩ := by
          simp only [drainLoop]
          rw [hT]
        rw [hA, hTT]
        simp only
        rw [hfuel]
        refine ⟨i1, ?_, by rw [i3]; omega⟩
        rw [signals_append, signals_append, hsig, i2, List.append_assoc]

/-- Two `readData` calls on the two parts of a byte sequence that fits in the
buffer end in the same state, emit the same signals and consume the same
number of bytes as one call on the whole sequence. -/
theorem readData_split (now : QDateTime) (s : Nhs_driver) (a b : List Nat)
    (hfit : unread s + (a ++ b).length < 128) :
    (readData now (readData now s a).drv b).drv = (readData now s (a ++ b)).drv ∧
    signals ((readData now s a).out ++ (readData now (readData now s a).drv b).out)
      = signals (readData now s (a ++ b)).out ∧
    (readData now s a).consumed + (readData now (readData now s a).drv b).consumed
      = (readData now s (a ++ b)).consumed := by
  rw [List.length_append] at hfit
  have huA : unread (ingest s a) = unread s + a.length := by
    rw [ingest_unread_mod]; omega
  have huT : unread (ingest (ingest s a) b) = unread s + a.length + b.length := by
    rw [ingest_unread_mod, huA]; omega
  have hT0 := ingest_fields b (ingest s a)
  obtain ⟨k1, k2, _⟩ := drainLoop_keeps now BUFFER_SIZE (ingest s a)
  obtain ⟨g1, g2⟩ := ingest_congr b (drainLoop now BUFFER_SIZE (ingest s a)).drv (ingest s a) k1 k2
  have hB : ingest (drainLoop now BUFFER_SIZE (ingest s a)).drv b
      = { (drainLoop now BUFFER_SIZE (ingest s a)).drv with
          m_ringBuffer := (ingest (ingest s a) b).m_ringBuffer
          m_head := (ingest (ingest s a) b).m_head } := by
    rw [← g1, ← g2]
    exact ingest_fields b _
  have hcells : ∀ k : Nat, k < unread (ingest s a) →
      ringAt { ingest s a with
          m_ringBuffer := (ingest (ingest s a) b).m_ringBuffer
          m_head := (ingest (ingest s a) b).m_head } (((ingest s a).m_tail : Int) + (k : Int))
        = ringAt (ingest s a) (((ingest s a).m_tail : Int) + (k : Int)) := by
    intro k hk
    rw [← hT0]
    exact ingest_cells b (ingest s a) (by omega) k hk
  have hmain := drainLoop_ext now (ingest (ingest s a) b).m_ringBuffer
    (ingest (ingest s a) b).m_head BUFFER_SIZE (ingest s a) BUFFER_SIZE
    (by have := unread_lt (ingest s a); simp only [BUFFER_SIZE]; omega)
    (by rw [← hT0]; omega) hcells
    (by rw [← hT0]; have := unread_lt (ingest (ingest s a) b); simp only [BUFFER_SIZE]; omega)
  rw [← hT0, ← hB] at hmain
  unfold readData
  rw [ingest_append, signals_append]
  exact ⟨hmain.1.symm, hmain.2.1.symm, hmain.2.2.symm⟩

/-- Claim C15: for every byte sequence of at most 127 bytes, every split of it
into two reads `a` and `b`, every content of the ring-buffer array and every
driver state with an empty ring buffer (`m_head = m_tail`), `readData` on `a`
and then on `b` ends in the same driver state (the same `m_head` and `m_tail`,
the same decoded values, flags and timer), emits the same signals in the same
order and consumes the same number of bytes as one `readData` on the whole
sequence, the clock reading being the same in the three calls. -/
theorem C15_split_independent (now : QDateTime) (s : Nhs_driver) (a b : List Nat)
    (hempty : s.m_head = s.m_tail) (hlen : (a ++ b).length ≤ 127) :
    (readData now (readData now s a).drv b).drv = (readData now s (a ++ b)).drv ∧
    (readData now (readData now s a).drv b).drv.m_head = (readData now s (a ++ b)).drv.m_head ∧
    (readData now (readData now s a).drv b).drv.m_tail = (readData now s (a ++ b)).drv.m_tail ∧
    signals ((readData now s a).out ++ (readData now (readData now s a).drv b).out)
      = signals (readData now s (a ++ b)).out ∧
    (readData now s a).consumed + (readData now (readData now s a).drv b).consumed
      = (readData now s (a ++ b)).consumed := by
  have hu : unread s = 0 := by
    unfold unread maskIndex
    rw [hempty]
    simp
  obtain ⟨h1, h2, h3⟩ := readData_split now s a b (by omega)
  exact ⟨h1, by rw [h1], by rw [h1], h2, h3⟩

/-- Claim C15 at the handshake frame followed by a sample frame (39 bytes),
split seven bytes into the second frame: both ways the driver emits the
handshake success, the silent sample and the decoded sample. -/
theorem C15_split_independent_witness :
    awaitingDriver.m_head = awaitingDriver.m_tail ∧
    ((sampleSFrame ++ sampleDFrame.take 7) ++ sampleDFrame.drop 7).length ≤ 127 ∧
    (sampleSFrame ++ sampleDFrame.take 7) ++ sampleDFrame.drop 7 = sampleSFrame ++ sampleDFrame ∧
    (readData sampleNow awaitingDriver (sampleSFrame ++ sampleDFrame.take 7)).consumed = 18 ∧
    (signals (readData sampleNow awaitingDriver (sampleSFrame ++ sampleDFrame)).out).length = 3 ∧
    signals ((readData sampleNow awaitingDriver (sampleSFrame ++ sampleDFrame.take 7)).out ++
        (readData sampleNow
          (readData sampleNow awaitingDriver (sampleSFrame ++ sampleDFrame.take 7)).drv
          (sampleDFrame.drop 7)).out)
      = signals (readData sampleNow awaitingDriver
          ((sampleSFrame ++ sampleDFrame.take 7) ++ sampleDFrame.drop 7)).out ∧
    (readData sampleNow
        (readData sampleNow awaitingDriver (sampleSFrame ++ sampleDFrame.take 7)).drv
        (sampleDFrame.drop 7)).drv.m_tail
      = (readData sampleNow awaitingDriver
          ((sampleSFrame ++ sampleDFrame.take 7) ++ sampleDFrame.drop 7)).drv.m_tail :=
  ⟨rfl, by decide, by decide, by decide, by decide,
    (C15_split_independent sampleNow awaitingDriver (sampleSFrame ++ sampleDFrame.take 7)
      (sampleDFrame.drop 7) rfl (by decide)).2.2.2.1,
    (C15_split_independent sampleNow awaitingDriver (sampleSFrame ++ sampleDFrame.take 7)
      (sampleDFrame.drop 7) rfl (by decide)).2.2.1⟩

/-- The debug lines, which are not signals, can depend on the split: for a
frame of declared length 18 with type byte `D` the checksum loop of `readData`
reads the cell after the frame.  Read alone, `oddFrame` is followed by a cell
that was never written and the mismatch line is logged; read together with the
following byte `0xAC` the sum matches, `parse_packet_ring` rejects the frame
and nothing is logged.  Either way no signal is emitted and 18 bytes are
consumed. -/
theorem readData_split_debug_line :
    (readData sampleNow newDriver oddFrame).out = [DriverOut.qDebug .checksumMismatch] ∧
    (readData sampleNow (readData sampleNow newDriver oddFrame).drv [0xAC]).out = [] ∧
    (readData sampleNow newDriver (oddFrame ++ [0xAC])).out = [] ∧
    (readData sampleNow newDriver oddFrame).consumed = 18 ∧
    (readData sampleNow newDriver (oddFrame ++ [0xAC])).consumed = 18 := by
  refine ⟨by decide, by decide, by decide, by decide, by decide⟩

/-! ## C21, C27: what a type D frame does, by the handshake flag -/

/-- The type D branch of `parse_packet_ring`, by the handshake flag. -/
theorem parse_packet_ring_D_handshake (now : QDateTime) (s : Nhs_driver) (t : Int)
    (htype : ringAt s (t + 2) = 0x44) :
    (s.m_handshakeComplete = true →
      (parse_packet_ring now s t 21).2.1.m_monitorTimer = timerStart s.m_monitorTimer 3000 ∧
      (parse_packet_ring now s t 21).2.1.m_initialSDataReceived = true ∧
      (parse_packet_ring now s t 21).2.1.m_handshakeComplete = true ∧
      (parse_packet_ring now s t 21).2.1.m_retryCount = s.m_retryCount ∧
      signals (parse_packet_ring now s t 21).2.2
        = [DriverOut.dataReceived (parse_packet_ring now s t 21).2.1.m_latestUpsData]) ∧
    (s.m_handshakeComplete = false → s.m_initialSDataReceived = false →
      (parse_packet_ring now s t 21).2.1.m_monitorTimer = s.m_monitorTimer ∧
      (parse_packet_ring now s t 21).2.1.m_initialSDataReceived = false ∧
      (parse_packet_ring now s t 21).2.1.m_handshakeComplete = false ∧
      (parse_packet_ring now s t 21).2.1.m_retryCount = s.m_retryCount ∧
      (parse_packet_ring now s t 21).2.2 = [DriverOut.qDebug .typeDParsed]) := by
  have hlp : linearPacket s t 21 2 = 0x44 := by simp [linearPacket, htype]
  unfold parse_packet_ring
  simp only [hlp, PACKET_LEN_D, MONITOR_TIMEOUT]
  rw [if_pos (by decide)]
  constructor
  · intro h
    cases hi : s.m_initialSDataReceived <;> simp [h, hi, signals, isSignal]
  · intro h hi
    simp [h, hi]

/-- Claim C27: with the handshake incomplete and no sample accepted yet
(`m_initialSDataReceived` false), the pass of the drain loop over a complete
valid type D frame emits no signal at all (so no `dataReceived` and no
`initializationSuccess`), only the parse debug line, and leaves the handshake
flag, the retry counter, the monitor timer and `m_initialSDataReceived` as they
were. -/
theorem C27_data_frame_before_handshake (now : QDateTime) (s : Nhs_driver)
    (hstart : ringAt s s.m_tail = 0xFF)
    (hlen : ringAt s ((s.m_tail : Int) + 1) = 21)
    (hcomplete : 21 ≤ unread s)
    (hvalid : frameValid s 21)
    (hincomplete : s.m_handshakeComplete = false)
    (hnone : s.m_initialSDataReceived = false) :
    ∃ it, drainStep now s = some it ∧ it.advance = 21 ∧
      it.out = [DriverOut.qDebug .typeDParsed] ∧
      signals it.out = [] ∧
      it.drv.m_handshakeComplete = false ∧
      it.drv.m_retryCount = s.m_retryCount ∧
      it.drv.m_monitorTimer = s.m_monitorTimer ∧
      it.drv.m_initialSDataReceived = false := by
  obtain ⟨ht, hg⟩ := (frameValid_iff s 21).1 hvalid
  have htype : ringAt s ((s.m_tail : Int) + 2) = 0x44 := by
    rcases ht with ⟨h1, _⟩ | ⟨_, h2⟩
    · exact h1
    · omega
  have hstep := drainStep_guarded now s 21 hstart hlen (Or.inl rfl) hcomplete hg
  obtain ⟨a1, a2, a3, a4, a5⟩ :=
    (parse_packet_ring_D_handshake now s s.m_tail htype).2 hincomplete hnone
  refine ⟨_, hstep, rfl, a5, ?_, a3, a4, a1, a2⟩
  dsimp only
  rw [a5]
  rfl

/-- Claim C27 at the sample frame `sampleDFrame` arriving while the driver
awaits the handshake answer (retry counter 1, timer at 1500 ms). -/
theorem C27_data_frame_before_handshake_witness :
    frameValid (ingest awaitingDriver sampleDFrame) 21 ∧
    (ingest awaitingDriver sampleDFrame).m_retryCount = 1 ∧
    (ingest awaitingDriver sampleDFrame).m_monitorTimer = some ⟨true, 1500⟩ ∧
    ∃ it, drainStep sampleNow (ingest awaitingDriver sampleDFrame) = some it ∧
      signals it.out = [] ∧
      it.drv.m_handshakeComplete = false ∧
      it.drv.m_retryCount = 1 ∧
      it.drv.m_monitorTimer = some ⟨true, 1500⟩ := by
  obtain ⟨it, h1, _, _, h4, h5, h6, h7, _⟩ := C27_data_frame_before_handshake sampleNow
    (ingest awaitingDriver sampleDFrame) (by decide) (by decide) (by decide)
    (by unfold frameValid typeMatches frameSum; decide) (by decide) (by decide)
  exact ⟨by unfold frameValid typeMatches frameSum; decide, by decide, by decide,
    it, h1, h4, h5, h6, h7⟩

/-! ## C22: the one-byte resynchronisation -/

/-- Claim C22: with at least 9 unread bytes, when the byte at `m_tail` is not
`0xFF`, or the declared length at `m_tail + 1` is neither 21 nor 18, the pass of
the drain loop advances `m_tail` by exactly one byte, emits nothing and changes
nothing else in the driver. -/
theorem C22_resync_one_byte (now : QDateTime) (s : Nhs_driver) (h9 : 9 ≤ unread s)
    (hbad : ringAt s s.m_tail ≠ 0xFF ∨
      (ringAt s ((s.m_tail : Int) + 1) ≠ 21 ∧ ringAt s ((s.m_tail : Int) + 1) ≠ 18)) :
    drainStep now s = some ⟨1, { s with m_tail := maskIndex ((s.m_tail : Int) + 1) }, []⟩ ∧
    unread { s with m_tail := maskIndex ((s.m_tail : Int) + 1) } = unread s - 1 := by
  have h := drainStep_skip now s h9 hbad
  refine ⟨h, ?_⟩
  have hu := drainStep_unread now s _ h
  exact hu

/-- Claim C22 at nine bytes of noise, and at a start byte followed by the
declared length 7. -/
theorem C22_resync_one_byte_witness :
    9 ≤ unread (ingest newDriver [1, 2, 3, 4, 5, 6, 7, 8, 9]) ∧
    ringAt (ingest newDriver [1, 2, 3, 4, 5, 6, 7, 8, 9])
      (ingest newDriver [1, 2, 3, 4, 5, 6, 7, 8, 9]).m_tail ≠ 0xFF ∧
    drainStep sampleNow (ingest newDriver [1, 2, 3, 4, 5, 6, 7, 8, 9])
      = some ⟨1, { ingest newDriver [1, 2, 3, 4, 5, 6, 7, 8, 9] with
          m_tail := maskIndex
            (((ingest newDriver [1, 2, 3, 4, 5, 6, 7, 8, 9]).m_tail : Int) + 1) }, []⟩ ∧
    ringAt (ingest newDriver [0xFF, 7, 3, 4, 5, 6, 7, 8, 9])
      (ingest newDriver [0xFF, 7, 3, 4, 5, 6, 7, 8, 9]).m_tail = 0xFF ∧
    drainStep sampleNow (ingest newDriver [0xFF, 7, 3, 4, 5, 6, 7, 8, 9])
      = some ⟨1, { ingest newDriver [0xFF, 7, 3, 4, 5, 6, 7, 8, 9] with
          m_tail := maskIndex
            (((ingest newDriver [0xFF, 7, 3, 4, 5, 6, 7, 8, 9]).m_tail : Int) + 1) }, []⟩ :=
  ⟨by decide, by decide,
    (C22_resync_one_byte sampleNow (ingest newDriver [1, 2, 3, 4, 5, 6, 7, 8, 9]) (by decide)
      (Or.inl (by decide))).1,
    by decide,
    (C22_resync_one_byte sampleNow (ingest newDriver [0xFF, 7, 3, 4, 5, 6, 7, 8, 9]) (by decide)
      (Or.inr (by decide))).1⟩

/-! ## C25: the values decoded from a type D frame -/

/-- Claim C26: for every driver state (any cursors, any buffer contents), a
pass of the drain loop that does not leave the loop advances `m_tail` by at
least 1 and at most the unread count, so the unread count `(m_head - m_tail)
mod 128` drops by that amount and strictly decreases; the unread count is below
128, so the loop ends within 128 passes: after them the loop condition or a
`break` ends it, more passes change nothing, and every `readData` call
returns with the loop ended. -/
theorem C26_drain_loop_terminates (now : QDateTime) (s : Nhs_driver) :
    (∀ it, drainStep now s = some it →
      1 ≤ it.advance ∧ it.advance ≤ unread s ∧
      it.drv.m_tail = maskIndex ((s.m_tail : Int) + it.advance) ∧
      it.drv.m_head = s.m_head ∧
      unread it.drv = unread s - it.advance ∧
      unread it.drv < unread s) ∧
    unread s < 128 ∧
    drainStep now (drainLoop now BUFFER_SIZE s).drv = none ∧
    (∀ fuel, BUFFER_SIZE ≤ fuel → drainLoop now fuel s = drainLoop now BUFFER_SIZE s) ∧
    (∀ newData, drainStep now (readData now s newData).drv = none) := by
  have hlt := unread_lt s
  refine ⟨?_, hlt, ?_, ?_, fun newData => readData_loop_ended now s newData⟩
  · intro it h
    obtain ⟨h1, h2, h3, h4, _⟩ := drainStep_cursor now s it h
    have hu := drainStep_unread now s it h
    exact ⟨h1, h2, h4, h3, hu, by omega⟩
  · exact drainLoop_exits now BUFFER_SIZE s (by simp only [BUFFER_SIZE]; omega)
  · intro fuel hfuel
    simp only [BUFFER_SIZE] at hfuel
    exact drainLoop_fuel now fuel BUFFER_SIZE s (by omega) (by simp only [BUFFER_SIZE]; omega)

/-- Claim C26 at the buffer holding the handshake frame and a sample frame: the
first pass advances by the 18 bytes of the handshake frame. -/
theorem C26_drain_loop_terminates_witness :
    unread (ingest awaitingDriver (sampleSFrame ++ sampleDFrame)) = 39 ∧
    ∃ it, drainStep sampleNow (ingest awaitingDriver (sampleSFrame ++ sampleDFrame)) = some it ∧
      it.advance = 18 ∧
      unread it.drv = unread (ingest awaitingDriver (sampleSFrame ++ sampleDFrame)) - it.advance ∧
      unread it.drv < unread (ingest awaitingDriver (sampleSFrame ++ sampleDFrame)) := by
  have h1 := drainStep_guarded sampleNow (ingest awaitingDriver (sampleSFrame ++ sampleDFrame)) 18
    (by decide) (by decide) (Or.inr rfl) (by decide)
    ((frameValid_iff _ 18).1 (by unfold frameValid typeMatches frameSum; decide)).2
  exact ⟨by decide, _, h1, rfl,
    ((C26_drain_loop_terminates sampleNow
      (ingest awaitingDriver (sampleSFrame ++ sampleDFrame))).1 _ h1).2.2.2.2.1,
    ((C26_drain_loop_terminates sampleNow
      (ingest awaitingDriver (sampleSFrame ++ sampleDFrame))).1 _ h1).2.2.2.2.2⟩

/-! ## C23: a frame that fails to deserialize -/

/-- The server pass over a fully received frame whose map does not
deserialize, with the prefix read in this call. -/
theorem readyRead_fail_fresh (srv : UpsIpcServer) (sender : Nat)
    (hcur : srv.blockSize = 0)
    (hhdr : ¬ (srv.available sender).length < 4)
    (hfull : ¬ (readUInt32 ⟨srv.available sender, StreamStatus.Ok⟩).2.device.length
      < (readUInt32 ⟨srv.available sender, StreamStatus.Ok⟩).1 % 4294967296)
    (hfail : (readQMap ⟨(readUInt32 ⟨srv.available sender, StreamStatus.Ok⟩).2.device,
      StreamStatus.Ok⟩).2.status ≠ StreamStatus.Ok) :
    readyRead srv sender
      = ⟨{ srv with
            blockSize := 0
            available := setAvailable srv.available sender
              (readQMap ⟨(readUInt32 ⟨srv.available sender, StreamStatus.Ok⟩).2.device,
                StreamStatus.Ok⟩).2.device },
          none, []⟩ := by
  unfold readyRead
  dsimp only
  rw [if_pos hcur, if_neg hhdr]
  dsimp only
  rw [if_neg hfull, if_neg hfail]

/-- The server pass over a fully received frame whose map does not
deserialize, with the prefix read in an earlier call. -/
theorem readyRead_fail_pending (srv : UpsIpcServer) (sender : Nat)
    (hcur : srv.blockSize ≠ 0)
    (hfull : ¬ (srv.available sender).length < srv.blockSize)
    (hfail : (readQMap ⟨srv.available sender, StreamStatus.Ok⟩).2.status ≠ StreamStatus.Ok) :
    readyRead srv sender
      = ⟨{ srv with
            blockSize := 0
            available := setAvailable srv.available sender
              (readQMap ⟨srv.available sender, StreamStatus.Ok⟩).2.device },
          none, []⟩ := by
  unfold readyRead
  dsimp only
  rw [if_neg hcur]
  dsimp only
  rw [if_neg hfull, if_neg hfail]

/-- With the cursor at 0 the server takes the first four bytes available as a
length prefix. -/
theorem readyRead_prefix (srv : UpsIpcServer) (sender : Nat)
    (hcur : srv.blockSize = 0)
    (hhdr : ¬ (srv.available sender).length < 4)
    (hpart : (readUInt32 ⟨srv.available sender, StreamStatus.Ok⟩).2.device.length
      < (readUInt32 ⟨srv.available sender, StreamStatus.Ok⟩).1 % 4294967296) :
    (readyRead srv sender).srv.blockSize
      = beValue ((srv.available sender).take 4) % 4294967296 := by
  have hval : (readUInt32 ⟨srv.available sender, StreamStatus.Ok⟩).1
      = beValue ((srv.available sender).take 4) := by
    unfold readUInt32 readUnsigned readBlock
    dsimp only
    rw [if_pos (by omega)]
  unfold readyRead
  dsimp only
  rw [if_pos hcur, if_neg hhdr]
  dsimp only
  rw [if_pos hpart, hval]

/-- The client pass over a fully received frame whose report does not
deserialize, with the prefix read in this call. -/
theorem socketReadLoop_fail_fresh (fuel : Nat) (app : SystemTrayApp)
    (hcur : app.m_nextBlockSize = 0)
    (hhdr : ¬ app.socket.length < 4)
    (hfull : ¬ (readUInt32 ⟨app.socket, StreamStatus.Ok⟩).2.device.length
      < (readUInt32 ⟨app.socket, StreamStatus.Ok⟩).1 % 4294967296)
    (hfail : (operatorIn (readUInt32 ⟨app.socket, StreamStatus.Ok⟩).2).2.status
      ≠ StreamStatus.Ok) :
    socketReadLoop (fuel + 1) app StreamStatus.Ok
      = ({ m_nextBlockSize := 0
           socket := (operatorIn (readUInt32 ⟨app.socket, StreamStatus.Ok⟩).2).2.device },
          [TrayOut.streamError]) := by
  rw [socketReadLoop]
  rw [if_pos hcur]
  rw [if_neg hhdr]
  dsimp only
  rw [if_neg hfull, if_neg hfail]

/-- The client pass over a fully received frame whose report does not
deserialize, with the prefix read in an earlier call. -/
theorem socketReadLoop_fail_pending (fuel : Nat) (app : SystemTrayApp)
    (hcur : app.m_nextBlockSize ≠ 0)
    (hfull : ¬ app.socket.length < app.m_nextBlockSize)
    (hfail : (operatorIn ⟨app.socket, StreamStatus.Ok⟩).2.status ≠ StreamStatus.Ok) :
    socketReadLoop (fuel + 1) app StreamStatus.Ok
      = ({ m_nextBlockSize := 0, socket := (operatorIn ⟨app.socket, StreamStatus.Ok⟩).2.device },
          [TrayOut.streamError]) := by
  rw [socketReadLoop]
  rw [if_neg hcur]
  dsimp only
  rw [if_neg hfull, if_neg hfail]

/-- With the cursor at 0 the client takes the first four bytes available as a
length prefix. -/
theorem socketReadLoop_prefix (fuel : Nat) (app : SystemTrayApp)
    (hcur : app.m_nextBlockSize = 0)
    (hhdr : ¬ app.socket.length < 4)
    (hpart : (readUInt32 ⟨app.socket, StreamStatus.Ok⟩).2.device.length
      < (readUInt32 ⟨app.socket, StreamStatus.Ok⟩).1 % 4294967296) :
    (socketReadLoop (fuel + 1) app StreamStatus.Ok).1.m_nextBlockSize
      = beValue (app.socket.take 4) % 4294967296 := by
  have hval : (readUInt32 ⟨app.socket, StreamStatus.Ok⟩).1 = beValue (app.socket.take 4) := by
    unfold readUInt32 readUnsigned readBlock
    dsimp only
    rw [if_pos (by omega)]
  rw [socketReadLoop]
  rw [if_pos hcur]
  rw [if_neg hhdr]
  dsimp only
  rw [if_pos hpart, hval]

/-- Claim C23: when a length-prefixed frame is fully received (its prefix read
in this call or in an earlier one) and its payload leaves the stream status not
Ok, the server hands no map to `processCommand`, does nothing to the store and
leaves `blockSize` at 0; the client handles no report (it only logs the stream
error) and leaves `m_nextBlockSize` at 0.  With the cursor at 0 either receiver
takes the next four bytes available as a length prefix. -/
theorem C23_failed_frame_resets_cursor (srv : UpsIpcServer) (sender : Nat) (fuel : Nat)
    (app : SystemTrayApp) :
    (srv.blockSize = 0 → ¬ (srv.available sender).length < 4 →
      ¬ (readUInt32 ⟨srv.available sender, StreamStatus.Ok⟩).2.device.length
        < (readUInt32 ⟨srv.available sender, StreamStatus.Ok⟩).1 % 4294967296 →
      (readQMap ⟨(readUInt32 ⟨srv.available sender, StreamStatus.Ok⟩).2.device,
        StreamStatus.Ok⟩).2.status ≠ StreamStatus.Ok →
      (readyRead srv sender).command = none ∧ (readyRead srv sender).out = [] ∧
      (readyRead srv sender).srv.blockSize = 0 ∧
      (readyRead srv sender).srv.settings = srv.settings) ∧
    (srv.blockSize ≠ 0 → ¬ (srv.available sender).length < srv.blockSize →
      (readQMap ⟨srv.available sender, StreamStatus.Ok⟩).2.status ≠ StreamStatus.Ok →
      (readyRead srv sender).command = none ∧ (readyRead srv sender).out = [] ∧
      (readyRead srv sender).srv.blockSize = 0 ∧
      (readyRead srv sender).srv.settings = srv.settings) ∧
    (srv.blockSize = 0 → ¬ (srv.available sender).length < 4 →
      (readUInt32 ⟨srv.available sender, StreamStatus.Ok⟩).2.device.length
        < (readUInt32 ⟨srv.available sender, StreamStatus.Ok⟩).1 % 4294967296 →
      (readyRead srv sender).srv.blockSize
        = beValue ((srv.available sender).take 4) % 4294967296) ∧
    (app.m_nextBlockSize = 0 → ¬ app.socket.length < 4 →
      ¬ (readUInt32 ⟨app.socket, StreamStatus.Ok⟩).2.device.length
        < (readUInt32 ⟨app.socket, StreamStatus.Ok⟩).1 % 4294967296 →
      (operatorIn (readUInt32 ⟨app.socket, StreamStatus.Ok⟩).2).2.status ≠ StreamStatus.Ok →
      (socketReadLoop (fuel + 1) app StreamStatus.Ok).2 = [TrayOut.streamError] ∧
      (socketReadLoop (fuel + 1) app StreamStatus.Ok).1.m_nextBlockSize = 0) ∧
    (app.m_nextBlockSize ≠ 0 → ¬ app.socket.length < app.m_nextBlockSize →
      (operatorIn ⟨app.socket, StreamStatus.Ok⟩).2.status ≠ StreamStatus.Ok →
      (socketReadLoop (fuel + 1) app StreamStatus.Ok).2 = [TrayOut.streamError] ∧
      (socketReadLoop (fuel + 1) app StreamStatus.Ok).1.m_nextBlockSize = 0) ∧
    (app.m_nextBlockSize = 0 → ¬ app.socket.length < 4 →
      (readUInt32 ⟨app.socket, StreamStatus.Ok⟩).2.device.length
        < (readUInt32 ⟨app.socket, StreamStatus.Ok⟩).1 % 4294967296 →
      (socketReadLoop (fuel + 1) app StreamStatus.Ok).1.m_nextBlockSize
        = beValue (app.socket.take 4) % 4294967296) := by
  refine ⟨?_, ?_, readyRead_prefix srv sender, ?_, ?_, socketReadLoop_prefix fuel app⟩
  · intro h1 h2 h3 h4
    rw [readyRead_fail_fresh srv sender h1 h2 h3 h4]
    exact ⟨rfl, rfl, rfl, rfl⟩
  · intro h1 h2 h3
    rw [readyRead_fail_pending srv sender h1 h2 h3]
    exact ⟨rfl, rfl, rfl, rfl⟩
  · intro h1 h2 h3 h4
    rw [socketReadLoop_fail_fresh fuel app h1 h2 h3 h4]
    exact ⟨rfl, rfl⟩
  · intro h1 h2 h3
    rw [socketReadLoop_fail_pending fuel app h1 h2 h3]
    exact ⟨rfl, rfl⟩

set_option maxRecDepth 100000 in
/-- Claim C23 at a complete server frame that announces a pair it does not
hold, and at a complete client frame of two bytes. -/
theorem C23_failed_frame_resets_cursor_witness :
    (readQMap ⟨(readUInt32 ⟨garbledCommandServer.available 0, StreamStatus.Ok⟩).2.device,
      StreamStatus.Ok⟩).2.status = StreamStatus.ReadPastEnd ∧
    ((readyRead garbledCommandServer 0).command = none ∧
      (readyRead garbledCommandServer 0).out = [] ∧
      (readyRead garbledCommandServer 0).srv.blockSize = 0 ∧
      (readyRead garbledCommandServer 0).srv.settings = garbledCommandServer.settings) ∧
    (operatorIn (readUInt32 ⟨garbledReportApp.socket, StreamStatus.Ok⟩).2).2.status
      = StreamStatus.ReadPastEnd ∧
    socketReadyRead garbledReportApp = (⟨0, []⟩, [TrayOut.streamError]) ∧
    ((socketReadLoop (6 + 1) garbledReportApp StreamStatus.Ok).2 = [TrayOut.streamError] ∧
      (socketReadLoop (6 + 1) garbledReportApp StreamStatus.Ok).1.m_nextBlockSize = 0) :=
  ⟨by decide,
    (C23_failed_frame_resets_cursor garbledCommandServer 0 6 garbledReportApp).1
      (by decide) (by decide) (by decide) (by decide),
    by decide, by decide,
    (C23_failed_frame_resets_cursor garbledCommandServer 0 6 garbledReportApp).2.2.2.1
      (by decide) (by decide) (by decide) (by decide)⟩

/-! ## C24: the defaults of the configuration store -/

theorem initializeRegistry_absent (st : Settings)
    (h : st.contains AppConstants.REG_KEY_SHUTDOWN_DELAY = false) :
    (initializeRegistry st).1 = withDefaults st := by
  unfold initializeRegistry
  rw [if_pos (by rw [h]; decide)]
  funext k
  simp only [Settings.setValue, withDefaults]

theorem initializeRegistry_present (st : Settings)
    (h : st.contains AppConstants.REG_KEY_SHUTDOWN_DELAY = true) :
    initializeRegistry st = (st, [MonitorOut.qDebug .existingSettingsFound]) := by
  unfold initializeRegistry
  rw [if_neg (by rw [h]; decide)]

theorem withDefaults_keys (st : Settings) :
    withDefaults st AppConstants.REG_KEY_SHUTDOWN_DELAY.units = some (QVariant.int 30) ∧
    withDefaults st AppConstants.REG_KEY_POWER_SAFE_ENABLED.units = some (QVariant.bool false) ∧
    withDefaults st AppConstants.REG_KEY_SELECTED_DRIVER_FILE.units
      = some (QVariant.string (QString.lit "template_driver.dll")) ∧
    withDefaults st AppConstants.REG_KEY_SELECTED_COM_PORT.units
      = some (QVariant.string (QString.lit "COM1")) := by
  have h1 : AppConstants.REG_KEY_SHUTDOWN_DELAY.units ≠ AppConstants.REG_KEY_SELECTED_COM_PORT.units := by
    decide
  have h2 : AppConstants.REG_KEY_SHUTDOWN_DELAY.units
      ≠ AppConstants.REG_KEY_SELECTED_DRIVER_FILE.units := by decide
  have h3 : AppConstants.REG_KEY_SHUTDOWN_DELAY.units
      ≠ AppConstants.REG_KEY_POWER_SAFE_ENABLED.units := by decide
  have h4 : AppConstants.REG_KEY_POWER_SAFE_ENABLED.units
      ≠ AppConstants.REG_KEY_SELECTED_COM_PORT.units := by decide
  have h5 : AppConstants.REG_KEY_POWER_SAFE_ENABLED.units
      ≠ AppConstants.REG_KEY_SELECTED_DRIVER_FILE.units := by decide
  have h6 : AppConstants.REG_KEY_SELECTED_DRIVER_FILE.units
      ≠ AppConstants.REG_KEY_SELECTED_COM_PORT.units := by decide
  unfold withDefaults
  refine ⟨?_, ?_, ?_, ?_⟩
  · rw [if_neg h1, if_neg h2, if_neg h3, if_pos rfl]
  · rw [if_neg h4, if_neg h5, if_pos rfl]
  · rw [if_neg h6, if_pos rfl]
  · rw [if_pos rfl]

theorem withDefaults_contains (st : Settings) :
    (withDefaults st).contains AppConstants.REG_KEY_SHUTDOWN_DELAY = true := by
  unfold Settings.contains
  rw [(withDefaults_keys st).1]
  rfl

/-- Claim C24 (as amended): `initializeRegistry` looks at the shutdown-delay key
only.  When that key is absent the four keys are written: afterwards
shutdown-delay is 30, power-safe-enabled false, the driver
`template_driver.dll` and the port `COM1`, whatever the other three held
before, and every other key keeps its value.  When that key is present the
store is left as it is and nothing is written.  A second call changes nothing
and writes nothing. -/
theorem C24_defaults_by_delay_key (st : Settings) :
    (st.contains AppConstants.REG_KEY_SHUTDOWN_DELAY = false →
      (initializeRegistry st).1 AppConstants.REG_KEY_SHUTDOWN_DELAY.units
        = some (QVariant.int 30) ∧
      (initializeRegistry st).1 AppConstants.REG_KEY_POWER_SAFE_ENABLED.units
        = some (QVariant.bool false) ∧
      (initializeRegistry st).1 AppConstants.REG_KEY_SELECTED_DRIVER_FILE.units
        = some (QVariant.string (QString.lit "template_driver.dll")) ∧
      (initializeRegistry st).1 AppConstants.REG_KEY_SELECTED_COM_PORT.units
        = some (QVariant.string (QString.lit "COM1")) ∧
      (∀ k, k ≠ AppConstants.REG_KEY_SHUTDOWN_DELAY.units →
        k ≠ AppConstants.REG_KEY_POWER_SAFE_ENABLED.units →
        k ≠ AppConstants.REG_KEY_SELECTED_DRIVER_FILE.units →
        k ≠ AppConstants.REG_KEY_SELECTED_COM_PORT.units →
        (initializeRegistry st).1 k = st k)) ∧
    (st.contains AppConstants.REG_KEY_SHUTDOWN_DELAY = true →
      initializeRegistry st = (st, [MonitorOut.qDebug .existingSettingsFound])) ∧
    initializeRegistry (initializeRegistry st).1
      = ((initializeRegistry st).1, [MonitorOut.qDebug .existingSettingsFound]) := by
  refine ⟨?_, initializeRegistry_present st, ?_⟩
  · intro h
    rw [initializeRegistry_absent st h]
    obtain ⟨k1, k2, k3, k4⟩ := withDefaults_keys st
    refine ⟨k1, k2, k3, k4, ?_⟩
    intro k h1 h2 h3 h4
    simp only [withDefaults, h1, h2, h3, h4, if_false]
  · cases h : st.contains AppConstants.REG_KEY_SHUTDOWN_DELAY with
    | true =>
      rw [initializeRegistry_present st h]
      exact initializeRegistry_present st h
    | false =>
      rw [initializeRegistry_absent st h]
      exact initializeRegistry_present _ (withDefaults_contains st)

/-- Claim C24 (as amended) at the empty store and at the store that holds only
a delay of 60. -/
theorem C24_defaults_by_delay_key_witness :
    Settings.contains (fun _ => none) AppConstants.REG_KEY_SHUTDOWN_DELAY = false ∧
    (initializeRegistry (fun _ => none)).1 AppConstants.REG_KEY_SHUTDOWN_DELAY.units
      = some (QVariant.int 30) ∧
    (initializeRegistry (fun _ => none)).1 AppConstants.REG_KEY_SELECTED_COM_PORT.units
      = some (QVariant.string (QString.lit "COM1")) ∧
    delayOnlySettings.contains AppConstants.REG_KEY_SHUTDOWN_DELAY = true ∧
    initializeRegistry delayOnlySettings
      = (delayOnlySettings, [MonitorOut.qDebug .existingSettingsFound]) :=
  ⟨by decide,
    ((C24_defaults_by_delay_key (fun _ => none)).1 (by decide)).1,
    ((C24_defaults_by_delay_key (fun _ => none)).1 (by decide)).2.2.2.1,
    by decide,
    (C24_defaults_by_delay_key delayOnlySettings).2.1 (by decide)⟩

/-- Claim C24 (counterexample): the store `sampleSettings` holds the driver
`nhs_driver.dll` and the port `COM7` but no shutdown delay; after
`initializeRegistry` the two present keys hold `template_driver.dll` and
`COM1`.  The store `delayOnlySettings` holds only the shutdown delay; after
`initializeRegistry` power-safe-enabled, driver and port are still absent. -/
theorem C24_counterexample :
    sampleSettings AppConstants.REG_KEY_SELECTED_DRIVER_FILE.units
      = some (QVariant.string (QString.lit "nhs_driver.dll")) ∧
    sampleSettings AppConstants.REG_KEY_SELECTED_COM_PORT.units
      = some (QVariant.string (QString.lit "COM7")) ∧
    (initializeRegistry sampleSettings).1 AppConstants.REG_KEY_SELECTED_DRIVER_FILE.units
      = some (QVariant.string (QString.lit "template_driver.dll")) ∧
    (initializeRegistry sampleSettings).1 AppConstants.REG_KEY_SELECTED_COM_PORT.units
      = some (QVariant.string (QString.lit "COM1")) ∧
    delayOnlySettings AppConstants.REG_KEY_SHUTDOWN_DELAY.units = some (QVariant.int 60) ∧
    (initializeRegistry delayOnlySettings).1 AppConstants.REG_KEY_POWER_SAFE_ENABLED.units
      = none ∧
    (initializeRegistry delayOnlySettings).1 AppConstants.REG_KEY_SELECTED_DRIVER_FILE.units
      = none ∧
    (initializeRegistry delayOnlySettings).1 AppConstants.REG_KEY_SELECTED_COM_PORT.units
      = none := by
  refine ⟨by decide, by decide, by decide, by decide, by decide, by decide, by decide,
    by decide⟩

/-! ## C28: the shutdown countdown is pending only in a shutdown state -/

theorem setPowerMode_keeps (c : UpsMonitorCore) (b : Bool) :
    (setPowerMode c b).1.m_isTimerRunning = c.m_isTimerRunning ∧
    (setPowerMode c b).1.m_lastState = c.m_lastState ∧
    (setPowerMode c b).1.m_shutdownTimer = c.m_shutdownTimer ∧
    (setPowerMode c b).1.m_cpuRecoveryTimer = c.m_cpuRecoveryTimer ∧
    (setPowerMode c b).1.m_shutdownDelay = c.m_shutdownDelay ∧
    (setPowerMode c b).1.m_powerSafeEnabled = c.m_powerSafeEnabled := by
  unfold setPowerMode
  split_ifs <;> exact ⟨rfl, rfl, rfl, rfl, rfl, rfl⟩

theorem knownState_cases (u : UpsState) (h : knownState u) :
    u = UpsState.Unknown ∨ u = UpsState.OnlineFull ∨ u = UpsState.OnlineCharging ∨
    u = UpsState.OnlineFault ∨ u = UpsState.OnBattery ∨ u = UpsState.BatteryCritical := by
  cases u with
  | mk val =>
    unfold knownState at h
    simp only at h
    have hv : val = 0 ∨ val = 1 ∨ val = 2 ∨ val = 3 ∨ val = 4 ∨ val = 5 := by omega
    rcases hv with h0 | h0 | h0 | h0 | h0 | h0 <;> subst h0 <;> simp [UpsState.Unknown,
      UpsState.OnlineFull, UpsState.OnlineCharging, UpsState.OnlineFault, UpsState.OnBattery,
      UpsState.BatteryCritical]

/-- A report with data-active false leaves no shutdown pending. -/
theorem handleUpsReport_inactive (c : UpsMonitorCore) (r : UpsReport)
    (hinv : shutdownInvariant c)
    (h : r.serviceStatus.dataCommunicationActive = false) :
    (handleUpsReport c r).1.m_isTimerRunning = false ∧
    (handleUpsReport c r).1.m_shutdownTimer.active = false ∧
    (handleUpsReport c r).1.m_lastState = UpsState.Unknown := by
  unfold handleUpsReport
  rw [if_pos (by rw [h]; decide)]
  cases hrun : c.m_isTimerRunning with
  | true => simp [QIntervalTimer.stop]
  | false =>
    have hact : c.m_shutdownTimer.active = false := by
      cases ha : c.m_shutdownTimer.active with
      | false => rfl
      | true => have := hinv.2 ha; rw [hrun] at this; cases this
    simp [hrun, hact]

/-- A report of a live sample in state OnlineFull or OnlineCharging leaves no
shutdown pending. -/
theorem handleUpsReport_online (c : UpsMonitorCore) (r : UpsReport)
    (hinv : shutdownInvariant c)
    (h : r.serviceStatus.dataCommunicationActive = true)
    (hs : r.data.state = UpsState.OnlineFull ∨ r.data.state = UpsState.OnlineCharging) :
    (handleUpsReport c r).1.m_isTimerRunning = false ∧
    (handleUpsReport c r).1.m_shutdownTimer.active = false ∧
    (handleUpsReport c r).1.m_lastState = r.data.state := by
  have hne : r.data.state ≠ UpsState.Unknown := by
    rcases hs with hs | hs <;> rw [hs] <;> decide
  have hnd : ¬ (r.data.state = UpsState.OnBattery ∨ r.data.state = UpsState.BatteryCritical ∨
      r.data.state = UpsState.OnlineFault) := by
    rcases hs with hs | hs <;> rw [hs] <;> decide
  unfold handleUpsReport
  rw [if_neg (by rw [h]; decide)]
  dsimp only
  rw [if_neg hne]
  by_cases hsame : r.data.state = c.m_lastState
  · rw [if_pos hsame]
    have hnot : ¬ shutdownState c.m_lastState := by
      rw [← hsame]
      exact hnd
    have hrun : c.m_isTimerRunning = false := by
      cases hr : c.m_isTimerRunning with
      | false => rfl
      | true => exact absurd (hinv.1 hr) hnot
    have hact : c.m_shutdownTimer.active = false := by
      cases ha : c.m_shutdownTimer.active with
      | false => rfl
      | true => have := hinv.2 ha; rw [hrun] at this; cases this
    exact ⟨hrun, hact, hsame.symm⟩
  · rw [if_neg hsame, if_neg hnd, if_pos hs]
    cases hrun : c.m_isTimerRunning with
    | true =>
      simp only [if_true]
      split_ifs <;> simp [QIntervalTimer.stop]
    | false =>
      have hact : c.m_shutdownTimer.active = false := by
        cases ha : c.m_shutdownTimer.active with
        | false => rfl
        | true => have := hinv.2 ha; rw [hrun] at this; cases this
      simp only [Bool.false_eq_true, if_false]
      split_ifs <;> simp [hrun, hact]

theorem handleUpsReport_inv (c : UpsMonitorCore) (r : UpsReport)
    (hinv : shutdownInvariant c) (hk : knownState r.data.state) :
    shutdownInvariant (handleUpsReport c r).1 := by
  cases hact : r.serviceStatus.dataCommunicationActive with
  | false =>
    obtain ⟨h1, h2, _⟩ := handleUpsReport_inactive c r hinv hact
    exact ⟨fun h => (by rw [h1] at h; cases h), fun h => (by rw [h2] at h; cases h)⟩
  | true =>
    rcases knownState_cases _ hk with hs | hs | hs | hs | hs | hs
    · have : handleUpsReport c r = (c, []) := by
        unfold handleUpsReport
        rw [if_neg (by rw [hact]; decide)]
        dsimp only
        rw [if_pos hs]
      rw [this]
      exact hinv
    · obtain ⟨h1, h2, _⟩ := handleUpsReport_online c r hinv hact (Or.inl hs)
      exact ⟨fun h => (by rw [h1] at h; cases h), fun h => (by rw [h2] at h; cases h)⟩
    · obtain ⟨h1, h2, _⟩ := handleUpsReport_online c r hinv hact (Or.inr hs)
      exact ⟨fun h => (by rw [h1] at h; cases h), fun h => (by rw [h2] at h; cases h)⟩
    all_goals
      by_cases hsame : r.data.state = c.m_lastState
      · have : handleUpsReport c r = (c, []) := by
          unfold handleUpsReport
          rw [if_neg (by rw [hact]; decide)]
          dsimp only
          rw [if_neg (by rw [hs]; decide), if_pos hsame]
        rw [this]
        exact hinv
      · rw [hs] at hsame
        obtain ⟨⟨sa, si⟩, ⟨ca, ci⟩, run, last, mode, delay, ps⟩ := c
        unfold shutdownInvariant shutdownState at *
        unfold handleUpsReport setPowerMode
        simp only [hact, hs] at *
        by_cases hdel : 0 < delay
        · cases ca <;> cases run <;> cases mode <;> cases sa <;>
            simp_all [QIntervalTimer.start, QIntervalTimer.stop, UpsState.Unknown,
              UpsState.OnlineFull, UpsState.OnlineCharging, UpsState.OnlineFault,
              UpsState.OnBattery, UpsState.BatteryCritical]
        · cases ca <;> cases run <;> cases mode <;> cases sa <;>
            simp_all [QIntervalTimer.start, QIntervalTimer.stop, UpsState.Unknown,
              UpsState.OnlineFull, UpsState.OnlineCharging, UpsState.OnlineFault,
              UpsState.OnBattery, UpsState.BatteryCritical] <;>
            rw [if_neg (by omega)] <;> simp

theorem loadSettings_inv (st : Settings) (c : UpsMonitorCore) (hinv : shutdownInvariant c) :
    shutdownInvariant (loadSettings st c).1 ∧
    (loadSettings st c).1.m_lastState = c.m_lastState := by
  have hk := fun (x : UpsMonitorCore) (b : Bool) => setPowerMode_keeps x b
  unfold shutdownInvariant at *
  obtain ⟨h1, h2⟩ := hinv
  unfold loadSettings
  dsimp only
  split_ifs <;>
    simp only [(hk _ _).1, (hk _ _).2.1, (hk _ _).2.2.1, QIntervalTimer.start,
      QIntervalTimer.stop, QIntervalTimer.setInterval] <;>
    simp_all

theorem executeShutdown_inv (c : UpsMonitorCore) (hinv : shutdownInvariant c) :
    shutdownInvariant (executeShutdown c).1 := by
  obtain ⟨k1, k2, k3, _, _, _⟩ :=
    setPowerMode_keeps { c with m_shutdownTimer := c.m_shutdownTimer.stop } false
  unfold executeShutdown shutdownInvariant
  dsimp only
  rw [k1, k2, k3]
  exact ⟨hinv.1, fun h => (by simp [QIntervalTimer.stop] at h)⟩

theorem restoreCpuSpeed_inv (c : UpsMonitorCore) (hinv : shutdownInvariant c) :
    shutdownInvariant (restoreCpuSpeed c).1 := by
  obtain ⟨k1, k2, k3, _, _, _⟩ :=
    setPowerMode_keeps { c with m_cpuRecoveryTimer := c.m_cpuRecoveryTimer.stop } false
  unfold restoreCpuSpeed shutdownInvariant
  rw [k1, k2, k3]
  exact hinv

theorem checkAndFixPowerProfile_keeps (c : UpsMonitorCore) (b : Bool) :
    (checkAndFixPowerProfile c b).1.m_isTimerRunning = c.m_isTimerRunning ∧
    (checkAndFixPowerProfile c b).1.m_lastState = c.m_lastState ∧
    (checkAndFixPowerProfile c b).1.m_shutdownTimer = c.m_shutdownTimer ∧
    (checkAndFixPowerProfile c b).1.m_shutdownDelay = c.m_shutdownDelay ∧
    (checkAndFixPowerProfile c b).1.m_powerSafeEnabled = c.m_powerSafeEnabled := by
  obtain ⟨k1, k2, k3, _, k5, k6⟩ := setPowerMode_keeps c false
  unfold checkAndFixPowerProfile
  split_ifs
  · exact ⟨k1, k2, k3, k5, k6⟩
  · exact ⟨rfl, rfl, rfl, rfl, rfl⟩

/-- What `loadSettings` leaves in the members it reads from the store, and in
the interval of the shutdown timer. -/
theorem loadSettings_values (st : Settings) (c : UpsMonitorCore) :
    (loadSettings st c).1.m_shutdownDelay = st.valueInt AppConstants.REG_KEY_SHUTDOWN_DELAY 30 ∧
    (loadSettings st c).1.m_powerSafeEnabled
      = st.valueBool AppConstants.REG_KEY_POWER_SAFE_ENABLED false ∧
    (loadSettings st c).1.m_shutdownTimer.interval
      = wrapInt32 (st.valueInt AppConstants.REG_KEY_SHUTDOWN_DELAY 30 * 1000) := by
  unfold loadSettings setPowerMode
  dsimp only
  refine ⟨?_, ?_, ?_⟩ <;> split_ifs <;> rfl

/-- The constructed policy engine: nothing pending, last state Unknown, the
delay and the power-safe setting as stored (after the defaults were seeded),
and the shutdown timer with the interval 30000 of the constructor. -/
theorem UpsMonitorCore_new_state (st : Settings) (delay0 : Int) (powerSafe0 : Bool)
    (powerSaverActive : Bool) :
    (UpsMonitorCore.new st delay0 powerSafe0 powerSaverActive).2.1.m_isTimerRunning = false ∧
    (UpsMonitorCore.new st delay0 powerSafe0 powerSaverActive).2.1.m_lastState
      = UpsState.Unknown ∧
    (UpsMonitorCore.new st delay0 powerSafe0 powerSaverActive).2.1.m_shutdownTimer
      = ⟨false, 30000⟩ ∧
    (UpsMonitorCore.new st delay0 powerSafe0 powerSaverActive).2.1.m_shutdownDelay
      = (initializeRegistry st).1.valueInt AppConstants.REG_KEY_SHUTDOWN_DELAY 30 ∧
    (UpsMonitorCore.new st delay0 powerSafe0 powerSaverActive).2.1.m_powerSafeEnabled
      = (initializeRegistry st).1.valueBool AppConstants.REG_KEY_POWER_SAFE_ENABLED false := by
  have hinv0 : shutdownInvariant
      { m_shutdownTimer := { active := false, interval := 0 }
        m_cpuRecoveryTimer := { active := false, interval := 0 }
        m_isTimerRunning := false
        m_lastState := UpsState.Unknown
        m_currentPowerModeIsBattery := false
        m_shutdownDelay := delay0
        m_powerSafeEnabled := powerSafe0 } :=
    ⟨fun h => (by cases h), fun h => (by cases h)⟩
  obtain ⟨⟨i1, i2⟩, i3⟩ := loadSettings_inv (initializeRegistry st).1 _ hinv0
  obtain ⟨v1, v2, _⟩ := loadSettings_values (initializeRegistry st).1
      { m_shutdownTimer := { active := false, interval := 0 }
        m_cpuRecoveryTimer := { active := false, interval := 0 }
        m_isTimerRunning := false
        m_lastState := UpsState.Unknown
        m_currentPowerModeIsBattery := false
        m_shutdownDelay := delay0
        m_powerSafeEnabled := powerSafe0 }
  have hrun : (loadSettings (initializeRegistry st).1
      { m_shutdownTimer := { active := false, interval := 0 }
        m_cpuRecoveryTimer := { active := false, interval := 0 }
        m_isTimerRunning := false
        m_lastState := UpsState.Unknown
        m_currentPowerModeIsBattery := false
        m_shutdownDelay := delay0
        m_powerSafeEnabled := powerSafe0 }).1.m_isTimerRunning = false := by
    cases hr : (loadSettings (initializeRegistry st).1 _).1.m_isTimerRunning with
    | false => rfl
    | true =>
      have := i1 hr
      rw [i3] at this
      unfold shutdownState at this
      rcases this with h | h | h <;> cases h
  have hact : (loadSettings (initializeRegistry st).1
      { m_shutdownTimer := { active := false, interval := 0 }
        m_cpuRecoveryTimer := { active := false, interval := 0 }
        m_isTimerRunning := false
        m_lastState := UpsState.Unknown
        m_currentPowerModeIsBattery := false
        m_shutdownDelay := delay0
        m_powerSafeEnabled := powerSafe0 }).1.m_shutdownTimer.active = false := by
    cases ha : (loadSettings (initializeRegistry st).1 _).1.m_shutdownTimer.active with
    | false => rfl
    | true =>
      have := i2 ha
      rw [hrun] at this
      cases this
  obtain ⟨k1, k2, k3, k4, k5⟩ := checkAndFixPowerProfile_keeps
    { (loadSettings (initializeRegistry st).1
        { m_shutdownTimer := { active := false, interval := 0 }
          m_cpuRecoveryTimer := { active := false, interval := 0 }
          m_isTimerRunning := false
          m_lastState := UpsState.Unknown
          m_currentPowerModeIsBattery := false
          m_shutdownDelay := delay0
          m_powerSafeEnabled := powerSafe0 }).1 with
      m_shutdownTimer := (loadSettings (initializeRegistry st).1
        { m_shutdownTimer := { active := false, interval := 0 }
          m_cpuRecoveryTimer := { active := false, interval := 0 }
          m_isTimerRunning := false
          m_lastState := UpsState.Unknown
          m_currentPowerModeIsBattery := false
          m_shutdownDelay := delay0
          m_powerSafeEnabled := powerSafe0 }).1.m_shutdownTimer.setInterval 30000
      m_cpuRecoveryTimer := (loadSettings (initializeRegistry st).1
        { m_shutdownTimer := { active := false, interval := 0 }
          m_cpuRecoveryTimer := { active := false, interval := 0 }
          m_isTimerRunning := false
          m_lastState := UpsState.Unknown
          m_currentPowerModeIsBattery := false
          m_shutdownDelay := delay0
          m_powerSafeEnabled := powerSafe0 }).1.m_cpuRecoveryTimer.setInterval 10000 }
    powerSaverActive
  unfold UpsMonitorCore.new
  dsimp only
  refine ⟨by rw [k1]; exact hrun, by rw [k2]; exact i3, ?_, by rw [k4]; exact v1,
    by rw [k5]; exact v2⟩
  rw [k3]
  show QIntervalTimer.setInterval _ 30000 = _
  unfold QIntervalTimer.setInterval
  rw [QIntervalTimer.mk.injEq]
  exact ⟨hact, rfl⟩

theorem UpsMonitorCore_new_inv (st : Settings) (delay0 : Int) (powerSafe0 : Bool)
    (powerSaverActive : Bool) :
    shutdownInvariant (UpsMonitorCore.new st delay0 powerSafe0 powerSaverActive).2.1 := by
  obtain ⟨h1, _, h3, _, _⟩ := UpsMonitorCore_new_state st delay0 powerSafe0 powerSaverActive
  exact ⟨fun h => (by rw [h1] at h; cases h), fun h => (by rw [h3] at h; cases h)⟩

theorem monitorRun_inv (events : List MonitorEvent) (c : UpsMonitorCore)
    (hinv : shutdownInvariant c) (hk : eventsKnown events) :
    shutdownInvariant (monitorRun c events).1 := by
  induction events generalizing c with
  | nil => exact hinv
  | cons e rest ih =>
    have hrest : eventsKnown rest := fun r hr => hk r (List.mem_cons_of_mem _ hr)
    simp only [monitorRun]
    apply ih _ _ hrest
    cases e with
    | report r => exact handleUpsReport_inv c r hinv (hk r (List.mem_cons_self _ _))
    | settingsChanged st => exact (loadSettings_inv st c hinv).1
    | shutdownTimeout => exact executeShutdown_inv c hinv
    | cpuRecoveryTimeout => exact restoreCpuSpeed_inv c hinv

/-- Claim C28: in every state the policy engine reaches from its constructor
(on any store) through reports that carry one of the six `UpsState` values,
settings reloads and expiries of its timers, `m_isTimerRunning` is true only
if the last handled state is OnBattery, BatteryCritical or OnlineFault, and the
shutdown timer runs only while `m_isTimerRunning` is true.  In such a state a
report with data-active false, and a report of a live sample in state
OnlineFull or OnlineCharging, leave `m_isTimerRunning` false and the shutdown
timer stopped. -/
theorem C28_shutdown_pending_only_in_shutdown_state (st : Settings) (delay0 : Int)
    (powerSafe0 : Bool) (powerSaverActive : Bool) (events : List MonitorEvent)
    (hknown : eventsKnown events) :
    ((monitorRun (UpsMonitorCore.new st delay0 powerSafe0 powerSaverActive).2.1
        events).1.m_isTimerRunning = true →
      shutdownState (monitorRun (UpsMonitorCore.new st delay0 powerSafe0 powerSaverActive).2.1
        events).1.m_lastState) ∧
    ((monitorRun (UpsMonitorCore.new st delay0 powerSafe0 powerSaverActive).2.1
        events).1.m_shutdownTimer.active = true →
      (monitorRun (UpsMonitorCore.new st delay0 powerSafe0 powerSaverActive).2.1
        events).1.m_isTimerRunning = true) ∧
    (∀ r : UpsReport, r.serviceStatus.dataCommunicationActive = false →
      (handleUpsReport (monitorRun (UpsMonitorCore.new st delay0 powerSafe0
        powerSaverActive).2.1 events).1 r).1.m_isTimerRunning = false ∧
      (handleUpsReport (monitorRun (UpsMonitorCore.new st delay0 powerSafe0
        powerSaverActive).2.1 events).1 r).1.m_shutdownTimer.active = false) ∧
    (∀ r : UpsReport, r.serviceStatus.dataCommunicationActive = true →
      (r.data.state = UpsState.OnlineFull ∨ r.data.state = UpsState.OnlineCharging) →
      (handleUpsReport (monitorRun (UpsMonitorCore.new st delay0 powerSafe0
        powerSaverActive).2.1 events).1 r).1.m_isTimerRunning = false ∧
      (handleUpsReport (monitorRun (UpsMonitorCore.new st delay0 powerSafe0
        powerSaverActive).2.1 events).1 r).1.m_shutdownTimer.active = false) := by
  have hinv := monitorRun_inv events _
    (UpsMonitorCore_new_inv st delay0 powerSafe0 powerSaverActive) hknown
  refine ⟨hinv.1, hinv.2, ?_, ?_⟩
  · intro r hr
    obtain ⟨h1, h2, _⟩ := handleUpsReport_inactive _ r hinv hr
    exact ⟨h1, h2⟩
  · intro r hr hs
    obtain ⟨h1, h2, _⟩ := handleUpsReport_online _ r hinv hr hs
    exact ⟨h1, h2⟩

/-- Claim C28 at the engine constructed on a store with a delay of 60 seconds:
a report in state OnBattery starts the countdown, and a report with
data-active false or in state OnlineFull then leaves nothing pending. -/
theorem C28_shutdown_pending_only_in_shutdown_state_witness :
    eventsKnown [MonitorEvent.report onBatteryReport] ∧
    (monitorRun (UpsMonitorCore.new delayOnlySettings 0 false false).2.1
      [MonitorEvent.report onBatteryReport]).1.m_isTimerRunning = true ∧
    shutdownState (monitorRun (UpsMonitorCore.new delayOnlySettings 0 false false).2.1
      [MonitorEvent.report onBatteryReport]).1.m_lastState ∧
    onlineFullReport.serviceStatus.dataCommunicationActive = true ∧
    (handleUpsReport (monitorRun (UpsMonitorCore.new delayOnlySettings 0 false false).2.1
        [MonitorEvent.report onBatteryReport]).1 onlineFullReport).1.m_isTimerRunning = false ∧
    (handleUpsReport (monitorRun (UpsMonitorCore.new delayOnlySettings 0 false false).2.1
        [MonitorEvent.report onBatteryReport]).1 onlineFullReport).1.m_shutdownTimer.active
      = false := by
  have hk : eventsKnown [MonitorEvent.report onBatteryReport] := by
    intro r hr
    simp only [List.mem_singleton, MonitorEvent.report.injEq] at hr
    subst hr
    unfold knownState
    decide
  have hrun : (monitorRun (UpsMonitorCore.new delayOnlySettings 0 false false).2.1
      [MonitorEvent.report onBatteryReport]).1.m_isTimerRunning = true := by decide
  have hact : onlineFullReport.serviceStatus.dataCommunicationActive = true := by decide
  exact ⟨hk, hrun,
    (C28_shutdown_pending_only_in_shutdown_state delayOnlySettings 0 false false
      [MonitorEvent.report onBatteryReport] hk).1 hrun,
    hact,
    ((C28_shutdown_pending_only_in_shutdown_state delayOnlySettings 0 false false
      [MonitorEvent.report onBatteryReport] hk).2.2.2 onlineFullReport hact (Or.inl rfl)).1,
    ((C28_shutdown_pending_only_in_shutdown_state delayOnlySettings 0 false false
      [MonitorEvent.report onBatteryReport] hk).2.2.2 onlineFullReport hact (Or.inl rfl)).2⟩

/-! ## C29: the length of the shutdown countdown -/

/-- Claim C29 (refuted): the constructor calls `loadSettings`, which sets the
interval of the shutdown timer to `m_shutdownDelay * 1000`, and then
`setInterval(30000)`: for every store the constructed engine has the interval
30000 and the stored delay.  On the store with a delay of 60 seconds the
engine has `m_shutdownDelay = 60`; a report in state OnBattery starts the
countdown (logged as started for 60 seconds) with the timer running for 30000
ms, not 60000 ms.  After a settings reload on the same store the same report
starts it with 60000 ms. -/
theorem C29_countdown_after_construction :
    (∀ (st : Settings) (delay0 : Int) (powerSafe0 powerSaverActive : Bool),
      (UpsMonitorCore.new st delay0 powerSafe0 powerSaverActive).2.1.m_shutdownTimer
        = ⟨false, 30000⟩ ∧
      (UpsMonitorCore.new st delay0 powerSafe0 powerSaverActive).2.1.m_shutdownDelay
        = (initializeRegistry st).1.valueInt AppConstants.REG_KEY_SHUTDOWN_DELAY 30) ∧
    (∀ (st : Settings) (c : UpsMonitorCore),
      (loadSettings st c).1.m_shutdownTimer.interval
        = wrapInt32 ((loadSettings st c).1.m_shutdownDelay * 1000)) ∧
    delay60Core.m_shutdownDelay = 60 ∧
    delay60Core.m_shutdownTimer = ⟨false, 30000⟩ ∧
    onBatteryReport.serviceStatus.dataCommunicationActive = true ∧
    onBatteryReport.data.state = UpsState.OnBattery ∧
    (handleUpsReport delay60Core onBatteryReport).1.m_isTimerRunning = true ∧
    (handleUpsReport delay60Core onBatteryReport).1.m_shutdownDelay = 60 ∧
    (handleUpsReport delay60Core onBatteryReport).1.m_shutdownTimer = ⟨true, 30000⟩ ∧
    MonitorOut.qDebug (.shutdownTimerStarted 60)
      ∈ (handleUpsReport delay60Core onBatteryReport).2 ∧
    (handleUpsReport (loadSettings delayOnlySettings delay60Core).1
      onBatteryReport).1.m_shutdownTimer = ⟨true, 60000⟩ := by
  refine ⟨?_, ?_, by decide, by decide, by decide, by decide, by decide, by decide, by decide,
    by decide, by decide⟩
  · intro st delay0 powerSafe0 powerSaverActive
    obtain ⟨_, _, h3, h4, _⟩ := UpsMonitorCore_new_state st delay0 powerSafe0 powerSaverActive
    exact ⟨h3, h4⟩
  · intro st c
    obtain ⟨h1, _, h3⟩ := loadSettings_values st c
    rw [h3, h1]

/-! ## C30: the power-safe setting -/

theorem handleUpsReport_ignores_powerSafe (c : UpsMonitorCore) (b : Bool) (r : UpsReport) :
    (handleUpsReport { c with m_powerSafeEnabled := b } r).2 = (handleUpsReport c r).2 := by
  obtain ⟨st, ⟨ca, ci⟩, run, last, mode, delay, ps⟩ := c
  unfold handleUpsReport
  by_cases h1 : ¬ r.serviceStatus.dataCommunicationActive = true
  · rw [if_pos h1, if_pos h1]
    cases run <;> rfl
  · rw [if_neg h1, if_neg h1]
    dsimp only
    by_cases h2 : r.data.state = UpsState.Unknown
    · rw [if_pos h2, if_pos h2]
    · rw [if_neg h2, if_neg h2]
      by_cases h3 : r.data.state = last
      · rw [if_pos h3, if_pos h3]
      · rw [if_neg h3, if_neg h3]
        by_cases h4 : r.data.state = UpsState.OnBattery ∨
            r.data.state = UpsState.BatteryCritical ∨ r.data.state = UpsState.OnlineFault
        · rw [if_pos h4, if_pos h4]
          unfold setPowerMode
          by_cases h5 : 0 < delay <;> cases ca <;> cases run <;> cases mode <;>
            simp [h2, h5]
        · rw [if_neg h4, if_neg h4]
          by_cases h6 : r.data.state = UpsState.OnlineFull ∨
              r.data.state = UpsState.OnlineCharging
          · rw [if_pos h6, if_pos h6]
            cases ca <;> cases run <;> rfl
          · rw [if_neg h6, if_neg h6]

/-- Claim C30 (refuted): `handleUpsReport` never reads `m_powerSafeEnabled`:
what it does is the same whatever the setting is.  The engine constructed on
the empty store has the setting false (the seeded default) and the balanced
profile; a report of a live sample in state OnBattery makes it request
`powercfg /setactive` with the power-saver scheme, with the setting still
false afterwards. -/
theorem C30_power_saver_despite_setting :
    (∀ (c : UpsMonitorCore) (b : Bool) (r : UpsReport),
      (handleUpsReport { c with m_powerSafeEnabled := b } r).2 = (handleUpsReport c r).2) ∧
    defaultCore.m_powerSafeEnabled = false ∧
    defaultCore.m_currentPowerModeIsBattery = false ∧
    onBatteryReport.serviceStatus.dataCommunicationActive = true ∧
    onBatteryReport.data.state = UpsState.OnBattery ∧
    MonitorOut.powercfgSetActive true ∈ (handleUpsReport defaultCore onBatteryReport).2 ∧
    (handleUpsReport defaultCore onBatteryReport).1.m_currentPowerModeIsBattery = true ∧
    (handleUpsReport defaultCore onBatteryReport).1.m_powerSafeEnabled = false := by
  refine ⟨handleUpsReport_ignores_powerSafe, by decide, by decide, by decide, by decide,
    by decide, by decide, by decide⟩

end LightUps
